import Mathlib

/-!
# OpenTag: clock/speed controller and PaLFi external-process task

A shallow embedding of

* `platform/stm32l0xx/core_main.c`: the speed request ledger
  (`sysclock_request`, `sysclock_dismiss`) and the three speed switches
  (`platform_standard_speed`, `platform_full_speed`, `platform_flank_speed`)
  with their subroutines, for a `MCU_CONFIG(MULTISPEED)` build;
* `apps/demo_palfi/code_slave/palfi.c`: the wake-up interrupt bridge, the
  timer edge-capture interrupt, the external-process callback `ext_systask`,
  the trimming action chains and the UHF message builder `sub_build_uhfmsg`;
* `otplatform/msp430f5/usb_cdc_driver/usb_isr.c`: the wake-up flag of
  `platform_isr_usb` and the setup packet handler it comes from.

Registers are natural numbers, `x &&& not32 m` is the C expression `x & ~m` on a
32-bit register.  Status flags that only the hardware drives (oscillator ready,
regulator busy, clock-switch status) are read from an oracle indexed by the
number of status polls made so far, so a wait loop may or may not terminate;
unbounded wait loops take fuel and return `none` when it runs out.
-/

namespace OpenTag

/-! ## Part 1: `core_main.c` -/

/-! ### Register bits.  `0x00000100` (MSION) and the mask `0xEEFAFFFE`
(HSION, HSEON, HSEBYP, CSSON, PLLON) appear in `platform_init_busclk`; each
ready flag is the bit above its enable bit (`sub_osc_startup`). -/

def _RCC_CR_HSI : Nat := 1
def RCC_CR_HSION : Nat := 0x00000001
def RCC_CR_HSIRDY : Nat := 0x00000004
def RCC_CR_MSION : Nat := 0x00000100
def RCC_CR_MSIRDY : Nat := 0x00000200
def RCC_CR_HSEON : Nat := 0x00010000
def RCC_CR_HSERDY : Nat := 0x00020000
def RCC_CR_HSEBYP : Nat := 0x00040000
def RCC_CR_PLLON : Nat := 0x01000000
def RCC_CR_PLLRDY : Nat := 0x02000000
def RCC_CFGR_STOPWUCK : Nat := 0x00008000
def FLASH_ACR_LATENCY : Nat := 0x00000001
def FLASH_ACR_PRFTEN : Nat := 0x00000002
def PWR_CR_DBP : Nat := 0x0100
def POWER_1V8 : Nat := 0x0800
def POWER_1V5 : Nat := 0x1000
def POWER_1V2 : Nat := 0x1800
def _RTC_PROTECTION : Nat := PWR_CR_DBP

/-- All ready flags of `RCC->CR`; these bits are driven by the hardware. -/
def RCC_CR_RDYBITS : Nat :=
  RCC_CR_HSIRDY ||| RCC_CR_MSIRDY ||| RCC_CR_HSERDY ||| RCC_CR_PLLRDY

/-- Complement of a mask in a 32-bit register: the C `~m`. -/
def not32 (m : Nat) : Nat := 0xFFFFFFFF ^^^ m

/-- Build configuration: the `BOARD_FEATURE`, `MCU_CONFIG`, `PLATFORM_` and
`BOARD_PARAM` settings that the board support header supplies.  The fields
`_PLL_SRC` to `_APB2_DIV` hold the values the preprocessor derives from
`BOARD_PARAM(PLLmult)`, `BOARD_PARAM(PLLdiv)` and the bus dividers.  `RQ_MOD` is
the number of values of a request counter of `platform_ext_struct`, whose
declaration is in a header. -/
structure Board where
  STDSPEED : Bool
  FULLSPEED : Bool
  FLANKSPEED : Bool
  PLL : Bool
  FULLXTAL : Bool
  FLANKXTAL : Bool
  HFBYPASS : Bool
  USB : Bool
  PLATFORM_MSCLOCK_HZ : Nat
  PLATFORM_HSCLOCK_HZ : Nat
  PLATFORM_PLLCLOCK_HZ : Nat
  _PLL_SRC : Nat
  _PLL_MULT : Nat
  _PLL_DIV : Nat
  _APB1_DIV : Nat
  _APB2_DIV : Nat
  RQ_MOD : Nat
deriving DecidableEq, Repr

/-- Hardware-driven status, indexed by the number of status polls so far. -/
structure Hardware where
  /-- ready flags the hardware presents in `RCC->CR` at a poll -/
  cr_ready : Nat → Nat
  /-- `PWR->CSR & PWR_CSR_VOSF` reads nonzero (regulator busy) at a poll -/
  vosf : Nat → Bool
  /-- at a poll, the clock switch has completed: SWS reflects SW in `RCC->CFGR` -/
  sw_done : Nat → Bool

/-- The registers and variables the speed controller reads and writes.  `polls`
counts the status polls made by wait loops; it only indexes the oracle. -/
structure Clk where
  RCC_CR : Nat
  RCC_CFGR : Nat
  FLASH_ACR : Nat
  PWR_CR : Nat
  irq_enabled : Bool
  hsxtal : Bool
  clock_hz0 : Nat
  clock_hz1 : Nat
  clock_hz2 : Nat
  rqfull : Nat
  rqflank : Nat
  polls : Nat
deriving DecidableEq, Repr

/-- Values of `SPEED_enum`.  The handler names `SPEED_Full` and `SPEED_Flank`;
`SPEED_Std` stands for every other value (the `default:` label). -/
inductive SPEED_enum where
  | SPEED_Std
  | SPEED_Full
  | SPEED_Flank
deriving DecidableEq, Repr

open SPEED_enum

/-! ### Configuration macros (lines 129-306) -/

/-- The macros of the flank oscillator are defined when this holds; where it
fails the preprocessor reads them as 0. -/
def _USE_PLL (b : Board) : Bool := b.FLANKSPEED || b.PLL

def _FLANKSPEED_VOLTAGE : Nat := POWER_1V8
def _STDSPEED_VOLTAGE : Nat := POWER_1V2

def _FLANKSPEED_FLASHWAIT (b : Board) : Bool :=
  decide (b.PLATFORM_PLLCLOCK_HZ > 16000000)

def _FLANKOSC_ONBIT (b : Board) : Nat :=
  if b.FLANKXTAL then
    (if b.HFBYPASS then RCC_CR_HSEON ||| RCC_CR_HSEBYP else RCC_CR_HSEON)
  else _RCC_CR_HSI

def _FLANKOSC_CLOCKBIT (b : Board) : Nat :=
  if b.FLANKXTAL then 3 else 3 ||| RCC_CFGR_STOPWUCK

def _FLANKOSC_TIMEOUT (b : Board) : Nat :=
  if b.FLANKXTAL then (if b.HFBYPASS then 1000 else 3000) else 300

def _FULLSPEED_VOLTAGE (b : Board) : Nat :=
  if b.PLATFORM_HSCLOCK_HZ > 16000000 then POWER_1V8
  else if b.USB && decide (b.PLATFORM_HSCLOCK_HZ ≤ 16000000) then POWER_1V8
  else if b.PLATFORM_HSCLOCK_HZ > 8000000 then POWER_1V5
  else if b.PLATFORM_HSCLOCK_HZ > 4000000 then POWER_1V5
  else POWER_1V2

def _FULLSPEED_FLASHWAIT (b : Board) : Bool :=
  if b.PLATFORM_HSCLOCK_HZ > 16000000 then true
  else if b.USB && decide (b.PLATFORM_HSCLOCK_HZ ≤ 16000000) then false
  else if b.PLATFORM_HSCLOCK_HZ > 8000000 then true
  else if b.PLATFORM_HSCLOCK_HZ > 4000000 then false
  else if b.PLATFORM_HSCLOCK_HZ > 2000000 then true
  else false

def _FULLOSC_ONBIT (b : Board) : Nat :=
  if b.FULLXTAL then
    (if b.HFBYPASS then RCC_CR_HSEON ||| RCC_CR_HSEBYP else RCC_CR_HSEON)
  else _RCC_CR_HSI

def _FULLOSC_CLOCKBIT (b : Board) : Nat :=
  if b.FULLXTAL then 2 else 1 ||| RCC_CFGR_STOPWUCK

def _FULLOSC_TIMEOUT (b : Board) : Nat :=
  if b.FULLXTAL then (if b.HFBYPASS then 1000 else 3000) else 300

/-! Speed-change macros of the `MCU_CONFIG(MULTISPEED)` branch. -/

def _STDSPEED_ON (b : Board) (s : Clk) : Bool :=
  b.STDSPEED && decide (s.RCC_CR &&& RCC_CR_MSION ≠ 0)

def _STDSPEED_OFF (b : Board) (s : Clk) : Bool :=
  if b.STDSPEED then decide (s.RCC_CR &&& RCC_CR_MSION = 0) else true

def _FULLSPEED_ON (b : Board) (s : Clk) : Bool :=
  b.FULLSPEED && decide (s.RCC_CR &&& (RCC_CR_PLLON ||| RCC_CR_MSION) = 0)

def _FULLSPEED_OFF (b : Board) (s : Clk) : Bool :=
  if b.FULLSPEED then decide (s.RCC_CR &&& (RCC_CR_PLLON ||| RCC_CR_MSION) ≠ 0) else true

def _FULLRQ (b : Board) (s : Clk) : Bool :=
  b.FULLSPEED && decide (s.rqfull ≠ 0)

def _FLANKSPEED_ON (b : Board) (s : Clk) : Bool :=
  b.FLANKSPEED && decide (s.RCC_CR &&& RCC_CR_PLLON ≠ 0)

def _FLANKSPEED_OFF (b : Board) (s : Clk) : Bool :=
  if b.FLANKSPEED then decide (s.RCC_CR &&& RCC_CR_PLLON = 0) else true

def _FLANKRQ (b : Board) (s : Clk) : Bool :=
  b.FLANKSPEED && decide (s.rqflank ≠ 0)

def _STDFULL_DOWNVOLT (b : Board) (s : Clk) : Bool :=
  _FULLSPEED_ON b s && decide (_FULLSPEED_VOLTAGE b ≠ _STDSPEED_VOLTAGE)

def _STDFLANK_DOWNVOLT (b : Board) (s : Clk) : Bool :=
  _FLANKSPEED_ON b s && decide (_STDSPEED_VOLTAGE ≠ _FLANKSPEED_VOLTAGE)

def _STD_DOWNVOLT (b : Board) (s : Clk) : Bool :=
  _STDFLANK_DOWNVOLT b s || _STDFULL_DOWNVOLT b s

def _FULL_UPVOLT (b : Board) (s : Clk) : Bool :=
  _STDSPEED_ON b s && decide (_FULLSPEED_VOLTAGE b ≠ _STDSPEED_VOLTAGE)

def _FULL_DOWNVOLT (b : Board) (s : Clk) : Bool :=
  _FLANKSPEED_ON b s && decide (_FULLSPEED_VOLTAGE b ≠ _FLANKSPEED_VOLTAGE)

def _FLANKSTD_UPVOLT (b : Board) (s : Clk) : Bool :=
  _STDSPEED_ON b s && decide (_STDSPEED_VOLTAGE ≠ _FLANKSPEED_VOLTAGE)

def _FLANKFULL_UPVOLT (b : Board) (s : Clk) : Bool :=
  _FULLSPEED_ON b s && decide (_FULLSPEED_VOLTAGE b ≠ _FLANKSPEED_VOLTAGE)

def _FLANK_UPVOLT (b : Board) (s : Clk) : Bool :=
  _FLANKSTD_UPVOLT b s || _FLANKFULL_UPVOLT b s

/-! ### Wait loops -/

/-- A wait loop `while (!done) { }` on a hardware status flag: polls at
`t, t+1, ...` and returns the poll count after the first successful poll. -/
def busy_wait (done : Nat → Bool) : Nat → Nat → Option Nat
  | 0, _ => none
  | fuel + 1, t => if done t then some (t + 1) else busy_wait done fuel (t + 1)

/-- The value a poll number `t` reads from `RCC->CR`. -/
def rd_RCC_CR (hw : Hardware) (t : Nat) (cr : Nat) : Nat :=
  cr ||| (hw.cr_ready t &&& RCC_CR_RDYBITS)

/-- The value a poll number `t` reads from `RCC->CFGR`: once the switch has
completed the status field SWS (bits 2-3) equals the selection SW (bits 0-1). -/
def rd_RCC_CFGR (hw : Hardware) (t : Nat) (cfgr : Nat) : Nat :=
  if hw.sw_done t then (cfgr &&& not32 (3 <<< 2)) ||| ((cfgr &&& 3) <<< 2) else cfgr

/-! ### Local subroutines (lines 408-457) -/

def sub_voltage_config (hw : Hardware) (fuel : Nat) (pwr_cr_vos_x : Nat) (s : Clk) :
    Option Clk := do
  let scratch := (s.PWR_CR &&& not32 ((3 <<< 11) ||| (1 <<< 8) ||| (7 <<< 5))) % 65536
  let scratch := (scratch ||| pwr_cr_vos_x) % 65536
  let s := { s with PWR_CR := scratch }
  -- while((PWR->CSR & PWR_CSR_VOSF) != 0) { }
  let t ← busy_wait (fun t => !hw.vosf t) fuel s.polls
  pure { s with polls := t }

/-- The loop `while (((RCC->CR & osc_mask) == 0) && (--counter));` of
`sub_osc_startup`, `counter` being an `ot_u16`.  It ends within 65536 polls, so
the first argument never runs out when started at 65536.  Returns the final
counter and the poll count. -/
def sub_osc_startup_loop (hw : Hardware) (cr osc_mask : Nat) : Nat → Nat → Nat → Nat × Nat
  | 0, counter, t => (counter, t)
  | n + 1, counter, t =>
    if rd_RCC_CR hw t cr &&& osc_mask = 0 then
      let counter := (counter + 65535) % 65536
      if counter ≠ 0 then sub_osc_startup_loop hw cr osc_mask n counter (t + 1)
      else (counter, t + 1)
    else (counter, t + 1)

def sub_osc_startup (hw : Hardware) (counter : Nat) (osc_mask : Nat) (s : Clk) : Clk :=
  let s := { s with RCC_CR := s.RCC_CR ||| osc_mask }
  let osc_mask := (osc_mask <<< (osc_mask &&& 1)) % 2 ^ 32
  let osc_mask := (osc_mask <<< 1) % 2 ^ 32
  let r := sub_osc_startup_loop hw s.RCC_CR osc_mask 65536 (counter % 65536) s.polls
  -- if (counter == 0) { /* todo: death message */ }
  { s with polls := r.2 }

/-- The loop `while ((RCC->CFGR & (3<<2)) != clock_mask);` of `sub_osc_setclock`. -/
def sub_osc_setclock_loop (hw : Hardware) (clock_mask : Nat) : Nat → Clk → Option Clk
  | 0, _ => none
  | fuel + 1, s =>
    let v := rd_RCC_CFGR hw s.polls s.RCC_CFGR
    let s := { s with RCC_CFGR := v, polls := s.polls + 1 }
    if v &&& (3 <<< 2) ≠ clock_mask then sub_osc_setclock_loop hw clock_mask fuel s
    else some s

def sub_osc_setclock (hw : Hardware) (fuel : Nat) (clock_mask : Nat) (s : Clk) : Option Clk :=
  let scratch := s.RCC_CFGR &&& not32 (3 ||| RCC_CFGR_STOPWUCK)
  let scratch := scratch ||| clock_mask
  let clock_mask := (clock_mask &&& 3) <<< 2
  let s := { s with RCC_CFGR := scratch }
  sub_osc_setclock_loop hw clock_mask fuel s

def sub_set_clockhz (cpu_clock_hz : Nat) (s : Clk) : Clk :=
  { s with clock_hz0 := cpu_clock_hz >>> 0,
           clock_hz1 := cpu_clock_hz >>> 0,
           clock_hz2 := cpu_clock_hz >>> 0 }

def platform_disable_interrupts (s : Clk) : Clk := { s with irq_enabled := false }

def platform_enable_interrupts (s : Clk) : Clk := { s with irq_enabled := true }

/-! ### PLL control and the speed switches (lines 546-797) -/

def platform_ext_pllon (b : Board) (hw : Hardware) (fuel : Nat) (s : Clk) : Option Clk :=
  if b.PLL then do
    let s ← (if _FLANK_UPVOLT b s then
        sub_voltage_config hw fuel (POWER_1V8 ||| PWR_CR_DBP ||| (2 <<< 5)) s
      else pure s)
    -- BOARD_HSXTAL_ON();
    let s := { s with hsxtal := true }
    let s := sub_osc_startup hw (_FLANKOSC_TIMEOUT b) (_FLANKOSC_ONBIT b) s
    let s := { s with RCC_CR := s.RCC_CR ||| RCC_CR_PLLON }
    -- while((RCC->CR & RCC_CR_PLLRDY) == 0) { }
    let t ← busy_wait (fun t => decide (rd_RCC_CR hw t s.RCC_CR &&& RCC_CR_PLLRDY ≠ 0))
              fuel s.polls
    pure { s with polls := t }
  else pure s

/-- The source spells two names wrongly in this function (`STD_DOWNVOLT`,
`platform_ensable_interrupts`); they are read as `_STD_DOWNVOLT` and
`platform_enable_interrupts`. -/
def platform_standard_speed (b : Board) (hw : Hardware) (fuel : Nat) (s : Clk) : Option Clk :=
  if b.STDSPEED then
    if _STDSPEED_OFF b s then do
      let s := platform_disable_interrupts s
      let s := sub_osc_startup hw 300 RCC_CR_MSION s
      let s ← sub_osc_setclock hw fuel 0 s
      let s := { s with FLASH_ACR := 0 }
      let s ← (if _STD_DOWNVOLT b s then
          sub_voltage_config hw fuel (_STDSPEED_VOLTAGE ||| _RTC_PROTECTION) s
        else pure s)
      let s := if b.FULLSPEED && decide (_FULLOSC_ONBIT b &&& _RCC_CR_HSI ≠ 0) then
          { s with RCC_CFGR := s.RCC_CFGR &&& not32 RCC_CFGR_STOPWUCK }
        else s
      let s := { s with RCC_CR := s.RCC_CR &&& not32 (RCC_CR_PLLON ||| RCC_CR_HSEON ||| _RCC_CR_HSI) }
      let s := sub_set_clockhz b.PLATFORM_MSCLOCK_HZ s
      pure (platform_enable_interrupts s)
    else pure s
  else pure s

def platform_full_speed (b : Board) (hw : Hardware) (fuel : Nat) (s : Clk) : Option Clk :=
  if b.FULLSPEED then
    -- if ( _FULLSPEED_OFF() /* && !_FLANKRQ() */ )
    if _FULLSPEED_OFF b s then do
      let s := platform_disable_interrupts s
      let s ← (if _FULL_UPVOLT b s then
          sub_voltage_config hw fuel (_FULLSPEED_VOLTAGE b ||| _RTC_PROTECTION) s
        else pure s)
      let s := sub_osc_startup hw (_FULLOSC_TIMEOUT b) (_FULLOSC_ONBIT b) s
      let s ← (if _FULLSPEED_FLASHWAIT b then
          sub_osc_setclock hw fuel (_FULLOSC_CLOCKBIT b)
            { s with FLASH_ACR := FLASH_ACR_PRFTEN ||| FLASH_ACR_LATENCY }
        else
          (sub_osc_setclock hw fuel (_FULLOSC_CLOCKBIT b) s).map
            (fun s => { s with FLASH_ACR := FLASH_ACR_PRFTEN }))
      let s ← (if _FULL_DOWNVOLT b s then
          sub_voltage_config hw fuel (_FULLSPEED_VOLTAGE b ||| _RTC_PROTECTION) s
        else pure s)
      let s := if (_USE_PLL b && decide (_FLANKOSC_ONBIT b &&& _RCC_CR_HSI ≠ 0))
                  || (b.FULLSPEED && decide (_FULLOSC_ONBIT b &&& _RCC_CR_HSI ≠ 0)) then
          { s with RCC_CFGR := s.RCC_CFGR ||| RCC_CFGR_STOPWUCK }
        else s
      let s := { s with RCC_CR := s.RCC_CR &&& not32 (RCC_CR_MSION ||| RCC_CR_PLLON) }
      let s := sub_set_clockhz b.PLATFORM_HSCLOCK_HZ s
      pure (platform_enable_interrupts s)
    else pure s
  else pure s

def platform_flank_speed (b : Board) (hw : Hardware) (fuel : Nat) (s : Clk) : Option Clk :=
  if b.FLANKSPEED then
    if _FLANKSPEED_OFF b s then do
      let s := platform_disable_interrupts s
      let s ← platform_ext_pllon b hw fuel s
      let s := if b.STDSPEED || b.FULLSPEED then
          { s with RCC_CFGR := b._PLL_SRC ||| b._PLL_MULT ||| b._PLL_DIV ||| (8 <<< 4)
                                 ||| b._APB1_DIV ||| b._APB2_DIV }
        else s
      let s ← (if _FLANKSPEED_FLASHWAIT b then
          sub_osc_setclock hw fuel (_FLANKOSC_CLOCKBIT b)
            { s with FLASH_ACR := FLASH_ACR_PRFTEN ||| FLASH_ACR_LATENCY }
        else
          (sub_osc_setclock hw fuel (_FLANKOSC_CLOCKBIT b) s).map
            (fun s => { s with FLASH_ACR := FLASH_ACR_PRFTEN }))
      let s := if b.FULLSPEED && decide (_FULLOSC_ONBIT b &&& RCC_CR_HSION ≠ 0) then
          { s with RCC_CFGR := s.RCC_CFGR &&& not32 RCC_CFGR_STOPWUCK }
        else s
      let s := { s with RCC_CR := s.RCC_CR &&& not32 RCC_CR_MSION }
      let s := sub_set_clockhz b.PLATFORM_PLLCLOCK_HZ s
      pure (platform_enable_interrupts s)
    else pure s
  else platform_full_speed b hw fuel s

/-! ### The speed request ledger (lines 636-675) -/

def sysclock_request (b : Board) (hw : Hardware) (fuel : Nat) (Speed : SPEED_enum) (s : Clk) :
    Option (Int × Clk) :=
  match Speed with
  | SPEED_Full =>
    if b.FULLSPEED then do
      let s ← platform_full_speed b hw fuel s
      let s := { s with rqfull := (s.rqfull + 1) % b.RQ_MOD }
      pure (0, s)
    else pure (-1, s)
  | SPEED_Flank =>
    if b.FLANKSPEED then do
      let s ← platform_flank_speed b hw fuel s
      let s := { s with rqflank := (s.rqflank + 1) % b.RQ_MOD }
      pure (1, s)
    else pure (-1, s)
  | SPEED_Std => pure (-1, s)

/-- The array `rqspeed` of `platform_ext_struct` overlays the two counters:
index 0 is `rqfull`, index 1 is `rqflank`, the handles `sysclock_request`
returns.  The condition is written `if (a) || (b) {` in the source and read as
`if ((a) || (b)) {`. -/
def sysclock_dismiss (b : Board) (hw : Hardware) (fuel : Nat) (handle : Int) (s : Clk) :
    Option (Int × Clk) :=
  if handle < 0 ∨ handle > (if b.FLANKSPEED then 1 else 0) then pure (-1, s)
  else do
    let s := if handle = 0 then { s with rqfull := (s.rqfull + b.RQ_MOD - 1) % b.RQ_MOD }
             else { s with rqflank := (s.rqflank + b.RQ_MOD - 1) % b.RQ_MOD }
    let s ← (if _FLANKRQ b s then platform_flank_speed b hw fuel s
            else if _FULLRQ b s then platform_full_speed b hw fuel s
            else platform_standard_speed b hw fuel s)
    pure (0, s)

/-! ### The ledger invariant, in the words of the specification -/

/-- The regime the clock tree is in, read from `RCC->CR` as the speed macros
read it: flank when the PLL is on, standard when the MSI is on, full when
neither is on.  A state with both on is in no regime. -/
def active_regime (s : Clk) : Option SPEED_enum :=
  if s.RCC_CR &&& RCC_CR_PLLON ≠ 0 then
    (if s.RCC_CR &&& RCC_CR_MSION ≠ 0 then none else some SPEED_Flank)
  else if s.RCC_CR &&& RCC_CR_MSION ≠ 0 then some SPEED_Std
  else some SPEED_Full

/-- The regime the ledger selects: the highest-priority regime with a nonzero
request counter (flank, then full), standard when both counters are zero. -/
def requested_regime (s : Clk) : SPEED_enum :=
  if s.rqflank ≠ 0 then SPEED_Flank
  else if s.rqfull ≠ 0 then SPEED_Full
  else SPEED_Std

/-- Speed Request Ledger invariant. -/
def ledger_inv (s : Clk) : Prop := active_regime s = some (requested_regime s)

instance (s : Clk) : Decidable (ledger_inv s) := by
  unfold ledger_inv; infer_instance

/-- The request counters hold values of their type. -/
def counters_in_range (b : Board) (s : Clk) : Prop :=
  s.rqfull < b.RQ_MOD ∧ s.rqflank < b.RQ_MOD

/-- The two request counters are the same in both states. -/
def same_ledger (s s' : Clk) : Prop :=
  s'.rqfull = s.rqfull ∧ s'.rqflank = s.rqflank

/-- The PLL and the MSI are not both on: the state is in one of the regimes. -/
def regime_defined (s : Clk) : Prop :=
  s.RCC_CR &&& RCC_CR_PLLON ≠ 0 → s.RCC_CR &&& RCC_CR_MSION = 0

/-- The request counter of a regime: `rqflank` for flank, `rqfull` otherwise. -/
def ledger_count (Speed : SPEED_enum) (s : Clk) : Nat :=
  if Speed = SPEED_Flank then s.rqflank else s.rqfull

/-- The request counter of the other regime. -/
def ledger_other (Speed : SPEED_enum) (s : Clk) : Nat :=
  if Speed = SPEED_Flank then s.rqfull else s.rqflank

/-- The handle `sysclock_request` returns for a regime it serves. -/
def handle_of (Speed : SPEED_enum) : Int :=
  if Speed = SPEED_Flank then 1 else 0

/-- The highest handle `sysclock_dismiss` accepts: 1 when flank speed is
enabled, 0 otherwise. -/
def highest_handle (b : Board) : Int := if b.FLANKSPEED then 1 else 0

/-- Every wait of the speed controller is answered within `d` polls: the
regulator stops being busy, the clock switch completes, the PLL locks. -/
def Hardware.responsive (hw : Hardware) (d : Nat) : Prop :=
  ∀ t, (∃ k, k < d ∧ hw.vosf (t + k) = false)
     ∧ (∃ k, k < d ∧ hw.sw_done (t + k) = true)
     ∧ (∃ k, k < d ∧ hw.cr_ready (t + k) &&& RCC_CR_PLLRDY ≠ 0)

/-- One call of a caller that requests and dismisses one regime. -/
inductive LedgerOp where
  | request
  | dismiss
deriving DecidableEq, Repr

/-- Every dismiss of the sequence follows a request of its own, and `pending`
plus the requests of the sequence are as many as its dismissals. -/
def paired : List LedgerOp → Nat → Bool
  | [], pending => pending == 0
  | LedgerOp.request :: ops, pending => paired ops (pending + 1)
  | LedgerOp.dismiss :: _, 0 => false
  | LedgerOp.dismiss :: ops, pending + 1 => paired ops pending

/-- Runs a sequence of calls for one regime.  `handles` holds the handles that
requests returned and that are not dismissed yet; a dismiss passes the latest
of them to `sysclock_dismiss`.  A dismiss without such a handle ends the run. -/
def run_ledger (b : Board) (hw : Hardware) (fuel : Nat) (Speed : SPEED_enum) :
    List LedgerOp → List Int → Clk → Option Clk
  | [], _, s => some s
  | LedgerOp.request :: ops, handles, s =>
    match sysclock_request b hw fuel Speed s with
    | some (h, s1) => run_ledger b hw fuel Speed ops (h :: handles) s1
    | none => none
  | LedgerOp.dismiss :: _, [], _ => none
  | LedgerOp.dismiss :: ops, h :: handles, s =>
    match sysclock_dismiss b hw fuel h s with
    | some (_, s1) => run_ledger b hw fuel Speed ops handles s1
    | none => none

/-! ### Concrete board, hardware and states used to evaluate the controller -/

/-- A board with the three regimes on the internal oscillators: MSI 4.2 MHz,
HSI 16 MHz, PLL 32 MHz (HSI x4 /2), 8-bit request counters. -/
def board_all : Board :=
  { STDSPEED := true, FULLSPEED := true, FLANKSPEED := true, PLL := true,
    FULLXTAL := false, FLANKXTAL := false, HFBYPASS := false, USB := false,
    PLATFORM_MSCLOCK_HZ := 4200000, PLATFORM_HSCLOCK_HZ := 16000000,
    PLATFORM_PLLCLOCK_HZ := 32000000,
    _PLL_SRC := 0, _PLL_MULT := 1 <<< 18, _PLL_DIV := 1 <<< 22,
    _APB1_DIV := 0, _APB2_DIV := 0, RQ_MOD := 256 }

/-- Hardware that answers every poll at once. -/
def hw_ideal : Hardware :=
  { cr_ready := fun _ => RCC_CR_RDYBITS, vosf := fun _ => false, sw_done := fun _ => true }

/-- Hardware on which no oscillator ever reports ready and no clock switch ever
completes; the voltage regulator is never busy. -/
def hw_dead : Hardware :=
  { cr_ready := fun _ => 0, vosf := fun _ => false, sw_done := fun _ => false }

/-- The state `platform_init_busclk` leaves on a board with standard speed:
MSI on and selected, no request outstanding. -/
def clk_boot : Clk :=
  { RCC_CR := 0x100, RCC_CFGR := 0, FLASH_ACR := 0, PWR_CR := 0x1900, irq_enabled := true,
    hsxtal := false, clock_hz0 := 4200000, clock_hz1 := 4200000, clock_hz2 := 4200000,
    rqfull := 0, rqflank := 0, polls := 0 }

/-- The state after `sysclock_request(SPEED_Flank)` from `clk_boot`: PLL on and
selected, one flank request outstanding. -/
def clk_flank : Clk :=
  { RCC_CR := 0x1000001, RCC_CFGR := 0x44008F, FLASH_ACR := 3, PWR_CR := 0x940,
    irq_enabled := true, hsxtal := true,
    clock_hz0 := 32000000, clock_hz1 := 32000000, clock_hz2 := 32000000,
    rqfull := 0, rqflank := 1, polls := 4 }

/-- The state of `clk_boot` with a full-speed request recorded while the MSI
is still the system clock. -/
def clk_std_rqfull : Clk := { clk_boot with rqfull := 1 }

/-! ## Part 2: `palfi.c` -/

/-- Number of switches attached to the PaLFi core (the default of the file). -/
def PALFI_SWITCHES : Nat := 2

/-- Build settings of the PaLFi application: the two alert channels
(`APP_FEATURE_CHAN1`, `APP_FEATURE_CHAN2`, each 0x07 when not set) and the
clock constants of the board. -/
structure PalfiCfg where
  ALERT_CHAN1 : Nat
  ALERT_CHAN2 : Nat
  PLATFORM_HSCLOCK_HZ : Nat
  PLATFORM_SMCLK_DIV : Nat
deriving DecidableEq, Repr

/-- The steps `palfi.action` can point to. -/
inductive Action where
  | palfi_action_spitrim_0
  | palfi_action_spitrim_1
  | palfi_action_spitrim_2
  | palfi_action_spitrim_3
  | palfi_action_spitrim_4
  | palfi_action_spitrim_5
  | palfi_action_swtrim_0
  | palfi_action_swtrim_1
deriving DecidableEq, Repr

/-- The fields of `session_tmpl` that `ext_systask` fills in. -/
structure session_tmpl where
  channel : Nat
  subnetmask : Nat
  flagmask : Nat
deriving DecidableEq, Repr

/-- Timer control values of the MSP430 device header. -/
def TACLR : Nat := 0x0004
def TASSEL_2 : Nat := 0x0200
def MC_2 : Nat := 0x0020

/-- State of the PaLFi application: the kernel task `sys.task[TASK_external]`,
the variable `palfi`, the pins and peripheral bits the file drives (one Boolean
per masked bit), and the record of the calls it makes to other modules.  Floats
are idealised as rationals. -/
structure Palfi where
  -- sys.task[TASK_external]
  event : Nat
  reserve : Nat
  latency : Nat
  nextevent : Int
  -- palfi
  status0 : Nat
  status1 : Nat
  status2 : Nat
  status3 : Nat
  wake_event : Nat
  rssi_info : Nat
  rssi1 : Nat
  rssi2 : Nat
  rssi3 : Nat
  read_addr : Nat
  read_ext : Nat
  rxdata : List Nat
  channel : Nat
  action : Action
  trim_count : Nat
  trim_startcount : Nat
  trim_endcount : Nat
  trim_startval : Nat
  trim_endval : Nat
  trim_tlow : List Rat
  trim_thigh : List Rat
  trimval : List Int
  -- PALFI_WAKE_PORT->IE, ->IFG at PALFI_WAKE_PIN
  wake_ie : Bool
  wake_ifg : Bool
  -- PALFI_SPI->CTL1 at UCSWRST, PALFI_SPI_PORT->SEL at PALFI_SPI_PINS
  spi_swrst : Bool
  spi_sel : Bool
  -- PALFI_SPICS_PORT->DOUT at PALFI_SPICS_PIN
  spi_cs : Bool
  -- PALFI_BYPASS_PORT->DOUT, PALFI_VCLD_PORT->DOUT, LED3
  bypass : Bool
  vcld : Bool
  led3 : Bool
  -- PALFI_TIM->CTL, ->CCTL0 at CCIE and CCIFG
  tim_ctl : Nat
  tim_ccie : Bool
  tim_ccifg : Bool
  -- bytes written to PALFI_SPI->TXBUF, oldest first
  spi_tx : List Nat
  -- templates passed to m2task_immediate, oldest first
  m2task : List session_tmpl
  -- delays passed to sys_task_setnext and to sys_preempt, oldest first
  setnext : List Nat
  preempt : List Nat

/-! ### Kernel calls -/

/-- Modelled from the spec: `sys_task_setevent` of the kernel (not in this
file) is `set_event(task, code)`: it sets the event code, an `ot_u8`. -/
def sys_task_setevent (event : Nat) (s : Palfi) : Palfi := { s with event := event % 256 }

/-- Modelled from the spec: `sys_task_setreserve` is `set_reserve(task, duration)`. -/
def sys_task_setreserve (reserve : Nat) (s : Palfi) : Palfi := { s with reserve := reserve }

/-- Modelled from the spec: `sys_task_setlatency` is `set_latency(task, rank)`. -/
def sys_task_setlatency (latency : Nat) (s : Palfi) : Palfi := { s with latency := latency }

/-- Modelled from the spec: `sys_task_setnext` is `set_delay(task, duration)`:
it requests that the task be invoked again after that many ticks.  The call is
recorded. -/
def sys_task_setnext (next : Nat) (s : Palfi) : Palfi :=
  { s with nextevent := (next : Int), setnext := s.setnext ++ [next] }

/-- Modelled from the spec: `sys_preempt` is `preempt(task, delay)`: the
scheduler re-evaluates the due tasks after `delay`.  The call is recorded. -/
def sys_preempt (delay : Nat) (s : Palfi) : Palfi := { s with preempt := s.preempt ++ [delay] }

/-- Modelled from the spec: `m2task_immediate` is the downstream message
emission: it enqueues a session built from the template.  The call is
recorded. -/
def m2task_immediate (s_tmpl : session_tmpl) (s : Palfi) : Palfi :=
  { s with m2task := s.m2task ++ [s_tmpl] }

/-! ### SPI primitives (lines 560-701) -/

/-- One blocking SPI transfer.  The transfer is taken to complete (the waits on
the BUSY pin and on the SPI flags end); the byte read back is what the PaLFi
core answers to the bytes written so far, `miso`. -/
def sub_spi_trx (miso : List Nat → Nat) (write : Nat) (s : Palfi) : Nat × Palfi :=
  let s := { s with spi_cs := false, spi_tx := s.spi_tx ++ [write % 256] }
  (miso s.spi_tx % 256, s)

/-- The loop `while (size >= 0) { sub_spi_trx(*src++); size--; }`, by the number
`size + 1` of iterations left.  A read past the end of the buffer gives 0. -/
def palfi_writeout_loop (miso : List Nat → Nat) : Nat → List Nat → Palfi → Palfi
  | 0, _, s => s
  | k + 1, src, s => palfi_writeout_loop miso k src.tail (sub_spi_trx miso (src.headD 0) s).2

def palfi_writeout (miso : List Nat → Nat) (src : List Nat) (s : Palfi) : Palfi :=
  let size := src.headD 0 % 256
  palfi_writeout_loop miso (size + 1) src s

/-- The loop `while (size >= 0) { sub_spi_trx(*src++); size--; }` of
`palfi_writeout` as the source writes it: `size` is an `ot_int`, a signed 16-bit
integer, and each test of the condition uses one unit of fuel. -/
def palfi_writeout_while_loop (miso : List Nat → Nat) : Nat → Int → List Nat → Palfi → Option Palfi
  | 0, _, _, _ => none
  | fuel + 1, size, src, s =>
    if size ≥ 0 then
      let s := (sub_spi_trx miso (src.headD 0) s).2
      let size := (size - 1 + 32768) % 65536 - 32768
      palfi_writeout_while_loop miso fuel size src.tail s
    else some s

/-- The function `palfi_writeout` with its loop as written, `ot_int size = *src;`
first. -/
def palfi_writeout_while (miso : List Nat → Nat) (fuel : Nat) (src : List Nat) (s : Palfi) :
    Option Palfi :=
  palfi_writeout_while_loop miso fuel ((src.headD 0 % 256 : Nat) : Int) src s

/-- Reads `size` bytes with dummy writes; returns them in order. -/
def palfi_readback (miso : List Nat → Nat) : Nat → Palfi → List Nat × Palfi
  | 0, s => ([], s)
  | size + 1, s =>
    let r := sub_spi_trx miso 0x00 s
    let rest := palfi_readback miso size r.2
    (r.1 :: rest.1, rest.2)

def palfi_powerdown (miso : List Nat → Nat) (s : Palfi) : Palfi :=
  let s := palfi_writeout miso [3, 0xF3, 0x41, 0x0F] s
  let s := { s with spi_swrst := true }
  let s := { s with wake_ifg := false }
  let s := { s with wake_ie := true }
  let s := { s with wake_event := 0 }
  sys_task_setevent 0 s

def palfi_spi_startup (s : Palfi) : Palfi :=
  let s := { s with wake_ie := false }
  let s := { s with spi_sel := false }
  let s := { s with spi_swrst := false }
  { s with spi_sel := true }

/-- The six bytes read back to `&palfi.rssi_info` fill `rssi_info`, `rssi1`,
`rssi2`, `rssi3`, `read_addr` and `read_ext`, as the commented block of the
function spells out. -/
def palfi_cmdrssi (miso : List Nat → Nat) (s : Palfi) : Palfi :=
  let s := palfi_writeout miso [0x03, 0xF3, 0x44, 0x00] s
  let r := palfi_readback miso 6 s
  { r.2 with rssi_info := r.1.getD 0 0, rssi1 := r.1.getD 1 0, rssi2 := r.1.getD 2 0,
             rssi3 := r.1.getD 3 0, read_addr := r.1.getD 4 0, read_ext := r.1.getD 5 0 }

def palfi_cmdstatus (miso : List Nat → Nat) (s : Palfi) : Palfi :=
  let s := (sub_spi_trx miso 0x00 s).2
  let r := palfi_readback miso 4 s
  { r.2 with status0 := r.1.getD 0 0, status1 := r.1.getD 1 0,
             status2 := r.1.getD 2 0, status3 := r.1.getD 3 0 }

/-! ### Action subroutines (lines 808-873) -/

/-- The channel `CH3` of `palfi_CHAN`. -/
def CH3 : Nat := 3

/-- A store to `cmd_data[3+channel]` past the end of the array (channel above 3)
is dropped. -/
def sub_program_channels (miso : List Nat → Nat) (channel trim_val base_val : Nat)
    (s : Palfi) : Palfi :=
  let cmd_data : List Nat := [6, 0xF3, 0x02, 0, 0, 0, 0]
  let trim_val := (trim_val % 256) &&& 0x7F
  let cmd_data := cmd_data.set 3 ((base_val + channel) % 256)
  let cmd_data := cmd_data.set 3 ((cmd_data.getD 3 0 + (if channel = CH3 then 1 else 0)) % 256)
  let cmd_data := cmd_data.set (3 + channel) trim_val
  palfi_writeout miso cmd_data s

/-- The argument is an `ot_s8`; its cast to `ot_u8` is its residue modulo 256. -/
def sub_prog_trimswitch (miso : List Nat → Nat) (trim_val : Int) (s : Palfi) : Palfi :=
  let s := sub_program_channels miso s.channel (trim_val % 256).toNat 0x38 s
  let r := palfi_readback miso 8 s
  { r.2 with rxdata := r.1 }

def sub_measurefreq_init (miso : List Nat → Nat) (trim_val : Nat) (s : Palfi) : Int × Palfi :=
  let s := { s with tim_ctl := TACLR }
  let s := { s with tim_ctl := TASSEL_2 + MC_2 }
  let s := { s with tim_ccifg := false }
  let s := { s with trim_startcount := 20 }
  let s := { s with trim_endcount := 160 }
  let s := sub_program_channels miso s.channel trim_val 0x88 s
  (1024, s)

/-- The pulse width the `else` branch of `sub_measurefreq_finish` computes.
`num_periods` is an `ot_uint`, 16 bits wide on the CC430, and the capture
values are 16-bit timer counts. -/
def t_pulse_value (cfg : PalfiCfg) (s : Palfi) : Rat :=
  let num_periods := (s.trim_endcount + 65536 - s.trim_startcount % 65536) % 65536
  let num_periods := (num_periods * (cfg.PLATFORM_HSCLOCK_HZ / cfg.PLATFORM_SMCLK_DIV)) % 65536
  let t_pulse : Rat := (((s.trim_endval + 65536 - s.trim_startval % 65536) % 65536 : Nat) : Rat)
  let t_pulse := t_pulse / (num_periods : Rat)
  t_pulse * 1000

/-- The argument `high` selects the destination `&palfi.trim.thigh[palfi.channel]`
(true) or `&palfi.trim.tlow[palfi.channel]` (false). -/
def sub_measurefreq_finish (cfg : PalfiCfg) (miso : List Nat → Nat) (high : Bool)
    (s : Palfi) : Palfi :=
  let s := { s with tim_ctl := TACLR }
  if s.nextevent ≤ 0 then
    -- Watchdog Timeout, cancel the process
    sys_task_setevent 0 s
  else
    let r := palfi_readback miso 8 s
    let s := { r.2 with rxdata := r.1 }
    if high then { s with trim_thigh := s.trim_thigh.set s.channel (t_pulse_value cfg s) }
    else { s with trim_tlow := s.trim_tlow.set s.channel (t_pulse_value cfg s) }

/-- Conversion of a float to `ot_s8`: truncation toward zero, then the residue
in the range of the type. -/
def float_to_s8 (q : Rat) : Int := (Int.tdiv q.num q.den + 128) % 256 - 128

def sub_calculate_trim (s : Palfi) : Palfi :=
  let tl2 : Rat := s.trim_tlow.getD s.channel 0 * s.trim_tlow.getD s.channel 0
  let th2 : Rat := s.trim_thigh.getD s.channel 0 * s.trim_thigh.getD s.channel 0
  let th2 := (((7452 * 7452) / tl2) - 1) / ((th2 / tl2) - 1)
  let th2 := th2 * 127
  { s with trimval := s.trimval.set s.channel (float_to_s8 th2) }

/-! ### The SPI trimming and switch trimming action sequences (lines 713-797) -/

def palfi_action_spitrim_1 (miso : List Nat → Nat) (s : Palfi) : Int × Palfi :=
  let s := { s with action := Action.palfi_action_spitrim_2 }
  let s := sub_prog_trimswitch miso 0 s
  (5, s)

def palfi_action_spitrim_0 (miso : List Nat → Nat) (s : Palfi) : Int × Palfi :=
  let s := { s with bypass := true }
  let s := { s with vcld := true }
  let s := { s with channel := 1 }
  palfi_action_spitrim_1 miso s

def palfi_action_spitrim_2 (miso : List Nat → Nat) (s : Palfi) : Int × Palfi :=
  let s := { s with action := Action.palfi_action_spitrim_3 }
  sub_measurefreq_init miso 0 s

def palfi_action_spitrim_3 (cfg : PalfiCfg) (miso : List Nat → Nat) (s : Palfi) : Int × Palfi :=
  let s := { s with action := Action.palfi_action_spitrim_4 }
  let s := sub_measurefreq_finish cfg miso false s
  (5, s)

def palfi_action_spitrim_4 (miso : List Nat → Nat) (s : Palfi) : Int × Palfi :=
  let s := { s with action := Action.palfi_action_spitrim_5 }
  sub_measurefreq_init miso 0x7f s

def palfi_action_spitrim_5 (cfg : PalfiCfg) (miso : List Nat → Nat) (s : Palfi) : Int × Palfi :=
  let s := sub_measurefreq_finish cfg miso true s
  let s := sub_calculate_trim s
  let s := sub_prog_trimswitch miso (s.trimval.getD s.channel 0) s
  if s.channel = 3 then
    let s := { s with vcld := false }
    let s := { s with bypass := false }
    (0, s)
  else
    let s := { s with channel := (s.channel + 1) % 256 }
    let s := { s with action := Action.palfi_action_spitrim_1 }
    (-1, s)

/-- The loop `for (palfi.channel=0; palfi.channel<3; ) { palfi.channel++;
sub_prog_trimswitch(0); }`, by the number of iterations left. -/
def palfi_action_swtrim_0_loop (miso : List Nat → Nat) : Nat → Palfi → Palfi
  | 0, s => s
  | n + 1, s =>
    if s.channel < 3 then
      let s := { s with channel := (s.channel + 1) % 256 }
      palfi_action_swtrim_0_loop miso n (sub_prog_trimswitch miso 0 s)
    else s

def palfi_action_swtrim_0 (miso : List Nat → Nat) (s : Palfi) : Int × Palfi :=
  let s := { s with action := Action.palfi_action_swtrim_1 }
  let s := { s with bypass := true }
  let s := { s with vcld := true }
  let s := palfi_action_swtrim_0_loop miso 3 { s with channel := 0 }
  let s := { s with led3 := true }
  (52, s)

def palfi_action_swtrim_1 (s : Palfi) : Int × Palfi :=
  let s := { s with led3 := false }
  let s := { s with vcld := false }
  let s := { s with bypass := false }
  (-1, s)

/-- The call `palfi.action()` for each function the pointer can hold. -/
def palfi_call (cfg : PalfiCfg) (miso : List Nat → Nat) : Action → Palfi → Int × Palfi
  | Action.palfi_action_spitrim_0 => palfi_action_spitrim_0 miso
  | Action.palfi_action_spitrim_1 => palfi_action_spitrim_1 miso
  | Action.palfi_action_spitrim_2 => palfi_action_spitrim_2 miso
  | Action.palfi_action_spitrim_3 => palfi_action_spitrim_3 cfg miso
  | Action.palfi_action_spitrim_4 => palfi_action_spitrim_4 miso
  | Action.palfi_action_spitrim_5 => palfi_action_spitrim_5 cfg miso
  | Action.palfi_action_swtrim_0 => palfi_action_swtrim_0 miso
  | Action.palfi_action_swtrim_1 => palfi_action_swtrim_1

/-! ### The wake-up interrupt bridge (lines 132-154) -/

/-- The argument `sw2_din` is `BOARD_SW2_PORT->DIN & BOARD_SW2_PIN` read as a
Boolean: true when the input reads high. -/
def PALFI_WAKE_ISR (sw2_din : Bool) (s : Palfi) : Palfi :=
  let s := { s with wake_ie := false }
  let s := { s with wake_ifg := false }
  let event_call := (1 + (if sw2_din = false then 1 else 0)) % 256
  let s := sys_task_setevent event_call s
  let s := sys_task_setreserve 64 s
  let s := sys_task_setlatency 1 s
  sys_preempt 32 s

/-! ### The timer edge-capture interrupt (lines 167-184) -/

/-- The arguments `CCR0_first` and `CCR0_second` are the values the two reads
of `PALFI_TIM->CCR0` give, and `count_mod` is the number of values of the type
of `palfi.trim.count`, which a header declares. -/
def PALFI_TIM_ISR (count_mod : Nat) (CCR0_first CCR0_second : Nat) (s : Palfi) : Palfi :=
  let s := if s.trim_count = s.trim_startcount then { s with trim_startval := CCR0_first }
           else s
  let s := { s with trim_count := (s.trim_count + 1) % count_mod }
  if s.trim_count = s.trim_endcount then
    let s := { s with trim_endval := CCR0_second }
    { s with tim_ccie := false }
  else s

/-! ### The external-process callback (lines 213-326) -/

/-- The loop over the switches in `case 2`, by the number of iterations left:
returns the final `i` and `palfi.wake_event`. -/
def switch_loop (status2 wake_event : Nat) : Nat → Nat → Nat × Nat
  | 0, i => (i, wake_event)
  | n + 1, i =>
    if status2 &&& (1 <<< i) ≠ 0 then (i, (i + 49) % 256)
    else switch_loop status2 wake_event n ((i + 1) % 256)

/-- The branch `if (palfi.wake_event) { ... }` of `case 2:`, a PaLFi wake-up. -/
def ext_systask_case2_lf (miso : List Nat → Nat) (s : Palfi) : Palfi :=
  let s := { s with wake_event := (s.wake_event + (65 - 1)) % 256 }
  let s := { s with event := (s.event + 2) % 256 }
  palfi_cmdrssi miso s

/-- The branch `else { ... }` of `case 2:`, a switch-press wake-up.  The
`memset` of 6 bytes at `&palfi.rssi_info` fills `rssi_info` to `read_ext`. -/
def ext_systask_case2_switch (s : Palfi) : Palfi :=
  let r := switch_loop s.status2 s.wake_event PALFI_SWITCHES 0
  let s := { s with wake_event := r.2 }
  let s := { s with event := if s.wake_event ≠ 0 then (s.event + 4 + (r.1 <<< 1)) % 256 else 0 }
  { s with rssi_info := 0xFF, rssi1 := 0xFF, rssi2 := 0xFF, rssi3 := 0xFF,
           read_addr := 0xFF, read_ext := 0xFF }

/-- The status read at the top of `case 2:`, with `palfi.wake_event` set to the
wake A/B bits. -/
def ext_systask_case2_status (miso : List Nat → Nat) (s : Palfi) : Palfi :=
  let s := palfi_spi_startup s
  let s := palfi_cmdstatus miso s
  { s with wake_event := s.status0 &&& 3 }

/-- The block of `case 1:` and `case 2:` up to `goto sys_sig_extprocess_TOP`. -/
def ext_systask_case2 (miso : List Nat → Nat) (s : Palfi) : Palfi :=
  let s := ext_systask_case2_status miso s
  if s.wake_event ≠ 0 then ext_systask_case2_lf miso s
  else ext_systask_case2_switch s

/-- The code from the label `sys_sig_extprocess_EXIT1` to `case 4:`. -/
def ext_systask_EXIT1 (s : Palfi) : Palfi :=
  if s.status3 = 1 then { s with bypass := false }
  else if s.status3 = 2 then { s with bypass := true }
  else s

/-- The code from the label `sys_sig_extprocess_EXIT2` to `return`. -/
def ext_systask_EXIT2 (cfg : PalfiCfg) (miso : List Nat → Nat) (s : Palfi) : Palfi :=
  let s := palfi_powerdown miso s
  let s_tmpl : session_tmpl :=
    { channel := if s.wake_event &&& 1 ≠ 0 then cfg.ALERT_CHAN1 else cfg.ALERT_CHAN2,
      subnetmask := 0,
      flagmask := 0 }
  m2task_immediate s_tmpl s

/-- The PaLFi action manager, after the `switch`.  Besides the state it returns
the step it called through `palfi.action` and the directive that step returned. -/
def ext_systask_action (cfg : PalfiCfg) (miso : List Nat → Nat)
    (call : Action → Palfi → Int × Palfi) (s : Palfi) : Palfi × Option (Action × Int) :=
  let r := call s.action s
  let task_next := r.1
  let called := some (s.action, task_next)
  let s := r.2
  if task_next = 0 then (ext_systask_EXIT2 cfg miso s, called)
  else if task_next > 0 then (sys_task_setnext (task_next % 2 ^ 32).toNat s, called)
  else (s, called)

/-- The labels of the `switch` other than `case 1:` and `case 2:`; each of them
ends the invocation.  `call` is what a call through the function pointer
`palfi.action` does.  The result is the state on return and the record of the
action manager: the step called and its directive, `none` when no step was
called. -/
def ext_systask_cases (cfg : PalfiCfg) (miso : List Nat → Nat)
    (call : Action → Palfi → Int × Palfi) (s : Palfi) : Palfi × Option (Action × Int) :=
  if s.event = 3 then
    (ext_systask_EXIT2 cfg miso (ext_systask_EXIT1 s), none)
  else if s.event = 4 then
    (ext_systask_EXIT2 cfg miso s, none)
  else if s.event = 5 then
    let s := { s with bypass := true }
    let s := { s with vcld := false }
    (ext_systask_EXIT2 cfg miso (ext_systask_EXIT1 s), none)
  else if s.event = 6 then
    ext_systask_action cfg miso call { s with action := Action.palfi_action_spitrim_0 }
  else if s.event = 7 then
    let s := { s with bypass := false }
    (ext_systask_EXIT2 cfg miso (ext_systask_EXIT1 s), none)
  else if s.event = 8 then
    ext_systask_action cfg miso call { s with action := Action.palfi_action_swtrim_0 }
  else
    (palfi_powerdown miso s, none)

/-- The body of `ext_systask`: `goto sys_sig_extprocess_TOP` after the block of
`case 1:` and `case 2:` is the recursive call and uses one unit of fuel. -/
def ext_systask_loop (cfg : PalfiCfg) (miso : List Nat → Nat)
    (call : Action → Palfi → Int × Palfi) : Nat → Palfi → Option (Palfi × Option (Action × Int))
  | 0, _ => none
  | fuel + 1, s =>
    if s.event = 1 ∨ s.event = 2 then
      ext_systask_loop cfg miso call fuel (ext_systask_case2 miso s)
    else
      some (ext_systask_cases cfg miso call s)

/-- The callback with the steps of this file behind `palfi.action`. -/
def ext_systask (cfg : PalfiCfg) (miso : List Nat → Nat) (fuel : Nat) (s : Palfi) :
    Option (Palfi × Option (Action × Int)) :=
  ext_systask_loop cfg miso (palfi_call cfg miso) fuel s

/-- The state with the record of the SPI bus blanked: two states with the same
image differ at most in the bytes sent and the chip-select pin. -/
def clear_spi (s : Palfi) : Palfi := { s with spi_tx := [], spi_cs := false }

/-- A view `f` of the state that neither the SPI traffic nor the scratch data
of a trimming measurement (the read-back buffer, the timer control bits, the
edge counts to wait for, the pulse widths and the trim values) can change. -/
structure TrimInvariant {α : Type} (f : Palfi → α) : Prop where
  spi : ∀ x, f (clear_spi x) = f x
  rxdata : ∀ x v, f { x with rxdata := v } = f x
  tim_ctl : ∀ x v, f { x with tim_ctl := v } = f x
  tim_ccifg : ∀ x v, f { x with tim_ccifg := v } = f x
  trim_startcount : ∀ x v, f { x with trim_startcount := v } = f x
  trim_endcount : ∀ x v, f { x with trim_endcount := v } = f x
  trim_tlow : ∀ x v, f { x with trim_tlow := v } = f x
  trim_thigh : ∀ x v, f { x with trim_thigh := v } = f x
  trimval : ∀ x v, f { x with trimval := v } = f x

/-- A driver for the SPI trimming chain: the step stored in `palfi.action` is
called, up to `n` times, until a step returns 0.  The result lists, for each
call in order, the step called, `palfi.channel` after it and the directive it
returned. -/
def run_chain (cfg : PalfiCfg) (miso : List Nat → Nat) : Nat → Palfi → List (Action × Nat × Int)
  | 0, _ => []
  | n + 1, s =>
    let r := palfi_call cfg miso s.action s
    (s.action, r.2.channel, r.1) :: (if r.1 = 0 then [] else run_chain cfg miso n r.2)

/-! ### The UHF message (lines 419-480) -/

/-- Modelled from the spec: `q_writebyte` of the queue module (not in this
file) puts one byte at the put cursor of a queue and advances the cursor.  A
queue is given by the bytes before its put cursor, oldest first. -/
def q_writebyte (byte_in : Nat) (q : List Nat) : List Nat := q ++ [byte_in % 256]

/-- Modelled from the spec: `q_writeshort` puts the two bytes of a 16-bit
value, the more significant byte first. -/
def q_writeshort (short_in : Int) (q : List Nat) : List Nat :=
  let v := (short_in % 65536).toNat
  q ++ [v / 256, v % 256]

/-- Modelled from the spec: `q_writestring` puts the first `length` bytes of a
buffer.  A read past the end of the buffer gives 0. -/
def q_writestring (src : List Nat) (length : Nat) (q : List Nat) : List Nat :=
  q ++ (List.range length).map (fun i => src.getD i 0 % 256)

/-- What `sub_build_uhfmsg` leaves behind: the transmit queue `txq` up to its
put cursor, the offset of `data_start` in it, and the length handed to
`vl_store` (`none` when the Port 255 file did not open). -/
structure UhfMsg where
  txq : List Nat
  data_start : Nat
  stored : Option Nat
deriving DecidableEq, Repr

/-- The argument `txq_hdr` is the transmit queue as `otapi_open_request`,
`otapi_put_command_tmpl` and `otapi_put_dialog_tmpl` (not in this file) leave
it; `fp_open` tells whether `ISF_open_su(255)` returned a file.  The three bytes
at `&palfi.rssi1` are `rssi1`, `rssi2`, `rssi3`.  The queue is given as it is
before `otapi_close_request`. -/
def sub_build_uhfmsg (txq_hdr : List Nat) (fp_open : Bool) (buffer : List Int) (s : Palfi) :
    UhfMsg :=
  let txq := txq_hdr
  -- UDP Header
  let txq := q_writebyte 255 txq
  let txq := q_writebyte 255 txq
  let data_start := txq.length
  -- 'T'
  let txq := q_writebyte 84 txq
  let txq := q_writeshort (buffer.getD 0 0) txq
  -- 'V'
  let txq := q_writebyte 86 txq
  let txq := q_writeshort (buffer.getD 1 0) txq
  -- 'R'
  let txq := q_writebyte 82 txq
  let txq := q_writestring [s.rssi1, s.rssi2, s.rssi3] 3 txq
  -- 'E'
  let txq := q_writebyte 69 txq
  let txq := q_writebyte s.wake_event txq
  -- 'D'
  let txq := if s.wake_event ≠ 0 then q_writestring s.rxdata 8 (q_writebyte 68 txq) else txq
  { txq := txq, data_start := data_start, stored := if fp_open then some 23 else none }

/-! ### Concrete settings, answers of the PaLFi core and states -/

/-- A build in which the two alert channels differ. -/
def cfg_two_channels : PalfiCfg :=
  { ALERT_CHAN1 := 0x10, ALERT_CHAN2 := 0x07,
    PLATFORM_HSCLOCK_HZ := 20000000, PLATFORM_SMCLK_DIV := 8 }

/-- A PaLFi core that answers 0 to every transfer. -/
def miso_zero : List Nat → Nat := fun _ => 0

/-- A PaLFi core whose status reports wake A: the second transfer of
`palfi_cmdstatus` reads `status[0] = 1`; every other transfer reads 0. -/
def miso_wake_a : List Nat → Nat := fun tx => if tx.length = 2 then 1 else 0

/-- A PaLFi core whose status reports switch 0 pressed and no LF wake-up: the
fourth transfer of `palfi_cmdstatus` reads `status[2] = 1`. -/
def miso_switch0 : List Nat → Nat := fun tx => if tx.length = 4 then 1 else 0

/-- The idle application: no event, PaLFi powered down, wake interrupt enabled,
nothing sent yet. -/
def palfi_idle : Palfi :=
  { event := 0, reserve := 0, latency := 0, nextevent := 0,
    status0 := 0, status1 := 0, status2 := 0, status3 := 0, wake_event := 0,
    rssi_info := 0, rssi1 := 0, rssi2 := 0, rssi3 := 0, read_addr := 0, read_ext := 0,
    rxdata := [0, 0, 0, 0, 0, 0, 0, 0], channel := 0,
    action := Action.palfi_action_spitrim_0,
    trim_count := 0, trim_startcount := 0, trim_endcount := 0,
    trim_startval := 0, trim_endval := 0,
    trim_tlow := [0, 0, 0, 0], trim_thigh := [0, 0, 0, 0], trimval := [0, 0, 0, 0],
    wake_ie := true, wake_ifg := false, spi_swrst := true, spi_sel := false, spi_cs := true,
    bypass := false, vcld := false, led3 := false,
    tim_ctl := 0, tim_ccie := false, tim_ccifg := false,
    spi_tx := [], m2task := [], setnext := [], preempt := [] }

/-- The task as `PALFI_WAKE_ISR` hands it over: wake interrupt disabled, the
event code given, the wait slot of 32 ticks elapsed. -/
def palfi_woken (event : Nat) : Palfi :=
  { palfi_idle with event := event, reserve := 64, latency := 1, wake_ie := false,
                    preempt := [32] }

/-- The SPI trimming chain at step 3 of channel 1 when the watchdog of the
measurement has expired: event 6, `nextevent = 0`, SPI running, wake interrupt
disabled. -/
def palfi_trim_timeout : Palfi :=
  { palfi_woken 6 with nextevent := 0, channel := 1, spi_swrst := false, spi_sel := true,
                       bypass := true, vcld := true,
                       action := Action.palfi_action_spitrim_3,
                       trim_startcount := 20, trim_endcount := 160 }

/-- The SPI trimming chain at step 3 of channel 1 with `PALFI_TIM_ISR` done
before the watchdog: 900 ticks left, edges 20 and 160 captured at the timer
values 100 and 1100. -/
def palfi_measured : Palfi :=
  { palfi_trim_timeout with nextevent := 900, trim_count := 160,
                            trim_startval := 100, trim_endval := 1100 }

/-! ## Part 3: `usb_isr.c` -/

/-- Complement of a mask in a 16-bit register. -/
def not16 (m : Nat) : Nat := 0xFFFF ^^^ m

/-- The values of the device header and of the USB library headers (not in
this file) that the interrupt service routine names. -/
structure UsbCfg where
  SETUPIFG : Nat
  STPOWIFG : Nat
  FRSTE : Nat
  DIR : Nat
  USB_REQ_TYPE_INPUT : Nat
  EPBCNT_NAK : Nat
  STATUS_ACTION_NOTHING : Nat
  USBVECINT_SETUP_PACKET_RECEIVED : Nat
deriving DecidableEq, Repr

/-- The registers and variables of the USB module that the setup path of the
interrupt service routine writes.  `requests` counts the setup requests handed
to `usbDecodeAndProcessUsbRequest` so far; it only indexes the environment. -/
structure Usb where
  USBIFG : Nat
  USBCTL : Nat
  bStatusAction : Nat
  bIEPBCNT : Nat
  bOEPBCNT : Nat
  requests : Nat
deriving DecidableEq, Repr

/-- The USB host and the functions of the USB library that are not in this
file, as the routine meets them: for the n-th setup request, the
`bmRequestType` of the packet, the value `usbDecodeAndProcessUsbRequest`
returns, and whether the hardware has raised `STPOWIFG` (another setup packet
arrived) by the time the request is processed; and, for each interrupt vector
other than `USBVECINT_SETUP_PACKET_RECEIVED`, what the handler called for it,
which returns nothing, does to these registers. -/
structure UsbHost where
  bmRequestType : Nat → Nat
  usbDecodeAndProcessUsbRequest : Nat → Nat
  stpow : Nat → Bool
  void_handler : Nat → Usb → Usb

/-- The code of `SetupPacketInterruptHandler` from its label
`SetupPacketInterruptHandler_newpacket`; the `goto` back to the label is the
recursive call and uses one unit of fuel.  The return data buffer that the
function clears is not part of the state. -/
def SetupPacketInterruptHandler_newpacket (c : UsbCfg) (h : UsbHost) :
    Nat → Usb → Option (Nat × Usb)
  | 0, _ => none
  | fuel + 1, u =>
    let u := if h.bmRequestType u.requests &&& c.USB_REQ_TYPE_INPUT ≠ 0 then
        { u with USBCTL := u.USBCTL ||| c.DIR }
      else { u with USBCTL := u.USBCTL &&& not16 c.DIR }
    let u := { u with bStatusAction := c.STATUS_ACTION_NOTHING }
    let bWakeUp := h.usbDecodeAndProcessUsbRequest u.requests % 256
    let u := if h.stpow u.requests then { u with USBIFG := u.USBIFG ||| c.STPOWIFG } else u
    let u := { u with requests := u.requests + 1 }
    if u.USBIFG &&& c.STPOWIFG ≠ 0 then
      SetupPacketInterruptHandler_newpacket c h fuel
        { u with USBIFG := u.USBIFG &&& not16 (c.STPOWIFG ||| c.SETUPIFG) }
    else some (bWakeUp, u)

def SetupPacketInterruptHandler (c : UsbCfg) (h : UsbHost) (fuel : Nat) (u : Usb) :
    Option (Nat × Usb) :=
  SetupPacketInterruptHandler_newpacket c h fuel { u with USBCTL := u.USBCTL ||| c.FRSTE }

/-- The argument `USBVECINT` is the value read from the interrupt vector
register.  The result is the wake-up flag `bWakeUp` and the state. -/
def platform_isr_usb (c : UsbCfg) (h : UsbHost) (fuel : Nat) (USBVECINT : Nat) (u : Usb) :
    Option (Nat × Usb) :=
  -- ot_u8 bWakeUp = FALSE;
  (if u.USBIFG &&& c.SETUPIFG ≠ 0 then
      (SetupPacketInterruptHandler c h fuel u).map
        (fun r => (r.1, { r.2 with USBIFG := r.2.USBIFG &&& not16 c.SETUPIFG }))
    else some (0, u)).bind fun r =>
  let bWakeUp := r.1
  let u := r.2
  if USBVECINT &&& 0x3f = c.USBVECINT_SETUP_PACKET_RECEIVED then
    SetupPacketInterruptHandler c h fuel
      { u with bIEPBCNT := c.EPBCNT_NAK, bOEPBCNT := c.EPBCNT_NAK }
  else some (bWakeUp, h.void_handler (USBVECINT &&& 0x3f) u)

/-- The values of the MSP430F5 device header and of the USB library. -/
def usb_cfg : UsbCfg :=
  { SETUPIFG := 0x04, STPOWIFG := 0x01, FRSTE := 0x10, DIR := 0x01,
    USB_REQ_TYPE_INPUT := 0x80, EPBCNT_NAK := 0x80, STATUS_ACTION_NOTHING := 0,
    USBVECINT_SETUP_PACKET_RECEIVED := 0x20 }

/-- A host that sends one setup packet at a time, with a USB library whose
request handler asks for a wake-up (returns TRUE, 1) and whose other handlers
leave the registers alone. -/
def usb_host_wake : UsbHost :=
  { bmRequestType := fun _ => 0, usbDecodeAndProcessUsbRequest := fun _ => 1,
    stpow := fun _ => false, void_handler := fun _ u => u }

/-- The USB module with no interrupt flag set. -/
def usb_idle : Usb :=
  { USBIFG := 0, USBCTL := 0, bStatusAction := 0, bIEPBCNT := 0, bOEPBCNT := 0, requests := 0 }

/-! ## Part 4: theorems -/

/-! ### Wait loops and register arithmetic -/


theorem busy_wait_some (done : Nat → Bool) :
    ∀ (fuel t : Nat), (∃ k, k < fuel ∧ done (t + k) = true) →
      ∃ t', busy_wait done fuel t = some t' := by
  intro fuel
  induction fuel with
  | zero => intro t ⟨k, hk, _⟩; exact absurd hk (Nat.not_lt_zero k)
  | succ n ih =>
    intro t ⟨k, hk, hd⟩
    unfold busy_wait
    by_cases h : done t = true
    · exact ⟨t + 1, by simp [h]⟩
    · simp only [h]
      cases k with
      | zero => exact absurd hd h
      | succ j =>
        have : ∃ k, k < n ∧ done (t + 1 + k) = true :=
          ⟨j, Nat.lt_of_succ_lt_succ hk, by rw [← hd]; congr 1; omega⟩
        simpa using ih (t + 1) this

theorem sub_voltage_config_spec (hw : Hardware) (d fuel : Nat) (hr : hw.responsive d)
    (hf : d ≤ fuel) (x : Nat) (s : Clk) :
    ∃ s', sub_voltage_config hw fuel x s = some s' ∧ s'.RCC_CR = s.RCC_CR ∧ same_ledger s s' := by
  obtain ⟨k, hk, hv⟩ := (hr s.polls).1
  obtain ⟨t', ht'⟩ := busy_wait_some (fun t => !hw.vosf t) fuel s.polls
    ⟨k, Nat.lt_of_lt_of_le hk hf, by simp [hv]⟩
  unfold sub_voltage_config
  simp only [ht', Option.bind_eq_bind, Option.some_bind, bind, pure]
  exact ⟨_, rfl, rfl, rfl, rfl⟩

theorem and_not32_clear (x m k : Nat) (h : not32 m &&& k = 0) : (x &&& not32 m) &&& k = 0 := by
  rw [Nat.and_assoc, h, Nat.and_zero]

theorem and_not32_keep (x m k : Nat) (h : not32 m &&& k = k) :
    (x &&& not32 m) &&& k = x &&& k := by
  rw [Nat.and_assoc, h]

theorem lor_eq_zero (a c : Nat) (h : a ||| c = 0) : a = 0 ∧ c = 0 := by
  constructor <;>
  · apply Nat.eq_of_testBit_eq
    intro i
    have := congrArg (fun n => Nat.testBit n i) h
    simp only [Nat.testBit_or, Nat.zero_testBit, Bool.or_eq_false_iff] at this
    simp [this.1, this.2]

theorem or_and_ne_zero (x m : Nat) (hm : m ≠ 0) : (x ||| m) &&& m ≠ 0 := by
  rw [Nat.and_distrib_right, Nat.and_self]
  intro h
  exact hm (lor_eq_zero _ _ h).2

theorem and_lor_eq_zero (x a c : Nat) (h : x &&& (a ||| c) = 0) : x &&& a = 0 ∧ x &&& c = 0 := by
  rw [Nat.and_or_distrib_left] at h
  exact lor_eq_zero _ _ h

theorem shift2_and_3 (y : Nat) (hy : y ≤ 3) : (y <<< 2) &&& 3 = 0 := by
  interval_cases y <;> rfl

theorem shift2_and_12 (y : Nat) (hy : y ≤ 3) : (y <<< 2) &&& (3 <<< 2) = y <<< 2 := by
  interval_cases y <;> rfl

theorem rd_RCC_CFGR_sw (hw : Hardware) (t c : Nat) : rd_RCC_CFGR hw t c &&& 3 = c &&& 3 := by
  unfold rd_RCC_CFGR
  split
  · rw [Nat.and_distrib_right, and_not32_keep _ _ _ (by decide),
      shift2_and_3 _ Nat.and_le_right, Nat.or_zero]
  · rfl

theorem rd_RCC_CFGR_sws (hw : Hardware) (t c : Nat) (h : hw.sw_done t = true) :
    rd_RCC_CFGR hw t c &&& (3 <<< 2) = (c &&& 3) <<< 2 := by
  unfold rd_RCC_CFGR
  rw [if_pos h, Nat.and_distrib_right, and_not32_clear _ _ _ (by decide),
    shift2_and_12 _ Nat.and_le_right, Nat.zero_or]

theorem sub_osc_setclock_loop_spec (hw : Hardware) (target : Nat) :
    ∀ (fuel : Nat) (s : Clk), (∃ k, k < fuel ∧ hw.sw_done (s.polls + k) = true) →
      (s.RCC_CFGR &&& 3) <<< 2 = target →
      ∃ s', sub_osc_setclock_loop hw target fuel s = some s' ∧
        s'.RCC_CR = s.RCC_CR ∧ same_ledger s s' := by
  intro fuel
  induction fuel with
  | zero => intro s ⟨k, hk, _⟩; exact absurd hk (Nat.not_lt_zero k)
  | succ n ih =>
    intro s ⟨k, hk, hd⟩ hsw
    unfold sub_osc_setclock_loop
    simp only []
    split
    · rename_i hne
      cases k with
      | zero =>
        exfalso
        apply hne
        rw [rd_RCC_CFGR_sws hw _ _ (by simpa using hd)]
        exact hsw
      | succ j =>
        have h1 := ih { s with RCC_CFGR := rd_RCC_CFGR hw s.polls s.RCC_CFGR, polls := s.polls + 1 }
          ⟨j, Nat.lt_of_succ_lt_succ hk, by rw [← hd]; congr 1; simp only []; omega⟩
          (by simp only [rd_RCC_CFGR_sw]; exact hsw)
        obtain ⟨s', e, h2, h3⟩ := h1
        exact ⟨s', e, h2, h3⟩
    · exact ⟨_, rfl, rfl, rfl, rfl⟩

theorem sub_osc_setclock_spec (hw : Hardware) (d fuel : Nat) (hr : hw.responsive d)
    (hf : d ≤ fuel) (m : Nat) (s : Clk) :
    ∃ s', sub_osc_setclock hw fuel m s = some s' ∧ s'.RCC_CR = s.RCC_CR ∧ same_ledger s s' := by
  unfold sub_osc_setclock
  obtain ⟨k, hk, hd⟩ := (hr s.polls).2.1
  have h := sub_osc_setclock_loop_spec hw ((m &&& 3) <<< 2) fuel
    { s with RCC_CFGR := (s.RCC_CFGR &&& not32 (3 ||| RCC_CFGR_STOPWUCK)) ||| m }
    ⟨k, Nat.lt_of_lt_of_le hk hf, hd⟩
    (by simp only []; rw [Nat.and_distrib_right, and_not32_clear _ _ _ (by decide), Nat.zero_or])
  obtain ⟨s', e, h2, h3⟩ := h
  exact ⟨s', e, h2, h3⟩

theorem sub_osc_startup_spec (hw : Hardware) (counter m : Nat) (s : Clk) :
    (sub_osc_startup hw counter m s).RCC_CR = s.RCC_CR ||| m ∧
      same_ledger s (sub_osc_startup hw counter m s) :=
  ⟨rfl, rfl, rfl⟩



/-! ### The speed switches reach their regime -/

theorem opt_voltage_config_spec (hw : Hardware) (d fuel : Nat) (hr : hw.responsive d)
    (hf : d ≤ fuel) (c : Bool) (x : Nat) (s : Clk) :
    ∃ s', (if c = true then sub_voltage_config hw fuel x s else pure s) = some s' ∧
      s'.RCC_CR = s.RCC_CR ∧ same_ledger s s' := by
  cases c with
  | true => simpa using sub_voltage_config_spec hw d fuel hr hf x s
  | false => exact ⟨s, rfl, rfl, rfl, rfl⟩

theorem bind_spec {α β : Type} (m : Option α) (f : α → Option β) (Q : α → Prop)
    (P : β → Prop) (hm : ∃ a, m = some a ∧ Q a) (hf : ∀ a, Q a → ∃ c, f a = some c ∧ P c) :
    ∃ c, m.bind f = some c ∧ P c := by
  obtain ⟨a, e, q⟩ := hm
  rw [e]
  exact hf a q

theorem platform_full_speed_spec (b : Board) (hw : Hardware) (d fuel : Nat)
    (hr : hw.responsive d) (hf : d ≤ fuel) (hb : b.FULLSPEED = true) (s : Clk) :
    ∃ s', platform_full_speed b hw fuel s = some s' ∧
      (s'.RCC_CR &&& RCC_CR_PLLON = 0 ∧ s'.RCC_CR &&& RCC_CR_MSION = 0 ∧ same_ledger s s') := by
  unfold platform_full_speed
  rw [if_pos hb]
  split
  · refine bind_spec _ _ (fun a => same_ledger s a) _
      (opt_voltage_config_spec hw d fuel hr hf _ _ _ |>.imp fun a h => ⟨h.1, h.2.2⟩) ?_
    intro s1 h1
    refine bind_spec _ _ (fun a => same_ledger s a) _ ?_ ?_
    · cases _FULLSPEED_FLASHWAIT b with
      | true =>
        obtain ⟨a, e, _, l1, l2⟩ := sub_osc_setclock_spec hw d fuel hr hf (_FULLOSC_CLOCKBIT b)
          { sub_osc_startup hw (_FULLOSC_TIMEOUT b) (_FULLOSC_ONBIT b) s1 with
            FLASH_ACR := FLASH_ACR_PRFTEN ||| FLASH_ACR_LATENCY }
        exact ⟨a, e, l1.trans h1.1, l2.trans h1.2⟩
      | false =>
        obtain ⟨a, e, _, l1, l2⟩ := sub_osc_setclock_spec hw d fuel hr hf (_FULLOSC_CLOCKBIT b)
          (sub_osc_startup hw (_FULLOSC_TIMEOUT b) (_FULLOSC_ONBIT b) s1)
        refine ⟨{ a with FLASH_ACR := FLASH_ACR_PRFTEN }, ?_, l1.trans h1.1, l2.trans h1.2⟩
        simp only [Bool.false_eq_true, if_false, e, Option.map_some']
    · intro s2 h2
      refine bind_spec _ _ (fun a => same_ledger s a) _
        (opt_voltage_config_spec hw d fuel hr hf _ _ _ |>.imp
          fun a h => ⟨h.1, h.2.2.1.trans h2.1, h.2.2.2.trans h2.2⟩) ?_
      intro s3 h3
      refine ⟨_, rfl, and_not32_clear _ _ _ (by decide), and_not32_clear _ _ _ (by decide), ?_⟩
      obtain ⟨l1, l2⟩ := h3
      constructor
      · rw [← l1]; simp only [platform_enable_interrupts, sub_set_clockhz]; split <;> rfl
      · rw [← l2]; simp only [platform_enable_interrupts, sub_set_clockhz]; split <;> rfl
  · rename_i hoff
    have h0 : s.RCC_CR &&& (RCC_CR_PLLON ||| RCC_CR_MSION) = 0 := by
      simpa [_FULLSPEED_OFF, hb] using hoff
    exact ⟨s, rfl, (and_lor_eq_zero _ _ _ h0).1, (and_lor_eq_zero _ _ _ h0).2, rfl, rfl⟩

theorem platform_ext_pllon_spec (b : Board) (hw : Hardware) (d fuel : Nat)
    (hr : hw.responsive d) (hf : d ≤ fuel) (hb : b.PLL = true) (s : Clk) :
    ∃ s', platform_ext_pllon b hw fuel s = some s' ∧
      (s'.RCC_CR = s.RCC_CR ||| _FLANKOSC_ONBIT b ||| RCC_CR_PLLON ∧ same_ledger s s') := by
  unfold platform_ext_pllon
  rw [if_pos hb]
  refine bind_spec _ _ (fun a => a.RCC_CR = s.RCC_CR ∧ same_ledger s a) _
    (opt_voltage_config_spec hw d fuel hr hf _ _ _) ?_
  intro s1 h1
  obtain ⟨k, hk, hp⟩ := (hr (sub_osc_startup hw (_FLANKOSC_TIMEOUT b) (_FLANKOSC_ONBIT b)
    { s1 with hsxtal := true }).polls).2.2
  refine bind_spec _ _ (fun _ => True) _ ?_ ?_
  · obtain ⟨t', ht'⟩ := busy_wait_some
      (fun t => decide (rd_RCC_CR hw t ((sub_osc_startup hw (_FLANKOSC_TIMEOUT b) (_FLANKOSC_ONBIT b)
        { s1 with hsxtal := true }).RCC_CR ||| RCC_CR_PLLON) &&& RCC_CR_PLLRDY ≠ 0)) fuel _
      ⟨k, Nat.lt_of_lt_of_le hk hf, by
        simp only [decide_eq_true_eq, rd_RCC_CR]
        rw [Nat.and_distrib_right]
        intro h
        apply hp
        have := (lor_eq_zero _ _ h).2
        rwa [Nat.and_assoc, show RCC_CR_RDYBITS &&& RCC_CR_PLLRDY = RCC_CR_PLLRDY by decide] at this⟩
    exact ⟨t', ht', trivial⟩
  · intro t _
    refine ⟨_, rfl, ?_, h1.2⟩
    show (s1.RCC_CR ||| _FLANKOSC_ONBIT b) ||| RCC_CR_PLLON = _
    rw [h1.1]

theorem platform_flank_speed_spec (b : Board) (hw : Hardware) (d fuel : Nat)
    (hr : hw.responsive d) (hf : d ≤ fuel) (hb : b.FLANKSPEED = true) (hp : b.PLL = true)
    (s : Clk) (hs : regime_defined s) :
    ∃ s', platform_flank_speed b hw fuel s = some s' ∧
      (s'.RCC_CR &&& RCC_CR_PLLON ≠ 0 ∧ s'.RCC_CR &&& RCC_CR_MSION = 0 ∧ same_ledger s s') := by
  unfold platform_flank_speed
  rw [if_pos hb]
  split
  · refine bind_spec _ _ (fun a => a.RCC_CR &&& RCC_CR_PLLON ≠ 0 ∧ same_ledger s a) _ ?_ ?_
    · obtain ⟨a, e, h1, h2⟩ := platform_ext_pllon_spec b hw d fuel hr hf hp
        (platform_disable_interrupts s)
      exact ⟨a, e, by rw [h1]; exact or_and_ne_zero _ _ (by decide), h2⟩
    · intro s1 h1
      refine bind_spec _ _ (fun a => a.RCC_CR &&& RCC_CR_PLLON ≠ 0 ∧ same_ledger s a) _ ?_ ?_
      · have key : ∀ (x : Clk) (m : Nat), x.RCC_CR = s1.RCC_CR → same_ledger s1 x →
            ∃ a, sub_osc_setclock hw fuel m x = some a ∧
              (a.RCC_CR &&& RCC_CR_PLLON ≠ 0 ∧ same_ledger s a) := by
          intro x m hx hl
          obtain ⟨a, e, c, l1, l2⟩ := sub_osc_setclock_spec hw d fuel hr hf m x
          exact ⟨a, e, by rw [c, hx]; exact h1.1, (l1.trans hl.1).trans h1.2.1,
            (l2.trans hl.2).trans h1.2.2⟩
        have key2 : ∀ (x : Clk) (m : Nat), x.RCC_CR = s1.RCC_CR → same_ledger s1 x →
            ∃ a, (sub_osc_setclock hw fuel m x).map
                (fun s => { s with FLASH_ACR := FLASH_ACR_PRFTEN }) = some a ∧
              (a.RCC_CR &&& RCC_CR_PLLON ≠ 0 ∧ same_ledger s a) := by
          intro x m hx hl
          obtain ⟨a, e, h⟩ := key x m hx hl
          refine ⟨{ a with FLASH_ACR := FLASH_ACR_PRFTEN }, ?_, h⟩
          rw [e]; rfl
        cases _FLANKSPEED_FLASHWAIT b with
        | true =>
          simp only [if_true]
          split
          · refine key _ _ ?_ ?_
            · rfl
            · exact ⟨rfl, rfl⟩
          · refine key _ _ ?_ ?_
            · rfl
            · exact ⟨rfl, rfl⟩
        | false =>
          simp only [Bool.false_eq_true, if_false]
          split
          · refine key2 _ _ ?_ ?_
            · rfl
            · exact ⟨rfl, rfl⟩
          · refine key2 _ _ ?_ ?_
            · rfl
            · exact ⟨rfl, rfl⟩
      · intro s2 h2
        refine ⟨_, rfl, ?_, and_not32_clear _ _ _ (by decide), ?_⟩
        · have e : ∀ x : Nat, (x &&& not32 RCC_CR_MSION) &&& RCC_CR_PLLON = x &&& RCC_CR_PLLON :=
            fun x => and_not32_keep _ _ _ (by decide)
          refine ne_of_eq_of_ne (e _) ?_
          split <;> exact h2.1
        · obtain ⟨_, l1, l2⟩ := h2
          constructor
          · rw [← l1]; simp only [platform_enable_interrupts, sub_set_clockhz]; split <;> rfl
          · rw [← l2]; simp only [platform_enable_interrupts, sub_set_clockhz]; split <;> rfl
  · rename_i hoff
    have h0 : s.RCC_CR &&& RCC_CR_PLLON ≠ 0 := by
      simpa [_FLANKSPEED_OFF, hb] using hoff
    exact ⟨s, rfl, h0, hs h0, rfl, rfl⟩

theorem platform_standard_speed_spec (b : Board) (hw : Hardware) (d fuel : Nat)
    (hr : hw.responsive d) (hf : d ≤ fuel) (hb : b.STDSPEED = true)
    (s : Clk) (hs : regime_defined s) :
    ∃ s', platform_standard_speed b hw fuel s = some s' ∧
      (s'.RCC_CR &&& RCC_CR_PLLON = 0 ∧ s'.RCC_CR &&& RCC_CR_MSION ≠ 0 ∧ same_ledger s s') := by
  unfold platform_standard_speed
  rw [if_pos hb]
  split
  · refine bind_spec _ _ (fun a => a.RCC_CR &&& RCC_CR_MSION ≠ 0 ∧ same_ledger s a) _ ?_ ?_
    · obtain ⟨a, e, c, l⟩ := sub_osc_setclock_spec hw d fuel hr hf 0
        (sub_osc_startup hw 300 RCC_CR_MSION (platform_disable_interrupts s))
      exact ⟨a, e, by rw [c]; exact or_and_ne_zero _ _ (by decide), l⟩
    · intro s1 h1
      refine bind_spec _ _ (fun a => a.RCC_CR &&& RCC_CR_MSION ≠ 0 ∧ same_ledger s a) _
        (opt_voltage_config_spec hw d fuel hr hf _ _ _ |>.imp
          fun a h => ⟨h.1, by rw [h.2.1]; exact h1.1, h.2.2.1.trans h1.2.1,
            h.2.2.2.trans h1.2.2⟩) ?_
      intro s2 h2
      refine ⟨_, rfl, and_not32_clear _ _ _ (by decide), ?_, ?_⟩
      · have e : ∀ x : Nat, (x &&& not32 (RCC_CR_PLLON ||| RCC_CR_HSEON ||| _RCC_CR_HSI))
            &&& RCC_CR_MSION = x &&& RCC_CR_MSION :=
          fun x => and_not32_keep _ _ _ (by decide)
        refine ne_of_eq_of_ne (e _) ?_
        split <;> exact h2.1
      · obtain ⟨_, l1, l2⟩ := h2
        constructor
        · rw [← l1]; simp only [platform_enable_interrupts, sub_set_clockhz]; split <;> rfl
        · rw [← l2]; simp only [platform_enable_interrupts, sub_set_clockhz]; split <;> rfl
  · rename_i hoff
    have h0 : s.RCC_CR &&& RCC_CR_MSION ≠ 0 := by
      simpa [_STDSPEED_OFF, hb] using hoff
    refine ⟨s, rfl, ?_, h0, rfl, rfl⟩
    by_contra hc
    exact h0 (hs hc)

/-! ### The ledger calls -/

theorem active_regime_of_bits (s : Clk) :
    (s.RCC_CR &&& RCC_CR_PLLON ≠ 0 → s.RCC_CR &&& RCC_CR_MSION = 0 →
      active_regime s = some SPEED_Flank) ∧
    (s.RCC_CR &&& RCC_CR_PLLON = 0 → s.RCC_CR &&& RCC_CR_MSION ≠ 0 →
      active_regime s = some SPEED_Std) ∧
    (s.RCC_CR &&& RCC_CR_PLLON = 0 → s.RCC_CR &&& RCC_CR_MSION = 0 →
      active_regime s = some SPEED_Full) := by
  unfold active_regime
  refine ⟨fun h1 h2 => ?_, fun h1 h2 => ?_, fun h1 h2 => ?_⟩ <;> simp [h1, h2]

theorem regime_defined_of_inv (s : Clk) (h : ledger_inv s) : regime_defined s := by
  unfold ledger_inv active_regime at h
  intro hp
  by_contra hm
  simp [hp, hm] at h

theorem sysclock_request_full_spec (b : Board) (hw : Hardware) (d fuel : Nat)
    (hr : hw.responsive d) (hf : d ≤ fuel) (hb : b.FULLSPEED = true) (s : Clk) :
    ∃ s', sysclock_request b hw fuel SPEED_Full s = some (0, s') ∧
      s'.rqfull = (s.rqfull + 1) % b.RQ_MOD ∧ s'.rqflank = s.rqflank ∧ regime_defined s' := by
  obtain ⟨a, e, h1, h2, l1, l2⟩ := platform_full_speed_spec b hw d fuel hr hf hb s
  refine ⟨{ a with rqfull := (a.rqfull + 1) % b.RQ_MOD }, ?_, ?_, l2, ?_⟩
  · simp only [sysclock_request, hb, if_true, e]; rfl
  · show (a.rqfull + 1) % b.RQ_MOD = _
    rw [l1]
  · intro hp
    exact absurd h1 hp

theorem sysclock_request_flank_spec (b : Board) (hw : Hardware) (d fuel : Nat)
    (hr : hw.responsive d) (hf : d ≤ fuel) (hb : b.FLANKSPEED = true) (hp : b.PLL = true)
    (s : Clk) (hs : regime_defined s) :
    ∃ s', sysclock_request b hw fuel SPEED_Flank s = some (1, s') ∧
      s'.rqflank = (s.rqflank + 1) % b.RQ_MOD ∧ s'.rqfull = s.rqfull ∧ regime_defined s' := by
  obtain ⟨a, e, h1, h2, l1, l2⟩ := platform_flank_speed_spec b hw d fuel hr hf hb hp s hs
  refine ⟨{ a with rqflank := (a.rqflank + 1) % b.RQ_MOD }, ?_, ?_, l1, ?_⟩
  · simp only [sysclock_request, hb, if_true, e]; rfl
  · show (a.rqflank + 1) % b.RQ_MOD = _
    rw [l2]
  · intro _
    exact h2

/-- The state of `sysclock_dismiss` after the decrement of `rqspeed[handle]`. -/
theorem sysclock_dismiss_unfold (b : Board) (hw : Hardware) (fuel : Nat) (handle : Int)
    (s s0 : Clk) (hK : b.FLANKSPEED = true) (hh : handle = 0 ∨ handle = 1)
    (h0 : s0 = if handle = 0 then { s with rqfull := (s.rqfull + b.RQ_MOD - 1) % b.RQ_MOD }
               else { s with rqflank := (s.rqflank + b.RQ_MOD - 1) % b.RQ_MOD }) :
    sysclock_dismiss b hw fuel handle s =
      (if _FLANKRQ b s0 = true then platform_flank_speed b hw fuel s0
        else if _FULLRQ b s0 = true then platform_full_speed b hw fuel s0
        else platform_standard_speed b hw fuel s0).bind (fun a => some (0, a)) := by
  have hguard : ¬ (handle < 0 ∨ handle > (if b.FLANKSPEED = true then 1 else 0)) := by
    rw [if_pos hK]; omega
  unfold sysclock_dismiss
  rw [if_neg hguard, h0]
  rfl

theorem sysclock_dismiss_spec (b : Board) (hw : Hardware) (d fuel : Nat)
    (hr : hw.responsive d) (hf : d ≤ fuel)
    (hS : b.STDSPEED = true) (hF : b.FULLSPEED = true) (hK : b.FLANKSPEED = true)
    (hP : b.PLL = true) (handle : Int) (hh : handle = 0 ∨ handle = 1)
    (s : Clk) (hs : regime_defined s) :
    ∃ s', sysclock_dismiss b hw fuel handle s = some (0, s') ∧
      s'.rqfull = (if handle = 0 then (s.rqfull + b.RQ_MOD - 1) % b.RQ_MOD else s.rqfull) ∧
      s'.rqflank = (if handle = 0 then s.rqflank else (s.rqflank + b.RQ_MOD - 1) % b.RQ_MOD) ∧
      ledger_inv s' := by
  obtain ⟨s0, h0⟩ : ∃ s0 : Clk, s0 =
      if handle = 0 then { s with rqfull := (s.rqfull + b.RQ_MOD - 1) % b.RQ_MOD }
      else { s with rqflank := (s.rqflank + b.RQ_MOD - 1) % b.RQ_MOD } := ⟨_, rfl⟩
  have hcr : s0.RCC_CR = s.RCC_CR := by rw [h0]; split <;> rfl
  have hs0 : regime_defined s0 := by unfold regime_defined; rw [hcr]; exact hs
  have hfull : s0.rqfull =
      (if handle = 0 then (s.rqfull + b.RQ_MOD - 1) % b.RQ_MOD else s.rqfull) := by
    rw [h0]; split <;> rfl
  have hflank : s0.rqflank =
      (if handle = 0 then s.rqflank else (s.rqflank + b.RQ_MOD - 1) % b.RQ_MOD) := by
    rw [h0]; split <;> rfl
  rw [sysclock_dismiss_unfold b hw fuel handle s s0 hK hh h0]
  have key : ∃ a, (if _FLANKRQ b s0 = true then platform_flank_speed b hw fuel s0
        else if _FULLRQ b s0 = true then platform_full_speed b hw fuel s0
        else platform_standard_speed b hw fuel s0) = some a ∧
      ledger_inv a ∧ same_ledger s0 a := by
    by_cases h1 : s0.rqflank = 0
    · by_cases h2 : s0.rqfull = 0
      · obtain ⟨a, e, c1, c2, l⟩ := platform_standard_speed_spec b hw d fuel hr hf hS s0 hs0
        refine ⟨a, by simp [_FLANKRQ, _FULLRQ, h1, h2, e], ?_, l⟩
        unfold ledger_inv requested_regime
        rw [l.1, l.2, (active_regime_of_bits a).2.1 c1 c2]
        simp [h1, h2]
      · obtain ⟨a, e, c1, c2, l⟩ := platform_full_speed_spec b hw d fuel hr hf hF s0
        refine ⟨a, by simp [_FLANKRQ, _FULLRQ, h1, h2, hF, e], ?_, l⟩
        unfold ledger_inv requested_regime
        rw [l.1, l.2, (active_regime_of_bits a).2.2 c1 c2]
        simp [h1, h2]
    · obtain ⟨a, e, c1, c2, l⟩ := platform_flank_speed_spec b hw d fuel hr hf hK hP s0 hs0
      refine ⟨a, by simp [_FLANKRQ, h1, hK, e], ?_, l⟩
      unfold ledger_inv requested_regime
      rw [l.2, (active_regime_of_bits a).1 c1 c2]
      simp [h1]
  obtain ⟨a, e, hi, l⟩ := key
  refine ⟨a, by rw [e]; rfl, ?_, ?_, hi⟩
  · rw [l.1, hfull]
  · rw [l.2, hflank]

theorem request_spec (b : Board) (hw : Hardware) (d fuel : Nat)
    (hr : hw.responsive d) (hf : d ≤ fuel)
    (hF : b.FULLSPEED = true) (hK : b.FLANKSPEED = true) (hP : b.PLL = true)
    (R : SPEED_enum) (hR : R = SPEED_Full ∨ R = SPEED_Flank) (s : Clk) (hs : regime_defined s) :
    ∃ s1, sysclock_request b hw fuel R s = some (handle_of R, s1) ∧
      ledger_count R s1 = (ledger_count R s + 1) % b.RQ_MOD ∧
      ledger_other R s1 = ledger_other R s ∧ regime_defined s1 := by
  rcases hR with rfl | rfl
  · obtain ⟨a, e, h1, h2, h3⟩ := sysclock_request_full_spec b hw d fuel hr hf hF s
    exact ⟨a, e, h1, h2, h3⟩
  · obtain ⟨a, e, h1, h2, h3⟩ := sysclock_request_flank_spec b hw d fuel hr hf hK hP s hs
    exact ⟨a, e, h1, h2, h3⟩

theorem dismiss_spec (b : Board) (hw : Hardware) (d fuel : Nat)
    (hr : hw.responsive d) (hf : d ≤ fuel)
    (hS : b.STDSPEED = true) (hF : b.FULLSPEED = true) (hK : b.FLANKSPEED = true)
    (hP : b.PLL = true)
    (R : SPEED_enum) (hR : R = SPEED_Full ∨ R = SPEED_Flank) (s : Clk) (hs : regime_defined s) :
    ∃ s1, sysclock_dismiss b hw fuel (handle_of R) s = some (0, s1) ∧
      ledger_count R s1 = (ledger_count R s + b.RQ_MOD - 1) % b.RQ_MOD ∧
      ledger_other R s1 = ledger_other R s ∧ ledger_inv s1 := by
  rcases hR with rfl | rfl
  · obtain ⟨a, e, h1, h2, h3⟩ :=
      sysclock_dismiss_spec b hw d fuel hr hf hS hF hK hP 0 (Or.inl rfl) s hs
    exact ⟨a, e, by simpa [ledger_count] using h1, by simpa [ledger_other] using h2, h3⟩
  · obtain ⟨a, e, h1, h2, h3⟩ :=
      sysclock_dismiss_spec b hw d fuel hr hf hS hF hK hP 1 (Or.inr rfl) s hs
    exact ⟨a, e, by simpa [ledger_count] using h2, by simpa [ledger_other] using h1, h3⟩

theorem paired_ne_nil (ops : List LedgerOp) (n : Nat) (h : paired ops (n + 1) = true) :
    ops ≠ [] := by
  intro e
  subst e
  simp [paired] at h

theorem run_ledger_spec (b : Board) (hw : Hardware) (d fuel : Nat)
    (hr : hw.responsive d) (hf : d ≤ fuel)
    (hS : b.STDSPEED = true) (hF : b.FULLSPEED = true) (hK : b.FLANKSPEED = true)
    (hP : b.PLL = true) (hM : 0 < b.RQ_MOD)
    (R : SPEED_enum) (hR : R = SPEED_Full ∨ R = SPEED_Flank) :
    ∀ (ops : List LedgerOp) (hs : List Int) (s : Clk),
      paired ops hs.length = true → (∀ h ∈ hs, h = handle_of R) → regime_defined s →
      ∃ s', run_ledger b hw fuel R ops hs s = some s' ∧
        (ops = [] → s' = s) ∧ (ops ≠ [] → ledger_inv s' ∧ ledger_count R s' < b.RQ_MOD) ∧
        Nat.ModEq b.RQ_MOD (ledger_count R s' + hs.length) (ledger_count R s) ∧
        ledger_other R s' = ledger_other R s := by
  intro ops
  induction ops with
  | nil =>
    intro hs s hp _ _
    have hl : hs.length = 0 := by simpa [paired] using hp
    exact ⟨s, rfl, fun _ => rfl, fun h => absurd rfl h, by rw [hl]; exact Nat.ModEq.refl _, rfl⟩
  | cons op ops ih =>
    intro hs s hp hh hs0
    cases op with
    | request =>
      obtain ⟨s1, e1, c1, o1, r1⟩ := request_spec b hw d fuel hr hf hF hK hP R hR s hs0
      have hp1 : paired ops (handle_of R :: hs).length = true := by simpa [paired] using hp
      obtain ⟨s', e, _, h2, h3, h4⟩ := ih (handle_of R :: hs) s1 hp1
        (by intro h hm; rcases List.mem_cons.mp hm with rfl | hm
            · rfl
            · exact hh h hm) r1
      refine ⟨s', by simp only [run_ledger, e1, e], fun h => by simp at h,
        fun _ => h2 (paired_ne_nil ops hs.length hp1), ?_, h4.trans o1⟩
      rw [c1] at h3
      exact Nat.ModEq.add_right_cancel' 1 (h3.trans (Nat.mod_modEq _ _))
    | dismiss =>
      cases hs with
      | nil => simp [paired] at hp
      | cons h hs =>
        have hp1 : paired ops hs.length = true := by simpa [paired] using hp
        have hh0 : h = handle_of R := hh h (List.mem_cons_self _ _)
        subst hh0
        obtain ⟨s1, e1, c1, o1, i1⟩ := dismiss_spec b hw d fuel hr hf hS hF hK hP R hR s hs0
        obtain ⟨s', e, h1, h2, h3, h4⟩ := ih hs s1 hp1
          (fun h hm => hh h (List.mem_cons_of_mem _ hm)) (regime_defined_of_inv s1 i1)
        refine ⟨s', by simp only [run_ledger, e1, e], fun h => by simp at h, fun _ => ?_, ?_,
          h4.trans o1⟩
        · by_cases hn : ops = []
          · rw [h1 hn]
            exact ⟨i1, by rw [c1]; exact Nat.mod_lt _ hM⟩
          · exact h2 hn
        · rw [c1] at h3
          have h5 := (h3.trans (Nat.mod_modEq _ _)).add_right 1
          have h6 : ledger_count R s + b.RQ_MOD - 1 + 1 = ledger_count R s + b.RQ_MOD := by omega
          rw [h6] at h5
          have h7 : Nat.ModEq b.RQ_MOD (ledger_count R s + b.RQ_MOD) (ledger_count R s) := by
            unfold Nat.ModEq
            exact Nat.add_mod_right _ _
          exact h5.trans h7

/-- On every board with full speed, `sysclock_request(SPEED_Full)` ends in full
speed and leaves the flank counter as it is: the flank requests are not looked
at. -/
theorem sysclock_request_full_enters_full_speed (b : Board) (hw : Hardware) (d fuel : Nat)
    (hr : hw.responsive d) (hf : d ≤ fuel) (hb : b.FULLSPEED = true) (s : Clk) :
    ∃ s', sysclock_request b hw fuel SPEED_Full s = some (0, s') ∧
      active_regime s' = some SPEED_Full ∧ s'.rqflank = s.rqflank := by
  obtain ⟨a, e, h1, h2, _, l2⟩ := platform_full_speed_spec b hw d fuel hr hf hb s
  refine ⟨{ a with rqfull := (a.rqfull + 1) % b.RQ_MOD }, ?_, ?_, l2⟩
  · simp only [sysclock_request, hb, if_true, e]; rfl
  · exact (active_regime_of_bits { a with rqfull := (a.rqfull + 1) % b.RQ_MOD }).2.2 h1 h2

theorem hw_ideal_responsive : hw_ideal.responsive 1 := by
  intro t
  refine ⟨⟨0, by decide, rfl⟩, ⟨0, by decide, rfl⟩, ⟨0, by decide, ?_⟩⟩
  show RCC_CR_RDYBITS &&& RCC_CR_PLLRDY ≠ 0
  decide

/-! ### Claims C1 and C2: the speed request ledger -/

/-- C1, evaluated where the code departs from it.  From the boot state,
`sysclock_request(SPEED_Flank)` gives a state in which the ledger invariant
holds (PLL on, `rqflank = 1`).  In that state `sysclock_request(SPEED_Full)`
returns handle 0 and leaves `rqflank = 1`, yet the active regime is full speed:
the invariant no longer holds, because `platform_full_speed` switches whenever
full speed is off and does not look at the flank requests. -/
theorem C1_full_request_while_flank_outstanding :
    sysclock_request board_all hw_ideal 1 SPEED_Flank clk_boot = some (1, clk_flank) ∧
    ledger_inv clk_flank ∧
    ∃ s', sysclock_request board_all hw_ideal 1 SPEED_Full clk_flank = some (0, s') ∧
      s'.rqflank = 1 ∧ s'.rqfull = 1 ∧
      active_regime s' = some SPEED_Full ∧ requested_regime s' = SPEED_Flank ∧
      ¬ ledger_inv s' :=
  ⟨by decide, by decide, _, rfl, by decide⟩

/-- C2 as stated fails: in a state where the MSI is the system clock while
`rqfull = 1`, one `sysclock_request(SPEED_Full)` followed by one
`sysclock_dismiss` of the returned handle ends in full speed, not in the
standard speed that was active before. -/
theorem C2_counterexample :
    paired [LedgerOp.request, LedgerOp.dismiss] 0 = true ∧
    active_regime clk_std_rqfull = some SPEED_Std ∧
    ∃ s', run_ledger board_all hw_ideal 1 SPEED_Full
        [LedgerOp.request, LedgerOp.dismiss] [] clk_std_rqfull = some s' ∧
      active_regime s' = some SPEED_Full ∧ active_regime s' ≠ active_regime clk_std_rqfull :=
  ⟨by decide, by decide, _, rfl, by decide⟩

/-- C2, amended: on a board with the three regimes and a PLL, with hardware that
answers every wait within `d` polls and fuel for `d` polls, from every starting
state that satisfies the ledger invariant and whose counters are in range, for
`R` full or flank, every sequence of requests of `R` and dismissals of the
returned handles in which each dismiss follows its request and all requests are
dismissed runs to the end, and the active regime after it is the regime that
was active before it. -/
theorem C2_paired_requests_restore_regime (b : Board) (hw : Hardware) (d fuel : Nat)
    (hr : hw.responsive d) (hf : d ≤ fuel)
    (hS : b.STDSPEED = true) (hF : b.FULLSPEED = true) (hK : b.FLANKSPEED = true)
    (hP : b.PLL = true)
    (R : SPEED_enum) (hR : R = SPEED_Full ∨ R = SPEED_Flank)
    (ops : List LedgerOp) (hops : paired ops 0 = true)
    (s : Clk) (hc : counters_in_range b s) (hinv : ledger_inv s) :
    ∃ s', run_ledger b hw fuel R ops [] s = some s' ∧ active_regime s' = active_regime s := by
  have hM : 0 < b.RQ_MOD := Nat.lt_of_le_of_lt (Nat.zero_le _) hc.1
  obtain ⟨s', e, h1, h2, h3, h4⟩ := run_ledger_spec b hw d fuel hr hf hS hF hK hP hM R hR ops []
    s hops (by intro h hm; simp at hm) (regime_defined_of_inv s hinv)
  refine ⟨s', e, ?_⟩
  by_cases hn : ops = []
  · rw [h1 hn]
  · obtain ⟨i', lt'⟩ := h2 hn
    have hlt : ledger_count R s < b.RQ_MOD := by
      unfold ledger_count; split
      · exact hc.2
      · exact hc.1
    have hcnt : ledger_count R s' = ledger_count R s :=
      Nat.ModEq.eq_of_lt_of_lt (by simpa using h3) lt' hlt
    have hreq : requested_regime s' = requested_regime s := by
      unfold ledger_count at hcnt
      unfold ledger_other at h4
      unfold requested_regime
      by_cases hR' : R = SPEED_Flank
      · rw [if_pos hR', if_pos hR'] at hcnt h4
        rw [hcnt, h4]
      · rw [if_neg hR', if_neg hR'] at hcnt h4
        rw [hcnt, h4]
    unfold ledger_inv at i' hinv
    rw [i', hinv, hreq]

/-- C2, amended, at a concrete run: from the state with the PLL on and one
flank request outstanding, two requests of full speed and their two dismissals
end with the PLL on again. -/
theorem C2_paired_requests_restore_regime_witness :
    hw_ideal.responsive 1 ∧
    paired [LedgerOp.request, LedgerOp.request, LedgerOp.dismiss, LedgerOp.dismiss] 0 = true ∧
    counters_in_range board_all clk_flank ∧ ledger_inv clk_flank ∧
    ∃ s', run_ledger board_all hw_ideal 1 SPEED_Full
        [LedgerOp.request, LedgerOp.request, LedgerOp.dismiss, LedgerOp.dismiss] [] clk_flank
          = some s' ∧
      active_regime s' = active_regime clk_flank :=
  ⟨hw_ideal_responsive, by decide, ⟨by decide, by decide⟩, by decide,
    C2_paired_requests_restore_regime board_all hw_ideal 1 1 hw_ideal_responsive (Nat.le_refl 1)
      rfl rfl rfl rfl SPEED_Full (Or.inl rfl) _ (by decide) clk_flank
      ⟨by decide, by decide⟩ (by decide)⟩

/-! ### The external-process callback: structure of an invocation -/

theorem sub_spi_trx_frame (miso : List Nat → Nat) (w : Nat) (s : Palfi) :
    clear_spi (sub_spi_trx miso w s).2 = clear_spi s := rfl

theorem palfi_readback_frame (miso : List Nat → Nat) :
    ∀ (n : Nat) (s : Palfi), clear_spi (palfi_readback miso n s).2 = clear_spi s := by
  intro n
  induction n with
  | zero => intro s; rfl
  | succ n ih =>
    intro s
    rw [palfi_readback]
    exact (ih _).trans (sub_spi_trx_frame miso 0 s)

theorem palfi_writeout_loop_frame (miso : List Nat → Nat) :
    ∀ (k : Nat) (src : List Nat) (s : Palfi),
      clear_spi (palfi_writeout_loop miso k src s) = clear_spi s := by
  intro k
  induction k with
  | zero => intro src s; rfl
  | succ k ih =>
    intro src s
    rw [palfi_writeout_loop]
    exact (ih _ _).trans (sub_spi_trx_frame miso _ s)

theorem palfi_writeout_frame (miso : List Nat → Nat) (src : List Nat) (s : Palfi) :
    clear_spi (palfi_writeout miso src s) = clear_spi s :=
  palfi_writeout_loop_frame miso _ src s

theorem palfi_writeout_loop_spi_tx (miso : List Nat → Nat) :
    ∀ (k : Nat) (src : List Nat) (s : Palfi),
      (palfi_writeout_loop miso k src s).spi_tx =
        s.spi_tx ++ (List.range k).map (fun i => src.getD i 0 % 256) := by
  intro k
  induction k with
  | zero => intro src s; simp [palfi_writeout_loop]
  | succ k ih =>
    intro src s
    rw [palfi_writeout_loop, ih]
    show (s.spi_tx ++ [src.headD 0 % 256]) ++ _ = _
    rw [List.range_succ_eq_map, List.map_cons, List.map_map, List.append_assoc]
    congr 1
    rw [List.singleton_append]
    congr 1
    · cases src <;> rfl
    · apply List.map_congr_left
      intro i _
      cases src <;> simp

theorem switch_loop_le (status2 w : Nat) :
    (switch_loop status2 w PALFI_SWITCHES 0).1 ≤ 2 := by
  simp only [PALFI_SWITCHES, switch_loop]
  split
  · exact Nat.zero_le _
  · split
    · exact Nat.le_succ 1
    · exact Nat.le_refl 2

theorem palfi_cmdstatus_frame (miso : List Nat → Nat) (s : Palfi) :
    clear_spi (palfi_cmdstatus miso s) =
      { clear_spi s with status0 := (palfi_cmdstatus miso s).status0,
                         status1 := (palfi_cmdstatus miso s).status1,
                         status2 := (palfi_cmdstatus miso s).status2,
                         status3 := (palfi_cmdstatus miso s).status3 } := by
  have h := (palfi_readback_frame miso 4 (sub_spi_trx miso 0x00 s).2).trans
    (sub_spi_trx_frame miso 0x00 s)
  unfold palfi_cmdstatus
  unfold clear_spi at h ⊢
  simp only [Palfi.mk.injEq] at h ⊢
  simp only [h, and_self]

theorem palfi_cmdrssi_frame (miso : List Nat → Nat) (s : Palfi) :
    clear_spi (palfi_cmdrssi miso s) =
      { clear_spi s with rssi_info := (palfi_cmdrssi miso s).rssi_info,
                         rssi1 := (palfi_cmdrssi miso s).rssi1,
                         rssi2 := (palfi_cmdrssi miso s).rssi2,
                         rssi3 := (palfi_cmdrssi miso s).rssi3,
                         read_addr := (palfi_cmdrssi miso s).read_addr,
                         read_ext := (palfi_cmdrssi miso s).read_ext } := by
  have h := (palfi_readback_frame miso 6 (palfi_writeout miso [0x03, 0xF3, 0x44, 0x00] s)).trans
    (palfi_writeout_frame miso [0x03, 0xF3, 0x44, 0x00] s)
  unfold palfi_cmdrssi
  unfold clear_spi at h ⊢
  simp only [Palfi.mk.injEq] at h ⊢
  simp only [h, and_self]

theorem palfi_powerdown_frame (miso : List Nat → Nat) (s : Palfi) :
    clear_spi (palfi_powerdown miso s) =
      { clear_spi s with spi_swrst := true, wake_ifg := false, wake_ie := true,
                         wake_event := 0, event := 0 } := by
  have h := palfi_writeout_frame miso [3, 0xF3, 0x41, 0x0F] s
  unfold palfi_powerdown sys_task_setevent
  unfold clear_spi at h ⊢
  simp only [Palfi.mk.injEq] at h ⊢
  simp only [h, and_self, Nat.zero_mod]

theorem palfi_powerdown_spi_tx (miso : List Nat → Nat) (s : Palfi) :
    (palfi_powerdown miso s).spi_tx = s.spi_tx ++ [3, 0xF3, 0x41, 0x0F] := by
  show (palfi_writeout miso [3, 0xF3, 0x41, 0x0F] s).spi_tx = _
  unfold palfi_writeout
  rw [palfi_writeout_loop_spi_tx]
  rfl

theorem ext_systask_case2_status_frame (miso : List Nat → Nat) (s : Palfi) :
    clear_spi (ext_systask_case2_status miso s) =
      { clear_spi s with
          wake_ie := false, spi_swrst := false, spi_sel := true,
          status0 := (palfi_cmdstatus miso (palfi_spi_startup s)).status0,
          status1 := (palfi_cmdstatus miso (palfi_spi_startup s)).status1,
          status2 := (palfi_cmdstatus miso (palfi_spi_startup s)).status2,
          status3 := (palfi_cmdstatus miso (palfi_spi_startup s)).status3,
          wake_event := (palfi_cmdstatus miso (palfi_spi_startup s)).status0 &&& 3 } := by
  have h := palfi_cmdstatus_frame miso (palfi_spi_startup s)
  unfold ext_systask_case2_status
  unfold clear_spi palfi_spi_startup at h ⊢
  simp only [Palfi.mk.injEq] at h ⊢
  simp only [h, and_self]

theorem via_clear {α : Type} (f : Palfi → α) (hf : ∀ x, f (clear_spi x) = f x)
    {a c : Palfi} (h : clear_spi a = c) : f a = f c := by
  rw [← hf a, h]

theorem ext_systask_case2_status_event (miso : List Nat → Nat) (s : Palfi) :
    (ext_systask_case2_status miso s).event = s.event := by
  have h := via_clear Palfi.event (fun _ => rfl) (ext_systask_case2_status_frame miso s)
  exact h

theorem ext_systask_case2_status_m2task (miso : List Nat → Nat) (s : Palfi) :
    (ext_systask_case2_status miso s).m2task = s.m2task := by
  have h := via_clear Palfi.m2task (fun _ => rfl) (ext_systask_case2_status_frame miso s)
  exact h

theorem ext_systask_case2_status_setnext (miso : List Nat → Nat) (s : Palfi) :
    (ext_systask_case2_status miso s).setnext = s.setnext := by
  have h := via_clear Palfi.setnext (fun _ => rfl) (ext_systask_case2_status_frame miso s)
  exact h

theorem ext_systask_case2_status_preempt (miso : List Nat → Nat) (s : Palfi) :
    (ext_systask_case2_status miso s).preempt = s.preempt := by
  have h := via_clear Palfi.preempt (fun _ => rfl) (ext_systask_case2_status_frame miso s)
  exact h

theorem ext_systask_case2_status_nextevent (miso : List Nat → Nat) (s : Palfi) :
    (ext_systask_case2_status miso s).nextevent = s.nextevent := by
  have h := via_clear Palfi.nextevent (fun _ => rfl) (ext_systask_case2_status_frame miso s)
  exact h

theorem ext_systask_case2_status_wake_event (miso : List Nat → Nat) (s : Palfi) :
    (ext_systask_case2_status miso s).wake_event =
      (palfi_cmdstatus miso (palfi_spi_startup s)).status0 &&& 3 := by
  have h := via_clear Palfi.wake_event (fun _ => rfl) (ext_systask_case2_status_frame miso s)
  exact h

theorem ext_systask_case2_status_status0 (miso : List Nat → Nat) (s : Palfi) :
    (ext_systask_case2_status miso s).status0 =
      (palfi_cmdstatus miso (palfi_spi_startup s)).status0 := by
  have h := via_clear Palfi.status0 (fun _ => rfl) (ext_systask_case2_status_frame miso s)
  exact h

theorem ext_systask_case2_status_status2 (miso : List Nat → Nat) (s : Palfi) :
    (ext_systask_case2_status miso s).status2 =
      (palfi_cmdstatus miso (palfi_spi_startup s)).status2 := by
  have h := via_clear Palfi.status2 (fun _ => rfl) (ext_systask_case2_status_frame miso s)
  exact h

theorem ext_systask_case2_lf_event (miso : List Nat → Nat) (s : Palfi) :
    (ext_systask_case2_lf miso s).event = (s.event + 2) % 256 := by
  have h := via_clear Palfi.event (fun _ => rfl) (palfi_cmdrssi_frame miso
    { { s with wake_event := (s.wake_event + (65 - 1)) % 256 } with event := (s.event + 2) % 256 })
  exact h

theorem ext_systask_case2_lf_m2task (miso : List Nat → Nat) (s : Palfi) :
    (ext_systask_case2_lf miso s).m2task = s.m2task := by
  have h := via_clear Palfi.m2task (fun _ => rfl) (palfi_cmdrssi_frame miso
    { { s with wake_event := (s.wake_event + (65 - 1)) % 256 } with event := (s.event + 2) % 256 })
  exact h

theorem ext_systask_case2_switch_event (s : Palfi) :
    (ext_systask_case2_switch s).event =
      if (switch_loop s.status2 s.wake_event PALFI_SWITCHES 0).2 ≠ 0 then
        (s.event + 4 + ((switch_loop s.status2 s.wake_event PALFI_SWITCHES 0).1 <<< 1)) % 256
      else 0 := rfl

theorem ext_systask_case2_event (miso : List Nat → Nat) (s : Palfi)
    (he : s.event = 1 ∨ s.event = 2) :
    ¬ ((ext_systask_case2 miso s).event = 1 ∨ (ext_systask_case2 miso s).event = 2) := by
  unfold ext_systask_case2
  dsimp only
  split
  · rw [ext_systask_case2_lf_event, ext_systask_case2_status_event]
    rcases he with h | h <;> rw [h] <;> decide
  · rw [ext_systask_case2_switch_event, ext_systask_case2_status_event]
    have hle := switch_loop_le (ext_systask_case2_status miso s).status2
      (ext_systask_case2_status miso s).wake_event
    split
    · rw [Nat.shiftLeft_eq]
      rcases he with h | h <;> rw [h] <;> omega
    · decide

theorem ext_systask_case2_m2task (miso : List Nat → Nat) (s : Palfi) :
    (ext_systask_case2 miso s).m2task = s.m2task := by
  unfold ext_systask_case2
  dsimp only
  split
  · rw [ext_systask_case2_lf_m2task, ext_systask_case2_status_m2task]
  · exact ext_systask_case2_status_m2task miso s

theorem ext_systask_loop_direct (cfg : PalfiCfg) (miso : List Nat → Nat)
    (call : Action → Palfi → Int × Palfi) (fuel : Nat) (s : Palfi)
    (he : ¬ (s.event = 1 ∨ s.event = 2)) :
    ext_systask_loop cfg miso call (fuel + 1) s = some (ext_systask_cases cfg miso call s) := by
  unfold ext_systask_loop
  rw [if_neg he]

theorem ext_systask_loop_goto (cfg : PalfiCfg) (miso : List Nat → Nat)
    (call : Action → Palfi → Int × Palfi) (fuel : Nat) (s : Palfi)
    (he : s.event = 1 ∨ s.event = 2) :
    ext_systask_loop cfg miso call (fuel + 2) s =
      some (ext_systask_cases cfg miso call (ext_systask_case2 miso s)) := by
  rw [ext_systask_loop, if_pos he]
  exact ext_systask_loop_direct cfg miso call fuel _ (ext_systask_case2_event miso s he)

/-- With fuel for one `goto` the callback returns, whatever the event code. -/
theorem ext_systask_loop_returns (cfg : PalfiCfg) (miso : List Nat → Nat)
    (call : Action → Palfi → Int × Palfi) (fuel : Nat) (s : Palfi) :
    ∃ r, ext_systask_loop cfg miso call (fuel + 2) s = some r := by
  by_cases he : s.event = 1 ∨ s.event = 2
  · exact ⟨_, ext_systask_loop_goto cfg miso call fuel s he⟩
  · exact ⟨_, ext_systask_loop_direct cfg miso call (fuel + 1) s he⟩

theorem palfi_powerdown_event (miso : List Nat → Nat) (s : Palfi) :
    (palfi_powerdown miso s).event = 0 := by
  have h := via_clear Palfi.event (fun _ => rfl) (palfi_powerdown_frame miso s)
  exact h

theorem palfi_powerdown_m2task (miso : List Nat → Nat) (s : Palfi) :
    (palfi_powerdown miso s).m2task = s.m2task := by
  have h := via_clear Palfi.m2task (fun _ => rfl) (palfi_powerdown_frame miso s)
  exact h

theorem palfi_powerdown_wake_event (miso : List Nat → Nat) (s : Palfi) :
    (palfi_powerdown miso s).wake_event = 0 := by
  have h := via_clear Palfi.wake_event (fun _ => rfl) (palfi_powerdown_frame miso s)
  exact h

/-- The template `sys_sig_extprocess_EXIT2` hands to `m2task_immediate` is on
`ALERT_CHAN2` whatever started the sequence: `palfi_powerdown` has set
`palfi.wake_event` to 0 before the channel is chosen. -/
theorem ext_systask_EXIT2_m2task (cfg : PalfiCfg) (miso : List Nat → Nat) (s : Palfi) :
    (ext_systask_EXIT2 cfg miso s).m2task =
      s.m2task ++ [{ channel := cfg.ALERT_CHAN2, subnetmask := 0, flagmask := 0 }] := by
  unfold ext_systask_EXIT2 m2task_immediate
  simp only [palfi_powerdown_wake_event, palfi_powerdown_m2task]
  rfl

theorem ext_systask_EXIT2_event (cfg : PalfiCfg) (miso : List Nat → Nat) (s : Palfi) :
    (ext_systask_EXIT2 cfg miso s).event = 0 :=
  palfi_powerdown_event miso s

theorem ext_systask_action_eq (cfg : PalfiCfg) (miso : List Nat → Nat)
    (call : Action → Palfi → Int × Palfi) (x : Palfi) (r : Int × Palfi)
    (hr : call x.action x = r) :
    ext_systask_action cfg miso call x =
      if r.1 = 0 then (ext_systask_EXIT2 cfg miso r.2, some (x.action, r.1))
      else if r.1 > 0 then (sys_task_setnext (r.1 % 2 ^ 32).toNat r.2, some (x.action, r.1))
      else (r.2, some (x.action, r.1)) := by
  subst hr
  rfl

theorem ext_systask_cases_action (cfg : PalfiCfg) (miso : List Nat → Nat)
    (call : Action → Palfi → Int × Palfi) (s : Palfi) (a0 : Action)
    (he : (s.event = 6 ∧ a0 = Action.palfi_action_spitrim_0) ∨
          (s.event = 8 ∧ a0 = Action.palfi_action_swtrim_0)) :
    ext_systask_cases cfg miso call s = ext_systask_action cfg miso call { s with action := a0 } := by
  unfold ext_systask_cases
  rcases he with ⟨h, rfl⟩ | ⟨h, rfl⟩
  · rw [if_neg (by omega), if_neg (by omega), if_neg (by omega), if_pos h]
  · rw [if_neg (by omega), if_neg (by omega), if_neg (by omega), if_neg (by omega),
      if_neg (by omega), if_pos h]

/-! ### The steps of the file enqueue no message -/

theorem palfi_writeout_m2task (miso : List Nat → Nat) (src : List Nat) (s : Palfi) :
    (palfi_writeout miso src s).m2task = s.m2task := by
  have h := via_clear Palfi.m2task (fun _ => rfl) (palfi_writeout_frame miso src s)
  exact h

theorem palfi_readback_m2task (miso : List Nat → Nat) (n : Nat) (s : Palfi) :
    (palfi_readback miso n s).2.m2task = s.m2task := by
  have h := via_clear Palfi.m2task (fun _ => rfl) (palfi_readback_frame miso n s)
  exact h

theorem sub_program_channels_m2task (miso : List Nat → Nat) (c t v : Nat) (s : Palfi) :
    (sub_program_channels miso c t v s).m2task = s.m2task := by
  unfold sub_program_channels
  exact palfi_writeout_m2task miso _ s

theorem sub_prog_trimswitch_m2task (miso : List Nat → Nat) (t : Int) (s : Palfi) :
    (sub_prog_trimswitch miso t s).m2task = s.m2task := by
  have h1 := palfi_readback_m2task miso 8
    (sub_program_channels miso s.channel (t % 256).toNat 0x38 s)
  have h2 := sub_program_channels_m2task miso s.channel (t % 256).toNat 0x38 s
  exact h1.trans h2

theorem sub_measurefreq_init_m2task (miso : List Nat → Nat) (t : Nat) (s : Palfi) :
    (sub_measurefreq_init miso t s).2.m2task = s.m2task := by
  have h := sub_program_channels_m2task miso s.channel t 0x88
    { { { { { s with tim_ctl := TACLR } with tim_ctl := TASSEL_2 + MC_2 } with
      tim_ccifg := false } with trim_startcount := 20 } with trim_endcount := 160 }
  exact h

theorem sub_measurefreq_finish_m2task (cfg : PalfiCfg) (miso : List Nat → Nat) (high : Bool)
    (s : Palfi) : (sub_measurefreq_finish cfg miso high s).m2task = s.m2task := by
  have h := palfi_readback_m2task miso 8 { s with tim_ctl := TACLR }
  unfold sub_measurefreq_finish
  dsimp only
  split
  · rfl
  · split
    · exact h
    · exact h

theorem sub_calculate_trim_m2task (s : Palfi) : (sub_calculate_trim s).m2task = s.m2task := rfl

theorem palfi_action_swtrim_0_loop_m2task (miso : List Nat → Nat) :
    ∀ (n : Nat) (s : Palfi), (palfi_action_swtrim_0_loop miso n s).m2task = s.m2task := by
  intro n
  induction n with
  | zero => intro s; rfl
  | succ n ih =>
    intro s
    rw [palfi_action_swtrim_0_loop]
    split
    · exact (ih _).trans (sub_prog_trimswitch_m2task miso 0 _)
    · rfl

theorem palfi_action_spitrim_1_m2task (miso : List Nat → Nat) (s : Palfi) :
    (palfi_action_spitrim_1 miso s).2.m2task = s.m2task := by
  have h := sub_prog_trimswitch_m2task miso 0 { s with action := Action.palfi_action_spitrim_2 }
  exact h

theorem palfi_action_spitrim_0_m2task (miso : List Nat → Nat) (s : Palfi) :
    (palfi_action_spitrim_0 miso s).2.m2task = s.m2task := by
  have h := palfi_action_spitrim_1_m2task miso
    { { { s with bypass := true } with vcld := true } with channel := 1 }
  exact h

theorem palfi_action_spitrim_2_m2task (miso : List Nat → Nat) (s : Palfi) :
    (palfi_action_spitrim_2 miso s).2.m2task = s.m2task := by
  have h := sub_measurefreq_init_m2task miso 0 { s with action := Action.palfi_action_spitrim_3 }
  exact h

theorem palfi_action_spitrim_3_m2task (cfg : PalfiCfg) (miso : List Nat → Nat) (s : Palfi) :
    (palfi_action_spitrim_3 cfg miso s).2.m2task = s.m2task := by
  have h := sub_measurefreq_finish_m2task cfg miso false
    { s with action := Action.palfi_action_spitrim_4 }
  exact h

theorem palfi_action_spitrim_4_m2task (miso : List Nat → Nat) (s : Palfi) :
    (palfi_action_spitrim_4 miso s).2.m2task = s.m2task := by
  have h := sub_measurefreq_init_m2task miso 0x7f
    { s with action := Action.palfi_action_spitrim_5 }
  exact h

theorem palfi_action_spitrim_5_m2task (cfg : PalfiCfg) (miso : List Nat → Nat) (s : Palfi) :
    (palfi_action_spitrim_5 cfg miso s).2.m2task = s.m2task := by
  have h := ((sub_prog_trimswitch_m2task miso
      ((sub_calculate_trim (sub_measurefreq_finish cfg miso true s)).trimval.getD
        (sub_calculate_trim (sub_measurefreq_finish cfg miso true s)).channel 0)
      (sub_calculate_trim (sub_measurefreq_finish cfg miso true s))).trans
      (sub_calculate_trim_m2task _)).trans
      (sub_measurefreq_finish_m2task cfg miso true s)
  unfold palfi_action_spitrim_5
  dsimp only
  split
  · exact h
  · exact h

theorem palfi_action_swtrim_0_m2task (miso : List Nat → Nat) (s : Palfi) :
    (palfi_action_swtrim_0 miso s).2.m2task = s.m2task := by
  have h := palfi_action_swtrim_0_loop_m2task miso 3
    { { { { s with action := Action.palfi_action_swtrim_1 } with bypass := true } with
      vcld := true } with channel := 0 }
  exact h

/-- The steps of the file enqueue no message. -/
theorem palfi_call_m2task (cfg : PalfiCfg) (miso : List Nat → Nat) (a : Action) (s : Palfi) :
    (palfi_call cfg miso a s).2.m2task = s.m2task := by
  cases a
  · exact palfi_action_spitrim_0_m2task miso s
  · exact palfi_action_spitrim_1_m2task miso s
  · exact palfi_action_spitrim_2_m2task miso s
  · exact palfi_action_spitrim_3_m2task cfg miso s
  · exact palfi_action_spitrim_4_m2task miso s
  · exact palfi_action_spitrim_5_m2task cfg miso s
  · exact palfi_action_swtrim_0_m2task miso s
  · rfl

/-- Every invocation with event 6 calls the first SPI trimming step, whatever
`palfi.action` held before, and that step returns the wait 5. -/
theorem ext_systask_event6_runs_first_step (cfg : PalfiCfg) (miso : List Nat → Nat)
    (fuel : Nat) (s : Palfi) (he : s.event = 6) :
    ∃ s', ext_systask cfg miso (fuel + 1) s
      = some (s', some (Action.palfi_action_spitrim_0, 5)) := by
  have h12 : ¬ (s.event = 1 ∨ s.event = 2) := by omega
  refine ⟨sys_task_setnext 5 (palfi_action_spitrim_0 miso
    { s with action := Action.palfi_action_spitrim_0 }).2, ?_⟩
  unfold ext_systask
  rw [ext_systask_loop_direct cfg miso _ fuel s h12,
    ext_systask_cases_action cfg miso _ s Action.palfi_action_spitrim_0 (Or.inl ⟨he, rfl⟩),
    ext_systask_action_eq cfg miso _ { s with action := Action.palfi_action_spitrim_0 } _ rfl]
  rfl

/-! ### Claims C3, C5 to C7, C9 and C10: the PaLFi task -/

/-- C3, evaluated where the code departs from it.  An invocation with event 6
runs the first SPI trimming step, which returns the wait 5 and stores step 2 in
`palfi.action`; `sys_task_setnext` is called with 5 and the event stays 6.  The
next invocation with event 6 runs the first step again, not the stored step 2,
because `case 6:` overwrites `palfi.action` before the action manager calls it.
The same holds for event 8: the first switch trimming step returns 52 and stores
step 1, and the next invocation runs the first step again. -/
theorem C3_next_invocation_restarts_chain :
    (∃ s1 s2 : Palfi,
      ext_systask cfg_two_channels miso_zero 1 (palfi_woken 6)
        = some (s1, some (Action.palfi_action_spitrim_0, 5)) ∧
      s1.event = 6 ∧ s1.action = Action.palfi_action_spitrim_2 ∧ s1.setnext = [5] ∧
      ext_systask cfg_two_channels miso_zero 1 s1
        = some (s2, some (Action.palfi_action_spitrim_0, 5))) ∧
    (∃ s1 s2 : Palfi,
      ext_systask cfg_two_channels miso_zero 1 (palfi_woken 8)
        = some (s1, some (Action.palfi_action_swtrim_0, 52)) ∧
      s1.event = 8 ∧ s1.action = Action.palfi_action_swtrim_1 ∧ s1.setnext = [52] ∧
      ext_systask cfg_two_channels miso_zero 1 s1
        = some (s2, some (Action.palfi_action_swtrim_0, 52))) :=
  ⟨⟨_, _, rfl, by decide, by decide, by decide, rfl⟩,
   ⟨_, _, rfl, by decide, by decide, by decide, rfl⟩⟩

/-- C5: for every event code outside 1..8 (0 included) an invocation of
`ext_systask` returns after `palfi_powerdown` alone: the power-down command
`3, 0xF3, 0x41, 0x0F` is sent to the PaLFi core, its SPI is put in reset, the
wake interrupt flag is cleared and the wake interrupt enabled, the event of the
task is 0, no step is called through `palfi.action`, no message is enqueued and
no delay is requested. -/
theorem C5_unknown_event_powers_down (cfg : PalfiCfg) (miso : List Nat → Nat)
    (call : Action → Palfi → Int × Palfi) (fuel : Nat) (s : Palfi)
    (he : ¬ (1 ≤ s.event ∧ s.event ≤ 8)) :
    ∃ s', ext_systask_loop cfg miso call (fuel + 1) s = some (s', none) ∧
      s' = palfi_powerdown miso s ∧
      s'.spi_tx = s.spi_tx ++ [3, 0xF3, 0x41, 0x0F] ∧
      s'.spi_swrst = true ∧ s'.wake_ifg = false ∧ s'.wake_ie = true ∧ s'.wake_event = 0 ∧
      s'.event = 0 ∧
      s'.m2task = s.m2task ∧ s'.setnext = s.setnext ∧ s'.preempt = s.preempt ∧
      s'.nextevent = s.nextevent := by
  have h12 : ¬ (s.event = 1 ∨ s.event = 2) := by omega
  have hc : ext_systask_cases cfg miso call s = (palfi_powerdown miso s, none) := by
    unfold ext_systask_cases
    rw [if_neg (by omega), if_neg (by omega), if_neg (by omega), if_neg (by omega),
      if_neg (by omega), if_neg (by omega)]
  have hf := palfi_powerdown_frame miso s
  have e1 := via_clear Palfi.spi_swrst (fun _ => rfl) hf
  have e2 := via_clear Palfi.wake_ifg (fun _ => rfl) hf
  have e3 := via_clear Palfi.wake_ie (fun _ => rfl) hf
  have e4 := via_clear Palfi.wake_event (fun _ => rfl) hf
  have e5 := via_clear Palfi.event (fun _ => rfl) hf
  have e6 := via_clear Palfi.m2task (fun _ => rfl) hf
  have e7 := via_clear Palfi.setnext (fun _ => rfl) hf
  have e8 := via_clear Palfi.preempt (fun _ => rfl) hf
  have e9 := via_clear Palfi.nextevent (fun _ => rfl) hf
  exact ⟨_, by rw [ext_systask_loop_direct cfg miso call fuel s h12, hc], rfl,
    palfi_powerdown_spi_tx miso s, e1, e2, e3, e4, e5, e6, e7, e8, e9⟩

/-- C5 at a concrete run: the callback invoked with event 0, the idle code. -/
theorem C5_unknown_event_powers_down_witness :
    ¬ (1 ≤ palfi_idle.event ∧ palfi_idle.event ≤ 8) ∧
    ∃ s', ext_systask_loop cfg_two_channels miso_zero (palfi_call cfg_two_channels miso_zero) 1
        palfi_idle = some (s', none) ∧
      s' = palfi_powerdown miso_zero palfi_idle ∧
      s'.spi_tx = palfi_idle.spi_tx ++ [3, 0xF3, 0x41, 0x0F] ∧
      s'.spi_swrst = true ∧ s'.wake_ifg = false ∧ s'.wake_ie = true ∧ s'.wake_event = 0 ∧
      s'.event = 0 ∧
      s'.m2task = palfi_idle.m2task ∧ s'.setnext = palfi_idle.setnext ∧
      s'.preempt = palfi_idle.preempt ∧ s'.nextevent = palfi_idle.nextevent :=
  ⟨by decide,
    C5_unknown_event_powers_down cfg_two_channels miso_zero
      (palfi_call cfg_two_channels miso_zero) 0 palfi_idle (by decide)⟩

/-- C6, evaluated where the code departs from it.  In a build whose two alert
channels differ, a sequence started by Wakeup A (`wake_event = 'A'` after the
status read) and a sequence started by Button 0 (`wake_event = '1'`) both end
with a template on `ALERT_CHAN2` instead of `ALERT_CHAN1`. -/
theorem C6_wake_a_and_button0_emit_on_chan2 :
    cfg_two_channels.ALERT_CHAN1 ≠ cfg_two_channels.ALERT_CHAN2 ∧
    (ext_systask_case2 miso_wake_a (palfi_woken 1)).wake_event = 65 ∧
    (∃ s' : Palfi, ext_systask cfg_two_channels miso_wake_a 2 (palfi_woken 1) = some (s', none) ∧
      s'.m2task = [{ channel := cfg_two_channels.ALERT_CHAN2, subnetmask := 0, flagmask := 0 }]) ∧
    (ext_systask_case2 miso_switch0 (palfi_woken 1)).wake_event = 49 ∧
    (∃ s' : Palfi, ext_systask cfg_two_channels miso_switch0 2 (palfi_woken 1) = some (s', none) ∧
      s'.m2task = [{ channel := cfg_two_channels.ALERT_CHAN2, subnetmask := 0, flagmask := 0 }]) :=
  ⟨by decide, by decide, ⟨_, rfl, by decide⟩, by decide, ⟨_, rfl, by decide⟩⟩

/-- C7: for every state and every level of the SW2 input, `PALFI_WAKE_ISR` sets
the event of the PaLFi task to 2 when SW2 reads low and to 1 otherwise, its
reserve to 64 and its latency to 1, and calls `sys_preempt` once, with 32 ticks;
it leaves the wake interrupt disabled and its flag cleared. -/
theorem C7_wake_isr_sets_event_and_preempts (sw2_din : Bool) (s : Palfi) :
    (PALFI_WAKE_ISR sw2_din s).event = (if sw2_din = false then 2 else 1) ∧
    (PALFI_WAKE_ISR sw2_din s).reserve = 64 ∧
    (PALFI_WAKE_ISR sw2_din s).latency = 1 ∧
    (PALFI_WAKE_ISR sw2_din s).preempt = s.preempt ++ [32] ∧
    (PALFI_WAKE_ISR sw2_din s).wake_ie = false ∧
    (PALFI_WAKE_ISR sw2_din s).wake_ifg = false := by
  cases sw2_din <;> exact ⟨rfl, rfl, rfl, rfl, rfl, rfl⟩

theorem ext_systask_case2_switch_of_no_lf (miso : List Nat → Nat) (s : Palfi)
    (hlf : (ext_systask_case2_status miso s).wake_event = 0) :
    ext_systask_case2 miso s = ext_systask_case2_switch (ext_systask_case2_status miso s) := by
  unfold ext_systask_case2
  dsimp only
  rw [if_neg (by rw [hlf]; exact fun h => h rfl)]

theorem switch_loop_eq (status2 : Nat) :
    switch_loop status2 0 PALFI_SWITCHES 0 =
      if status2 &&& (1 <<< 0) ≠ 0 then (0, 49)
      else if status2 &&& (1 <<< 1) ≠ 0 then (1, 50)
      else (2, 0) := by
  simp only [PALFI_SWITCHES, switch_loop]

theorem switch_loop_found (status2 i : Nat) (hi : i < PALFI_SWITCHES)
    (hbit : status2 &&& (1 <<< i) ≠ 0) (hlow : ∀ j, j < i → status2 &&& (1 <<< j) = 0) :
    switch_loop status2 0 PALFI_SWITCHES 0 = (i, 49 + i) := by
  rw [switch_loop_eq]
  have hi2 : i < 2 := hi
  interval_cases i
  · rw [if_pos hbit]
  · rw [if_neg (not_not.mpr (hlow 0 (by decide))), if_pos hbit]

theorem switch_loop_none (status2 : Nat)
    (h : ∀ i, i < PALFI_SWITCHES → status2 &&& (1 <<< i) = 0) :
    switch_loop status2 0 PALFI_SWITCHES 0 = (2, 0) := by
  rw [switch_loop_eq, if_neg (not_not.mpr (h 0 (by decide))),
    if_neg (not_not.mpr (h 1 (by decide)))]

/-- C9: when `ext_systask` is invoked with event 1 or 2 and the status read
shows no LF wake event (`status[0] & 3` is 0), the block of
`case 2:` sets the event to `e + 4 + 2*i` and `palfi.wake_event` to `'1' + i` for
the lowest-numbered switch `i < PALFI_SWITCHES` whose bit is set in `status[2]`,
and sets the event to 0 when no such bit is set; it calls neither
`sys_task_setnext` nor `sys_preempt` and leaves `nextevent` as it is; and the
invocation goes on, in the same call, with the branch of the new event code. -/
theorem C9_switch_press_wakeup (cfg : PalfiCfg) (miso : List Nat → Nat)
    (call : Action → Palfi → Int × Palfi) (fuel : Nat) (s : Palfi)
    (he : s.event = 1 ∨ s.event = 2)
    (hst : (ext_systask_case2_status miso s).status0 &&& 3 = 0) :
    (∀ i, i < PALFI_SWITCHES →
      (ext_systask_case2_status miso s).status2 &&& (1 <<< i) ≠ 0 →
      (∀ j, j < i → (ext_systask_case2_status miso s).status2 &&& (1 <<< j) = 0) →
      (ext_systask_case2 miso s).event = s.event + 4 + 2 * i ∧
      (ext_systask_case2 miso s).wake_event = 49 + i) ∧
    ((∀ i, i < PALFI_SWITCHES →
        (ext_systask_case2_status miso s).status2 &&& (1 <<< i) = 0) →
      (ext_systask_case2 miso s).event = 0) ∧
    (ext_systask_case2 miso s).setnext = s.setnext ∧
    (ext_systask_case2 miso s).preempt = s.preempt ∧
    (ext_systask_case2 miso s).nextevent = s.nextevent ∧
    ext_systask_loop cfg miso call (fuel + 2) s =
      some (ext_systask_cases cfg miso call (ext_systask_case2 miso s)) := by
  have hlf : (ext_systask_case2_status miso s).wake_event = 0 := by
    rw [ext_systask_case2_status_wake_event, ← ext_systask_case2_status_status0]
    exact hst
  have hsw := ext_systask_case2_switch_of_no_lf miso s hlf
  have hev : (ext_systask_case2 miso s).event =
      if (switch_loop (ext_systask_case2_status miso s).status2 0 PALFI_SWITCHES 0).2 ≠ 0 then
        (s.event + 4 +
          ((switch_loop (ext_systask_case2_status miso s).status2 0 PALFI_SWITCHES 0).1 <<< 1))
          % 256
      else 0 := by
    rw [hsw, ext_systask_case2_switch_event, hlf, ext_systask_case2_status_event]
  have hwk : (ext_systask_case2 miso s).wake_event =
      (switch_loop (ext_systask_case2_status miso s).status2 0 PALFI_SWITCHES 0).2 := by
    rw [hsw]
    show (switch_loop (ext_systask_case2_status miso s).status2
      (ext_systask_case2_status miso s).wake_event PALFI_SWITCHES 0).2 = _
    rw [hlf]
  refine ⟨fun i hi hbit hlow => ?_, fun hnone => ?_, ?_, ?_, ?_,
    ext_systask_loop_goto cfg miso call fuel s he⟩
  · rw [hev, hwk, switch_loop_found _ i hi hbit hlow]
    have hi2 : i < 2 := hi
    dsimp only
    rw [if_pos (by omega), Nat.shiftLeft_eq]
    refine ⟨?_, rfl⟩
    rcases he with h | h <;> rw [h] <;> omega
  · rw [hev, switch_loop_none _ hnone]
    rfl
  · rw [hsw]; exact ext_systask_case2_status_setnext miso s
  · rw [hsw]; exact ext_systask_case2_status_preempt miso s
  · rw [hsw]; exact ext_systask_case2_status_nextevent miso s

/-- C9 at a concrete run: invoked with event 1 while the status reports switch 0
pressed and no LF wake-up, the block sets event 5 and `wake_event = '1'`. -/
theorem C9_switch_press_wakeup_witness :
    ((palfi_woken 1).event = 1 ∨ (palfi_woken 1).event = 2) ∧
    (ext_systask_case2_status miso_switch0 (palfi_woken 1)).status0 &&& 3 = 0 ∧
    (ext_systask_case2_status miso_switch0 (palfi_woken 1)).status2 &&& (1 <<< 0) ≠ 0 ∧
    (ext_systask_case2 miso_switch0 (palfi_woken 1)).event = 5 ∧
    (ext_systask_case2 miso_switch0 (palfi_woken 1)).wake_event = 49 ∧
    (ext_systask_case2 miso_switch0 (palfi_woken 1)).setnext = [] ∧
    ext_systask_loop cfg_two_channels miso_switch0 (palfi_call cfg_two_channels miso_switch0) 2
        (palfi_woken 1) =
      some (ext_systask_cases cfg_two_channels miso_switch0
        (palfi_call cfg_two_channels miso_switch0) (ext_systask_case2 miso_switch0 (palfi_woken 1))) :=
  have h := C9_switch_press_wakeup cfg_two_channels miso_switch0
    (palfi_call cfg_two_channels miso_switch0) 0 (palfi_woken 1) (Or.inl rfl) (by decide)
  have h0 := h.1 0 (by decide) (by decide) (fun j hj => absurd hj (Nat.not_lt_zero j))
  ⟨Or.inl rfl, by decide, by decide, h0.1, h0.2, h.2.2.1, h.2.2.2.2.2⟩

/-- C10, evaluated where the code departs from it.  With the watchdog expired
(`nextevent = 0`) in the SPI trimming chain, `palfi_action_spitrim_3` sets the
event to 0 and leaves the pulse result unwritten, but it does not release the
resources as `palfi_powerdown` does (the SPI stays out of reset, the wake
interrupt stays disabled) and it returns the timed wait 5;
`palfi_action_spitrim_5` in the same situation still programs the trim switches
(the 7-byte command `6, 0xF3, 0x02, ...` and 8 read-back transfers go out) and
stores step 1 for the next channel. -/
theorem C10_watchdog_timeout_keeps_resources :
    palfi_trim_timeout.nextevent ≤ 0 ∧
    (palfi_action_spitrim_3 cfg_two_channels miso_zero palfi_trim_timeout).2.event = 0 ∧
    (palfi_action_spitrim_3 cfg_two_channels miso_zero palfi_trim_timeout).2.trim_tlow
      = palfi_trim_timeout.trim_tlow ∧
    (palfi_action_spitrim_3 cfg_two_channels miso_zero palfi_trim_timeout).2.spi_swrst = false ∧
    (palfi_action_spitrim_3 cfg_two_channels miso_zero palfi_trim_timeout).2.wake_ie = false ∧
    (palfi_powerdown miso_zero palfi_trim_timeout).spi_swrst = true ∧
    (palfi_powerdown miso_zero palfi_trim_timeout).wake_ie = true ∧
    (palfi_action_spitrim_3 cfg_two_channels miso_zero palfi_trim_timeout).1 = 5 ∧
    (palfi_action_spitrim_5 cfg_two_channels miso_zero palfi_trim_timeout).2.event = 0 ∧
    (palfi_action_spitrim_5 cfg_two_channels miso_zero palfi_trim_timeout).2.spi_tx.take 3
      = [6, 0xF3, 0x02] ∧
    (palfi_action_spitrim_5 cfg_two_channels miso_zero palfi_trim_timeout).2.spi_tx.length = 15 ∧
    (palfi_action_spitrim_5 cfg_two_channels miso_zero palfi_trim_timeout).2.spi_swrst = false ∧
    (palfi_action_spitrim_5 cfg_two_channels miso_zero palfi_trim_timeout).2.action
      = Action.palfi_action_spitrim_1 ∧
    (palfi_action_spitrim_5 cfg_two_channels miso_zero palfi_trim_timeout).1 = -1 :=
  ⟨by decide, by decide, rfl, by decide, by decide, by decide, by decide, by decide,
    by decide, by decide, by decide, by decide, by decide, by decide⟩

/-! ### The speed switches return on every board -/

theorem platform_full_speed_returns (b : Board) (hw : Hardware) (d fuel : Nat)
    (hr : hw.responsive d) (hf : d ≤ fuel) (s : Clk) :
    ∃ s', platform_full_speed b hw fuel s = some s' ∧ same_ledger s s' := by
  by_cases hb : b.FULLSPEED = true
  · obtain ⟨a, e, _, _, l⟩ := platform_full_speed_spec b hw d fuel hr hf hb s
    exact ⟨a, e, l⟩
  · unfold platform_full_speed
    rw [if_neg hb]
    exact ⟨s, rfl, rfl, rfl⟩

theorem platform_ext_pllon_returns (b : Board) (hw : Hardware) (d fuel : Nat)
    (hr : hw.responsive d) (hf : d ≤ fuel) (s : Clk) :
    ∃ s', platform_ext_pllon b hw fuel s = some s' ∧ same_ledger s s' := by
  by_cases hb : b.PLL = true
  · obtain ⟨a, e, _, l⟩ := platform_ext_pllon_spec b hw d fuel hr hf hb s
    exact ⟨a, e, l⟩
  · unfold platform_ext_pllon
    rw [if_neg hb]
    exact ⟨s, rfl, rfl, rfl⟩

theorem platform_flank_speed_returns (b : Board) (hw : Hardware) (d fuel : Nat)
    (hr : hw.responsive d) (hf : d ≤ fuel) (s : Clk) :
    ∃ s', platform_flank_speed b hw fuel s = some s' ∧ same_ledger s s' := by
  unfold platform_flank_speed
  by_cases hb : b.FLANKSPEED = true
  · rw [if_pos hb]
    split
    · refine bind_spec _ _ (fun a => same_ledger s a) _ ?_ ?_
      · exact platform_ext_pllon_returns b hw d fuel hr hf (platform_disable_interrupts s)
      · intro s1 h1
        refine bind_spec _ _ (fun a => same_ledger s a) _ ?_ ?_
        · have key : ∀ (x : Clk) (m : Nat), same_ledger s1 x →
              ∃ a, sub_osc_setclock hw fuel m x = some a ∧ same_ledger s a := by
            intro x m hl
            obtain ⟨a, e, _, l1, l2⟩ := sub_osc_setclock_spec hw d fuel hr hf m x
            exact ⟨a, e, (l1.trans hl.1).trans h1.1, (l2.trans hl.2).trans h1.2⟩
          have key2 : ∀ (x : Clk) (m : Nat), same_ledger s1 x →
              ∃ a, (sub_osc_setclock hw fuel m x).map
                  (fun s => { s with FLASH_ACR := FLASH_ACR_PRFTEN }) = some a ∧
                same_ledger s a := by
            intro x m hl
            obtain ⟨a, e, h⟩ := key x m hl
            refine ⟨{ a with FLASH_ACR := FLASH_ACR_PRFTEN }, ?_, h⟩
            rw [e]; rfl
          cases _FLANKSPEED_FLASHWAIT b with
          | true =>
            simp only [if_true]
            split
            · exact key _ _ ⟨rfl, rfl⟩
            · exact key _ _ ⟨rfl, rfl⟩
          | false =>
            simp only [Bool.false_eq_true, if_false]
            split
            · exact key2 _ _ ⟨rfl, rfl⟩
            · exact key2 _ _ ⟨rfl, rfl⟩
        · intro s2 h2
          refine ⟨_, rfl, ?_⟩
          obtain ⟨l1, l2⟩ := h2
          constructor
          · rw [← l1]; simp only [platform_enable_interrupts, sub_set_clockhz]; split <;> rfl
          · rw [← l2]; simp only [platform_enable_interrupts, sub_set_clockhz]; split <;> rfl
    · exact ⟨s, rfl, rfl, rfl⟩
  · rw [if_neg hb]
    exact platform_full_speed_returns b hw d fuel hr hf s

theorem platform_standard_speed_returns (b : Board) (hw : Hardware) (d fuel : Nat)
    (hr : hw.responsive d) (hf : d ≤ fuel) (s : Clk) :
    ∃ s', platform_standard_speed b hw fuel s = some s' ∧ same_ledger s s' := by
  unfold platform_standard_speed
  by_cases hb : b.STDSPEED = true
  · rw [if_pos hb]
    split
    · refine bind_spec _ _ (fun a => same_ledger s a) _ ?_ ?_
      · obtain ⟨a, e, _, l⟩ := sub_osc_setclock_spec hw d fuel hr hf 0
          (sub_osc_startup hw 300 RCC_CR_MSION (platform_disable_interrupts s))
        exact ⟨a, e, l⟩
      · intro s1 h1
        refine bind_spec _ _ (fun a => same_ledger s a) _
          (opt_voltage_config_spec hw d fuel hr hf _ _ _ |>.imp
            fun a h => ⟨h.1, h.2.2.1.trans h1.1, h.2.2.2.trans h1.2⟩) ?_
        intro s2 h2
        refine ⟨_, rfl, ?_⟩
        obtain ⟨l1, l2⟩ := h2
        constructor
        · rw [← l1]; simp only [platform_enable_interrupts, sub_set_clockhz]; split <;> rfl
        · rw [← l2]; simp only [platform_enable_interrupts, sub_set_clockhz]; split <;> rfl
    · exact ⟨s, rfl, rfl, rfl⟩
  · rw [if_neg hb]
    exact ⟨s, rfl, rfl, rfl⟩

/-- The re-evaluation at the end of `sysclock_dismiss` returns on every board. -/
theorem sysclock_reevaluate_returns (b : Board) (hw : Hardware) (d fuel : Nat)
    (hr : hw.responsive d) (hf : d ≤ fuel) (s : Clk) :
    ∃ s', (if _FLANKRQ b s = true then platform_flank_speed b hw fuel s
        else if _FULLRQ b s = true then platform_full_speed b hw fuel s
        else platform_standard_speed b hw fuel s) = some s' ∧ same_ledger s s' := by
  split
  · exact platform_flank_speed_returns b hw d fuel hr hf s
  · split
    · exact platform_full_speed_returns b hw d fuel hr hf s
    · exact platform_standard_speed_returns b hw d fuel hr hf s

/-! ### Oscillator start-up and the clock switch -/

theorem sub_osc_startup_loop_polls (hw : Hardware) (cr m : Nat) :
    ∀ (n counter t : Nat), 1 ≤ counter → counter ≤ n → counter < 65536 →
      t < (sub_osc_startup_loop hw cr m n counter t).2 ∧
      (sub_osc_startup_loop hw cr m n counter t).2 ≤ t + counter := by
  intro n
  induction n with
  | zero => intro counter t h1 h2 _; omega
  | succ n ih =>
    intro counter t h1 h2 h3
    have hc : (counter + 65535) % 65536 = counter - 1 := by omega
    unfold sub_osc_startup_loop
    split
    · simp only [hc]
      split
      · rename_i hne
        have := ih (counter - 1) (t + 1) (by omega) (by omega) (by omega)
        omega
      · simp only []; omega
    · simp only []; omega

theorem sub_osc_startup_loop_never_ready (hw : Hardware) (cr m : Nat)
    (hn : ∀ t, rd_RCC_CR hw t cr &&& m = 0) :
    ∀ (n counter t : Nat), 1 ≤ counter → counter ≤ n → counter < 65536 →
      sub_osc_startup_loop hw cr m n counter t = (0, t + counter) := by
  intro n
  induction n with
  | zero => intro counter t h1 h2 _; omega
  | succ n ih =>
    intro counter t h1 h2 h3
    have hc : (counter + 65535) % 65536 = counter - 1 := by omega
    unfold sub_osc_startup_loop
    rw [if_pos (hn t)]
    simp only [hc]
    split
    · rw [ih (counter - 1) (t + 1) (by omega) (by omega) (by omega)]
      rw [show t + 1 + (counter - 1) = t + counter by omega]
    · rename_i h0
      refine Prod.ext ?_ ?_
      · simp only []; omega
      · simp only []; omega

theorem sub_osc_startup_polls (hw : Hardware) (counter m : Nat) (s : Clk)
    (h1 : 1 ≤ counter) (h2 : counter < 65536) :
    s.polls < (sub_osc_startup hw counter m s).polls ∧
      (sub_osc_startup hw counter m s).polls ≤ s.polls + counter := by
  have h := sub_osc_startup_loop_polls hw (s.RCC_CR ||| m)
    ((((m <<< (m &&& 1)) % 2 ^ 32) <<< 1) % 2 ^ 32) 65536 counter s.polls h1
    (Nat.le_of_lt h2) h2
  unfold sub_osc_startup
  simp only [Nat.mod_eq_of_lt h2]
  exact h

theorem bind_eq_none_of {α β : Type} (m : Option α) (f : α → Option β)
    (h : ∀ a, m = some a → f a = none) : m.bind f = none := by
  cases m with
  | none => rfl
  | some a => exact h a rfl

theorem sub_osc_setclock_loop_hangs (hw : Hardware) (target : Nat)
    (hd : ∀ t, hw.sw_done t = false) :
    ∀ (fuel : Nat) (s : Clk), s.RCC_CFGR &&& (3 <<< 2) ≠ target →
      sub_osc_setclock_loop hw target fuel s = none := by
  intro fuel
  induction fuel with
  | zero => intro s _; rfl
  | succ n ih =>
    intro s h
    have hv : rd_RCC_CFGR hw s.polls s.RCC_CFGR = s.RCC_CFGR := by
      unfold rd_RCC_CFGR
      rw [hd]
      rfl
    unfold sub_osc_setclock_loop
    simp only [hv]
    rw [if_pos h]
    exact ih _ h

theorem sub_osc_setclock_hangs (hw : Hardware) (hd : ∀ t, hw.sw_done t = false)
    (m : Nat) (hm : m &&& (3 <<< 2) = 0) (s : Clk)
    (h : s.RCC_CFGR &&& (3 <<< 2) ≠ (m &&& 3) <<< 2) (fuel : Nat) :
    sub_osc_setclock hw fuel m s = none := by
  unfold sub_osc_setclock
  refine sub_osc_setclock_loop_hangs hw _ hd fuel _ ?_
  show ((s.RCC_CFGR &&& not32 (3 ||| RCC_CFGR_STOPWUCK)) ||| m) &&& (3 <<< 2) ≠ _
  rw [Nat.and_distrib_right, and_not32_keep _ _ _ (by decide), hm, Nat.or_zero]
  exact h

theorem sub_voltage_config_RCC_CFGR (hw : Hardware) (fuel x : Nat) (s a : Clk)
    (h : sub_voltage_config hw fuel x s = some a) : a.RCC_CFGR = s.RCC_CFGR := by
  unfold sub_voltage_config at h
  cases hb : busy_wait (fun t => !hw.vosf t) fuel s.polls with
  | none => simp [hb, bind] at h
  | some t =>
    simp only [hb, bind, Option.bind, pure, Option.some.injEq] at h
    rw [← h]

theorem _FULLOSC_CLOCKBIT_sws (b : Board) : _FULLOSC_CLOCKBIT b &&& (3 <<< 2) = 0 := by
  unfold _FULLOSC_CLOCKBIT
  split <;> decide

/-- The switch to full speed has no way out of its wait for the clock switch:
on hardware that never completes the switch it never returns. -/
theorem platform_full_speed_hangs (b : Board) (hw : Hardware) (hb : b.FULLSPEED = true)
    (hd : ∀ t, hw.sw_done t = false) (s : Clk) (hoff : _FULLSPEED_OFF b s = true)
    (hsws : s.RCC_CFGR &&& (3 <<< 2) ≠ (_FULLOSC_CLOCKBIT b &&& 3) <<< 2) (fuel : Nat) :
    platform_full_speed b hw fuel s = none := by
  unfold platform_full_speed
  rw [if_pos hb, if_pos hoff]
  refine bind_eq_none_of _ _ ?_
  intro s1 h1
  have hc : s1.RCC_CFGR = s.RCC_CFGR := by
    split at h1
    · exact sub_voltage_config_RCC_CFGR hw fuel _ (platform_disable_interrupts s) _ h1
    · simp only [pure, Option.some.injEq] at h1
      rw [← h1]
      rfl
  refine bind_eq_none_of _ _ ?_
  intro s2 h2
  exfalso
  have key : ∀ x : Clk, x.RCC_CFGR = s1.RCC_CFGR →
      sub_osc_setclock hw fuel (_FULLOSC_CLOCKBIT b) x = none := by
    intro x hx
    exact sub_osc_setclock_hangs hw hd _ (_FULLOSC_CLOCKBIT_sws b) x
      (by rw [hx, hc]; exact hsws) fuel
  split at h2
  · have k := key { sub_osc_startup hw (_FULLOSC_TIMEOUT b) (_FULLOSC_ONBIT b) s1 with
      FLASH_ACR := FLASH_ACR_PRFTEN ||| FLASH_ACR_LATENCY } rfl
    exact Option.noConfusion (k.symm.trans h2)
  · have k := key (sub_osc_startup hw (_FULLOSC_TIMEOUT b) (_FULLOSC_ONBIT b) s1) rfl
    rw [k] at h2
    exact Option.noConfusion h2

/-! ### Claims C12 to C14 and C17: the ledger calls and the oscillator start-up -/

/-- C12.  On responsive hardware `sysclock_request(Speed)` returns.  With full
speed enabled, `SPEED_Full` adds one to `rqfull` (in the arithmetic of the
counter type, so exactly one whenever the counter is below its maximum), leaves
`rqflank` as it is and returns the handle 0.  With flank speed enabled,
`SPEED_Flank` adds one to `rqflank`, leaves `rqfull` as it is and returns the
handle 1.  Every other value (and `SPEED_Full` or `SPEED_Flank` on a board
without that regime) returns -1 and changes nothing: no counter, no register,
so not the active regime either. -/
theorem C12_request_counts_and_handles (b : Board) (hw : Hardware) (d fuel : Nat)
    (hr : hw.responsive d) (hf : d ≤ fuel) (s : Clk) :
    (b.FULLSPEED = true →
      ∃ s', sysclock_request b hw fuel SPEED_Full s = some (0, s') ∧
        s'.rqfull = (s.rqfull + 1) % b.RQ_MOD ∧
        (s.rqfull + 1 < b.RQ_MOD → s'.rqfull = s.rqfull + 1) ∧
        s'.rqflank = s.rqflank) ∧
    (b.FLANKSPEED = true →
      ∃ s', sysclock_request b hw fuel SPEED_Flank s = some (1, s') ∧
        s'.rqflank = (s.rqflank + 1) % b.RQ_MOD ∧
        (s.rqflank + 1 < b.RQ_MOD → s'.rqflank = s.rqflank + 1) ∧
        s'.rqfull = s.rqfull) ∧
    sysclock_request b hw fuel SPEED_Std s = some (-1, s) ∧
    (b.FULLSPEED = false → sysclock_request b hw fuel SPEED_Full s = some (-1, s)) ∧
    (b.FLANKSPEED = false → sysclock_request b hw fuel SPEED_Flank s = some (-1, s)) := by
  refine ⟨fun hb => ?_, fun hb => ?_, rfl, fun hb => by simp [sysclock_request, hb],
    fun hb => by simp [sysclock_request, hb]⟩
  · obtain ⟨a, e, l1, l2⟩ := platform_full_speed_returns b hw d fuel hr hf s
    refine ⟨{ a with rqfull := (a.rqfull + 1) % b.RQ_MOD }, ?_, ?_, ?_, l2⟩
    · simp only [sysclock_request, hb, if_true, e]; rfl
    · show (a.rqfull + 1) % b.RQ_MOD = _
      rw [l1]
    · intro hlt
      show (a.rqfull + 1) % b.RQ_MOD = _
      rw [l1, Nat.mod_eq_of_lt hlt]
  · obtain ⟨a, e, l1, l2⟩ := platform_flank_speed_returns b hw d fuel hr hf s
    refine ⟨{ a with rqflank := (a.rqflank + 1) % b.RQ_MOD }, ?_, ?_, ?_, l1⟩
    · simp only [sysclock_request, hb, if_true, e]; rfl
    · show (a.rqflank + 1) % b.RQ_MOD = _
      rw [l2]
    · intro hlt
      show (a.rqflank + 1) % b.RQ_MOD = _
      rw [l2, Nat.mod_eq_of_lt hlt]

theorem C12_request_counts_and_handles_witness :
    (board_all.FULLSPEED = true →
      ∃ s', sysclock_request board_all hw_ideal 1 SPEED_Full clk_boot = some (0, s') ∧
        s'.rqfull = (clk_boot.rqfull + 1) % board_all.RQ_MOD ∧
        (clk_boot.rqfull + 1 < board_all.RQ_MOD → s'.rqfull = clk_boot.rqfull + 1) ∧
        s'.rqflank = clk_boot.rqflank) ∧
    (board_all.FLANKSPEED = true →
      ∃ s', sysclock_request board_all hw_ideal 1 SPEED_Flank clk_boot = some (1, s') ∧
        s'.rqflank = (clk_boot.rqflank + 1) % board_all.RQ_MOD ∧
        (clk_boot.rqflank + 1 < board_all.RQ_MOD → s'.rqflank = clk_boot.rqflank + 1) ∧
        s'.rqfull = clk_boot.rqfull) ∧
    sysclock_request board_all hw_ideal 1 SPEED_Std clk_boot = some (-1, clk_boot) ∧
    (board_all.FULLSPEED = false →
      sysclock_request board_all hw_ideal 1 SPEED_Full clk_boot = some (-1, clk_boot)) ∧
    (board_all.FLANKSPEED = false →
      sysclock_request board_all hw_ideal 1 SPEED_Flank clk_boot = some (-1, clk_boot)) :=
  C12_request_counts_and_handles board_all hw_ideal 1 1 hw_ideal_responsive (Nat.le_refl 1)
    clk_boot

/-- C13.  On a board with the three regimes and responsive hardware,
`sysclock_dismiss(handle)` with a valid handle (0 for full, 1 for flank)
returns 0, takes one from the counter of that handle (in the arithmetic of the
counter type, so exactly one whenever the counter is nonzero and in range) and
leaves the other counter as it is.  It then runs, on the state `s0` with the
counter decremented, the switch the counters select: `platform_flank_speed`
when the flank counter is nonzero, otherwise `platform_full_speed` when the
full counter is nonzero, otherwise `platform_standard_speed`; and the regime on
return is that one. -/
theorem C13_dismiss_decrements_and_reselects (b : Board) (hw : Hardware) (d fuel : Nat)
    (hr : hw.responsive d) (hf : d ≤ fuel)
    (hS : b.STDSPEED = true) (hF : b.FULLSPEED = true) (hK : b.FLANKSPEED = true)
    (hP : b.PLL = true) (handle : Int) (hh : handle = 0 ∨ handle = 1)
    (s : Clk) (hs : regime_defined s) :
    ∃ s0 s', sysclock_dismiss b hw fuel handle s = some (0, s') ∧
      s0 = (if handle = 0 then { s with rqfull := (s.rqfull + b.RQ_MOD - 1) % b.RQ_MOD }
            else { s with rqflank := (s.rqflank + b.RQ_MOD - 1) % b.RQ_MOD }) ∧
      (if s0.rqflank ≠ 0 then platform_flank_speed b hw fuel s0
        else if s0.rqfull ≠ 0 then platform_full_speed b hw fuel s0
        else platform_standard_speed b hw fuel s0) = some s' ∧
      (handle = 0 → s'.rqfull = (s.rqfull + b.RQ_MOD - 1) % b.RQ_MOD ∧
        (0 < s.rqfull → s.rqfull < b.RQ_MOD → s'.rqfull = s.rqfull - 1) ∧
        s'.rqflank = s.rqflank) ∧
      (handle = 1 → s'.rqflank = (s.rqflank + b.RQ_MOD - 1) % b.RQ_MOD ∧
        (0 < s.rqflank → s.rqflank < b.RQ_MOD → s'.rqflank = s.rqflank - 1) ∧
        s'.rqfull = s.rqfull) ∧
      active_regime s' = some (if s'.rqflank ≠ 0 then SPEED_Flank
        else if s'.rqfull ≠ 0 then SPEED_Full else SPEED_Std) := by
  obtain ⟨a, e, h1, h2, h3⟩ :=
    sysclock_dismiss_spec b hw d fuel hr hf hS hF hK hP handle hh s hs
  have hdec : ∀ c : Nat, 0 < c → c < b.RQ_MOD → (c + b.RQ_MOD - 1) % b.RQ_MOD = c - 1 := by
    intro c h0 hlt
    have e1 : c + b.RQ_MOD - 1 = (c - 1) + b.RQ_MOD := by omega
    rw [e1, Nat.add_mod_right, Nat.mod_eq_of_lt (by omega)]
  obtain ⟨s0, h0⟩ : ∃ s0 : Clk, s0 =
      if handle = 0 then { s with rqfull := (s.rqfull + b.RQ_MOD - 1) % b.RQ_MOD }
      else { s with rqflank := (s.rqflank + b.RQ_MOD - 1) % b.RQ_MOD } := ⟨_, rfl⟩
  have hsel : (if s0.rqflank ≠ 0 then platform_flank_speed b hw fuel s0
        else if s0.rqfull ≠ 0 then platform_full_speed b hw fuel s0
        else platform_standard_speed b hw fuel s0) = some a := by
    have hu := sysclock_dismiss_unfold b hw fuel handle s s0 hK hh h0
    rw [e] at hu
    simp only [_FLANKRQ, _FULLRQ, hK, hF, Bool.true_and, decide_eq_true_eq] at hu
    cases hx : (if s0.rqflank ≠ 0 then platform_flank_speed b hw fuel s0
        else if s0.rqfull ≠ 0 then platform_full_speed b hw fuel s0
        else platform_standard_speed b hw fuel s0) with
    | none => rw [hx] at hu; exact Option.noConfusion hu
    | some y =>
      rw [hx] at hu
      simp only [Option.bind, Option.some.injEq, Prod.mk.injEq, true_and] at hu
      rw [hu]
  refine ⟨s0, a, e, h0, hsel, fun hz => ?_, fun hz => ?_, h3⟩
  · rw [if_pos hz] at h1 h2
    exact ⟨h1, fun hp hlt => by rw [h1, hdec _ hp hlt], h2⟩
  · have hn : ¬ handle = 0 := by omega
    rw [if_neg hn] at h1 h2
    exact ⟨h2, fun hp hlt => by rw [h2, hdec _ hp hlt], h1⟩

/-- C13 at a concrete run: the one flank request of `clk_flank` is dismissed,
both counters are 0 and the controller returns in standard speed. -/
theorem C13_dismiss_decrements_and_reselects_witness :
    ∃ s0 s', sysclock_dismiss board_all hw_ideal 1 1 clk_flank = some (0, s') ∧
      s0 = (if (1 : Int) = 0 then
              { clk_flank with
                rqfull := (clk_flank.rqfull + board_all.RQ_MOD - 1) % board_all.RQ_MOD }
            else { clk_flank with
                rqflank := (clk_flank.rqflank + board_all.RQ_MOD - 1) % board_all.RQ_MOD }) ∧
      (if s0.rqflank ≠ 0 then platform_flank_speed board_all hw_ideal 1 s0
        else if s0.rqfull ≠ 0 then platform_full_speed board_all hw_ideal 1 s0
        else platform_standard_speed board_all hw_ideal 1 s0) = some s' ∧
      ((1 : Int) = 0 → s'.rqfull = (clk_flank.rqfull + board_all.RQ_MOD - 1) % board_all.RQ_MOD ∧
        (0 < clk_flank.rqfull → clk_flank.rqfull < board_all.RQ_MOD →
          s'.rqfull = clk_flank.rqfull - 1) ∧
        s'.rqflank = clk_flank.rqflank) ∧
      ((1 : Int) = 1 →
        s'.rqflank = (clk_flank.rqflank + board_all.RQ_MOD - 1) % board_all.RQ_MOD ∧
        (0 < clk_flank.rqflank → clk_flank.rqflank < board_all.RQ_MOD →
          s'.rqflank = clk_flank.rqflank - 1) ∧
        s'.rqfull = clk_flank.rqfull) ∧
      active_regime s' = some (if s'.rqflank ≠ 0 then SPEED_Flank
        else if s'.rqfull ≠ 0 then SPEED_Full else SPEED_Std) :=
  C13_dismiss_decrements_and_reselects board_all hw_ideal 1 1 hw_ideal_responsive
    (Nat.le_refl 1) rfl rfl rfl rfl 1 (Or.inr rfl) clk_flank (fun _ => by decide)

/-- C14.  On responsive hardware `sysclock_dismiss(handle)` returns, and it
returns -1 exactly when the handle is negative or above the highest supported
handle (1 when flank speed is enabled, 0 otherwise); every other call returns
0.  A call that returns -1 leaves the whole state as it was: no counter and no
register, so not the regime either, is changed. -/
theorem C14_dismiss_rejects_exactly_bad_handles (b : Board) (hw : Hardware) (d fuel : Nat)
    (hr : hw.responsive d) (hf : d ≤ fuel) (handle : Int) (s : Clk) :
    ∃ r s', sysclock_dismiss b hw fuel handle s = some (r, s') ∧
      (r = -1 ∨ r = 0) ∧
      (r = -1 ↔ (handle < 0 ∨ handle > highest_handle b)) ∧
      (r = -1 → s' = s) := by
  unfold highest_handle
  by_cases hg : handle < 0 ∨ handle > (if b.FLANKSPEED = true then 1 else 0)
  · refine ⟨-1, s, ?_, Or.inl rfl, ⟨fun _ => hg, fun _ => rfl⟩, fun _ => rfl⟩
    unfold sysclock_dismiss
    rw [if_pos hg]
    rfl
  · obtain ⟨a, e, _⟩ := sysclock_reevaluate_returns b hw d fuel hr hf
      (if handle = 0 then { s with rqfull := (s.rqfull + b.RQ_MOD - 1) % b.RQ_MOD }
       else { s with rqflank := (s.rqflank + b.RQ_MOD - 1) % b.RQ_MOD })
    refine ⟨0, a, ?_, Or.inr rfl, ⟨fun h => absurd h (by decide), fun h => absurd h hg⟩,
      fun h => absurd h (by decide)⟩
    unfold sysclock_dismiss
    rw [if_neg hg]
    show Option.bind _ _ = _
    rw [e]
    rfl

theorem C14_dismiss_rejects_exactly_bad_handles_witness :
    ∃ r s', sysclock_dismiss board_all hw_ideal 1 2 clk_flank = some (r, s') ∧
      (r = -1 ∨ r = 0) ∧
      (r = -1 ↔ ((2 : Int) < 0 ∨ (2 : Int) > highest_handle board_all)) ∧
      (r = -1 → s' = clk_flank) :=
  C14_dismiss_rejects_exactly_bad_handles board_all hw_ideal 1 1 hw_ideal_responsive
    (Nat.le_refl 1) 2 clk_flank

/-- C17, where the code departs from it.  On a board whose oscillators never
report ready and whose clock switch never completes, `platform_full_speed`
called in the standard regime does not return, however long it is left to run:
after the bounded wait of `sub_osc_startup` it enters the wait of
`sub_osc_setclock`, which has no counter. -/
theorem C17_counterexample :
    ¬ ∃ fuel, (platform_full_speed board_all hw_dead fuel clk_boot).isSome = true := by
  rintro ⟨fuel, h⟩
  rw [platform_full_speed_hangs board_all hw_dead rfl (fun _ => rfl) clk_boot (by decide)
    (by decide) fuel] at h
  exact absurd h (by decide)

/-- C17, amended.  `sub_osc_startup(counter, mask)` with `counter` from 1 to
65535 returns after at least one and at most `counter` polls of the ready flag,
whether or not the flag ever sets, and after exactly `counter` polls when it
never sets.  The enclosing `platform_full_speed`, entered from another regime
while the full-speed oscillator is not the clock in use, has no fallback: when
the hardware never completes the clock switch it never returns, and when the
hardware answers its waits it returns in full speed. -/
theorem C17_startup_bounded_switch_unbounded (b : Board) (hw : Hardware)
    (counter osc_mask : Nat) (s : Clk) (h1 : 1 ≤ counter) (h2 : counter < 65536)
    (hb : b.FULLSPEED = true) (hoff : _FULLSPEED_OFF b s = true)
    (hsws : s.RCC_CFGR &&& (3 <<< 2) ≠ (_FULLOSC_CLOCKBIT b &&& 3) <<< 2) :
    (s.polls < (sub_osc_startup hw counter osc_mask s).polls ∧
      (sub_osc_startup hw counter osc_mask s).polls ≤ s.polls + counter) ∧
    ((∀ t, hw.cr_ready t = 0) → (s.RCC_CR ||| osc_mask) &&&
        ((((osc_mask <<< (osc_mask &&& 1)) % 2 ^ 32) <<< 1) % 2 ^ 32) = 0 →
      (sub_osc_startup hw counter osc_mask s).polls = s.polls + counter) ∧
    ((∀ t, hw.sw_done t = false) → ∀ fuel, platform_full_speed b hw fuel s = none) ∧
    (∀ d fuel, hw.responsive d → d ≤ fuel →
      ∃ s', platform_full_speed b hw fuel s = some s' ∧ active_regime s' = some SPEED_Full) := by
  refine ⟨sub_osc_startup_polls hw counter osc_mask s h1 h2, fun hn h0 => ?_,
    fun hd fuel => platform_full_speed_hangs b hw hb hd s hoff hsws fuel,
    fun d fuel hr hf => ?_⟩
  · have h := sub_osc_startup_loop_never_ready hw (s.RCC_CR ||| osc_mask)
      ((((osc_mask <<< (osc_mask &&& 1)) % 2 ^ 32) <<< 1) % 2 ^ 32)
      (by intro t
          unfold rd_RCC_CR
          rw [hn t, Nat.zero_and, Nat.or_zero]
          exact h0) 65536 counter s.polls h1 (Nat.le_of_lt h2) h2
    unfold sub_osc_startup
    simp only [Nat.mod_eq_of_lt h2]
    rw [h]
  · obtain ⟨a, e, c1, c2, _⟩ := platform_full_speed_spec b hw d fuel hr hf hb s
    exact ⟨a, e, (active_regime_of_bits a).2.2 c1 c2⟩

theorem C17_startup_bounded_switch_unbounded_witness :
    (clk_boot.polls < (sub_osc_startup hw_dead 300 1 clk_boot).polls ∧
      (sub_osc_startup hw_dead 300 1 clk_boot).polls ≤ clk_boot.polls + 300) ∧
    ((∀ t, hw_dead.cr_ready t = 0) → (clk_boot.RCC_CR ||| 1) &&&
        ((((1 <<< (1 &&& 1)) % 2 ^ 32) <<< 1) % 2 ^ 32) = 0 →
      (sub_osc_startup hw_dead 300 1 clk_boot).polls = clk_boot.polls + 300) ∧
    ((∀ t, hw_dead.sw_done t = false) →
      ∀ fuel, platform_full_speed board_all hw_dead fuel clk_boot = none) ∧
    (∀ d fuel, hw_dead.responsive d → d ≤ fuel →
      ∃ s', platform_full_speed board_all hw_dead fuel clk_boot = some s' ∧
        active_regime s' = some SPEED_Full) :=
  C17_startup_bounded_switch_unbounded board_all hw_dead 300 1 clk_boot (by decide) (by decide)
    rfl (by decide) (by decide)

/-! ### The trimming steps: what they leave as it is -/

theorem trimInvariant_action : TrimInvariant Palfi.action :=
  ⟨fun _ => rfl, fun _ _ => rfl, fun _ _ => rfl, fun _ _ => rfl, fun _ _ => rfl,
    fun _ _ => rfl, fun _ _ => rfl, fun _ _ => rfl, fun _ _ => rfl⟩

theorem trimInvariant_channel : TrimInvariant Palfi.channel :=
  ⟨fun _ => rfl, fun _ _ => rfl, fun _ _ => rfl, fun _ _ => rfl, fun _ _ => rfl,
    fun _ _ => rfl, fun _ _ => rfl, fun _ _ => rfl, fun _ _ => rfl⟩

theorem trimInvariant_event : TrimInvariant Palfi.event :=
  ⟨fun _ => rfl, fun _ _ => rfl, fun _ _ => rfl, fun _ _ => rfl, fun _ _ => rfl,
    fun _ _ => rfl, fun _ _ => rfl, fun _ _ => rfl, fun _ _ => rfl⟩

theorem palfi_writeout_inv {α : Type} (f : Palfi → α) (hf : TrimInvariant f)
    (miso : List Nat → Nat) (src : List Nat) (s : Palfi) :
    f (palfi_writeout miso src s) = f s := by
  have h := via_clear f hf.spi (palfi_writeout_frame miso src s)
  exact h.trans (hf.spi s)

theorem palfi_readback_inv {α : Type} (f : Palfi → α) (hf : TrimInvariant f)
    (miso : List Nat → Nat) (n : Nat) (s : Palfi) :
    f (palfi_readback miso n s).2 = f s := by
  have h := via_clear f hf.spi (palfi_readback_frame miso n s)
  exact h.trans (hf.spi s)

theorem sub_program_channels_inv {α : Type} (f : Palfi → α) (hf : TrimInvariant f)
    (miso : List Nat → Nat) (c t v : Nat) (s : Palfi) :
    f (sub_program_channels miso c t v s) = f s := by
  unfold sub_program_channels
  exact palfi_writeout_inv f hf miso _ s

theorem sub_prog_trimswitch_inv {α : Type} (f : Palfi → α) (hf : TrimInvariant f)
    (miso : List Nat → Nat) (t : Int) (s : Palfi) :
    f (sub_prog_trimswitch miso t s) = f s := by
  have h0 := hf.rxdata
    (palfi_readback miso 8 (sub_program_channels miso s.channel (t % 256).toNat 0x38 s)).2
    (palfi_readback miso 8 (sub_program_channels miso s.channel (t % 256).toNat 0x38 s)).1
  have h1 := palfi_readback_inv f hf miso 8
    (sub_program_channels miso s.channel (t % 256).toNat 0x38 s)
  have h2 := sub_program_channels_inv f hf miso s.channel (t % 256).toNat 0x38 s
  exact (h0.trans h1).trans h2

theorem sub_measurefreq_init_inv {α : Type} (f : Palfi → α) (hf : TrimInvariant f)
    (miso : List Nat → Nat) (t : Nat) (s : Palfi) :
    f (sub_measurefreq_init miso t s).2 = f s := by
  have h := sub_program_channels_inv f hf miso s.channel t 0x88
    { { { { { s with tim_ctl := TACLR } with tim_ctl := TASSEL_2 + MC_2 } with
      tim_ccifg := false } with trim_startcount := 20 } with trim_endcount := 160 }
  have h1 := hf.trim_endcount
    { { { { s with tim_ctl := TACLR } with tim_ctl := TASSEL_2 + MC_2 } with
      tim_ccifg := false } with trim_startcount := 20 } 160
  have h2 := hf.trim_startcount
    { { { s with tim_ctl := TACLR } with tim_ctl := TASSEL_2 + MC_2 } with
      tim_ccifg := false } 20
  have h3 := hf.tim_ccifg
    { { s with tim_ctl := TACLR } with tim_ctl := TASSEL_2 + MC_2 } false
  have h4 := hf.tim_ctl { s with tim_ctl := TACLR } (TASSEL_2 + MC_2)
  have h5 := hf.tim_ctl s TACLR
  exact ((((h.trans h1).trans h2).trans h3).trans h4).trans h5

/-- The function `sub_measurefreq_finish` changes the event code on the
watchdog path, so a view it leaves alone must not look at the event. -/
theorem sub_measurefreq_finish_inv {α : Type} (f : Palfi → α) (hf : TrimInvariant f)
    (hev : ∀ x v, f { x with event := v } = f x)
    (cfg : PalfiCfg) (miso : List Nat → Nat) (high : Bool) (s : Palfi) :
    f (sub_measurefreq_finish cfg miso high s) = f s := by
  have h5 := hf.tim_ctl s TACLR
  have h1 := palfi_readback_inv f hf miso 8 { s with tim_ctl := TACLR }
  have h0 := hf.rxdata (palfi_readback miso 8 { s with tim_ctl := TACLR }).2
    (palfi_readback miso 8 { s with tim_ctl := TACLR }).1
  have hr := (h0.trans h1).trans h5
  unfold sub_measurefreq_finish
  dsimp only
  split
  · exact (hev { s with tim_ctl := TACLR } (0 % 256)).trans h5
  · split
    · exact (hf.trim_thigh _ _).trans hr
    · exact (hf.trim_tlow _ _).trans hr

theorem sub_calculate_trim_inv {α : Type} (f : Palfi → α) (hf : TrimInvariant f)
    (s : Palfi) : f (sub_calculate_trim s) = f s :=
  hf.trimval s _

theorem palfi_action_swtrim_0_loop_event (miso : List Nat → Nat) :
    ∀ (n : Nat) (s : Palfi), (palfi_action_swtrim_0_loop miso n s).event = s.event := by
  intro n
  induction n with
  | zero => intro s; rfl
  | succ n ih =>
    intro s
    rw [palfi_action_swtrim_0_loop]
    split
    · exact (ih _).trans (sub_prog_trimswitch_inv Palfi.event trimInvariant_event miso 0 _)
    · rfl

theorem palfi_action_spitrim_0_event (miso : List Nat → Nat) (s : Palfi) :
    (palfi_action_spitrim_0 miso s).2.event = s.event := by
  have h := sub_prog_trimswitch_inv Palfi.event trimInvariant_event miso 0
    { { { { s with bypass := true } with vcld := true } with channel := 1 } with
      action := Action.palfi_action_spitrim_2 }
  exact h

theorem palfi_action_swtrim_0_event (miso : List Nat → Nat) (s : Palfi) :
    (palfi_action_swtrim_0 miso s).2.event = s.event := by
  have h := palfi_action_swtrim_0_loop_event miso 3
    { { { { s with action := Action.palfi_action_swtrim_1 } with bypass := true } with
      vcld := true } with channel := 0 }
  exact h

/-! ### The steps of the SPI trimming chain -/

theorem palfi_action_spitrim_1_step (miso : List Nat → Nat) (s : Palfi) :
    (palfi_action_spitrim_1 miso s).1 = 5 ∧
    (palfi_action_spitrim_1 miso s).2.action = Action.palfi_action_spitrim_2 ∧
    (palfi_action_spitrim_1 miso s).2.channel = s.channel := by
  have h1 := sub_prog_trimswitch_inv Palfi.action trimInvariant_action miso 0
    { s with action := Action.palfi_action_spitrim_2 }
  have h2 := sub_prog_trimswitch_inv Palfi.channel trimInvariant_channel miso 0
    { s with action := Action.palfi_action_spitrim_2 }
  exact ⟨rfl, h1, h2⟩

theorem palfi_action_spitrim_0_step (miso : List Nat → Nat) (s : Palfi) :
    (palfi_action_spitrim_0 miso s).1 = 5 ∧
    (palfi_action_spitrim_0 miso s).2.action = Action.palfi_action_spitrim_2 ∧
    (palfi_action_spitrim_0 miso s).2.channel = 1 := by
  have h := palfi_action_spitrim_1_step miso
    { { { s with bypass := true } with vcld := true } with channel := 1 }
  exact h

theorem palfi_action_spitrim_2_step (miso : List Nat → Nat) (s : Palfi) :
    (palfi_action_spitrim_2 miso s).1 = 1024 ∧
    (palfi_action_spitrim_2 miso s).2.action = Action.palfi_action_spitrim_3 ∧
    (palfi_action_spitrim_2 miso s).2.channel = s.channel := by
  have h1 := sub_measurefreq_init_inv Palfi.action trimInvariant_action miso 0
    { s with action := Action.palfi_action_spitrim_3 }
  have h2 := sub_measurefreq_init_inv Palfi.channel trimInvariant_channel miso 0
    { s with action := Action.palfi_action_spitrim_3 }
  exact ⟨rfl, h1, h2⟩

theorem palfi_action_spitrim_3_step (cfg : PalfiCfg) (miso : List Nat → Nat) (s : Palfi) :
    (palfi_action_spitrim_3 cfg miso s).1 = 5 ∧
    (palfi_action_spitrim_3 cfg miso s).2.action = Action.palfi_action_spitrim_4 ∧
    (palfi_action_spitrim_3 cfg miso s).2.channel = s.channel := by
  have h1 := sub_measurefreq_finish_inv Palfi.action trimInvariant_action (fun _ _ => rfl)
    cfg miso false { s with action := Action.palfi_action_spitrim_4 }
  have h2 := sub_measurefreq_finish_inv Palfi.channel trimInvariant_channel (fun _ _ => rfl)
    cfg miso false { s with action := Action.palfi_action_spitrim_4 }
  exact ⟨rfl, h1, h2⟩

theorem palfi_action_spitrim_4_step (miso : List Nat → Nat) (s : Palfi) :
    (palfi_action_spitrim_4 miso s).1 = 1024 ∧
    (palfi_action_spitrim_4 miso s).2.action = Action.palfi_action_spitrim_5 ∧
    (palfi_action_spitrim_4 miso s).2.channel = s.channel := by
  have h1 := sub_measurefreq_init_inv Palfi.action trimInvariant_action miso 0x7f
    { s with action := Action.palfi_action_spitrim_5 }
  have h2 := sub_measurefreq_init_inv Palfi.channel trimInvariant_channel miso 0x7f
    { s with action := Action.palfi_action_spitrim_5 }
  exact ⟨rfl, h1, h2⟩

/-- The state of `palfi_action_spitrim_5` at its test of `palfi.channel`. -/
theorem palfi_action_spitrim_5_inv {α : Type} (f : Palfi → α) (hf : TrimInvariant f)
    (hev : ∀ x v, f { x with event := v } = f x)
    (cfg : PalfiCfg) (miso : List Nat → Nat) (s : Palfi) :
    f (sub_prog_trimswitch miso
        ((sub_calculate_trim (sub_measurefreq_finish cfg miso true s)).trimval.getD
          (sub_calculate_trim (sub_measurefreq_finish cfg miso true s)).channel 0)
        (sub_calculate_trim (sub_measurefreq_finish cfg miso true s))) = f s :=
  ((sub_prog_trimswitch_inv f hf miso _ _).trans
    (sub_calculate_trim_inv f hf _)).trans (sub_measurefreq_finish_inv f hf hev cfg miso true s)

theorem palfi_action_spitrim_5_step (cfg : PalfiCfg) (miso : List Nat → Nat) (s : Palfi) :
    (s.channel = 3 →
      (palfi_action_spitrim_5 cfg miso s).1 = 0 ∧
      (palfi_action_spitrim_5 cfg miso s).2.action = s.action ∧
      (palfi_action_spitrim_5 cfg miso s).2.channel = 3) ∧
    (s.channel ≠ 3 →
      (palfi_action_spitrim_5 cfg miso s).1 = -1 ∧
      (palfi_action_spitrim_5 cfg miso s).2.action = Action.palfi_action_spitrim_1 ∧
      (palfi_action_spitrim_5 cfg miso s).2.channel = (s.channel + 1) % 256) := by
  have ha := palfi_action_spitrim_5_inv Palfi.action trimInvariant_action (fun _ _ => rfl)
    cfg miso s
  have hc := palfi_action_spitrim_5_inv Palfi.channel trimInvariant_channel (fun _ _ => rfl)
    cfg miso s
  unfold palfi_action_spitrim_5
  dsimp only
  rw [hc]
  constructor
  · intro h3
    rw [if_pos h3]
    refine ⟨rfl, ?_, ?_⟩
    · exact ha
    · exact h3
  · intro h3
    rw [if_neg h3]
    exact ⟨rfl, rfl, rfl⟩


/-! ### The SPI trimming chain as a whole -/

theorem run_chain_step (cfg : PalfiCfg) (miso : List Nat → Nat) (n : Nat) (s s' : Palfi)
    (a : Action) (d : Int) (c : Nat) (ha : s.action = a)
    (hs : (palfi_call cfg miso a s).2 = s') (hd : (palfi_call cfg miso a s).1 = d)
    (hc : s'.channel = c) (hne : d ≠ 0) :
    run_chain cfg miso (n + 1) s = (a, c, d) :: run_chain cfg miso n s' := by
  rw [run_chain]
  simp only [ha, hs, hd, hc, if_neg hne]

theorem run_chain_done (cfg : PalfiCfg) (miso : List Nat → Nat) (n : Nat) (s : Palfi)
    (a : Action) (c : Nat) (ha : s.action = a)
    (hd : (palfi_call cfg miso a s).1 = 0) (hc : (palfi_call cfg miso a s).2.channel = c) :
    run_chain cfg miso (n + 1) s = [(a, c, 0)] := by
  rw [run_chain]
  simp only [ha, hd, hc, if_true]

/-- Steps 2 to 5 on a channel other than 3, and step 1 on the next channel. -/
theorem run_chain_round (cfg : PalfiCfg) (miso : List Nat → Nat) (n : Nat) (s : Palfi)
    (c : Nat) (ha : s.action = Action.palfi_action_spitrim_2) (hc : s.channel = c)
    (h3 : c ≠ 3) :
    ∃ s' : Palfi, run_chain cfg miso (n + 1 + 1 + 1 + 1 + 1) s =
        (Action.palfi_action_spitrim_2, c, 1024) :: (Action.palfi_action_spitrim_3, c, 5) ::
        (Action.palfi_action_spitrim_4, c, 1024) ::
        (Action.palfi_action_spitrim_5, (c + 1) % 256, -1) ::
        (Action.palfi_action_spitrim_1, (c + 1) % 256, 5) :: run_chain cfg miso n s' ∧
      s'.action = Action.palfi_action_spitrim_2 ∧ s'.channel = (c + 1) % 256 := by
  obtain ⟨d2, a2, c2⟩ := palfi_action_spitrim_2_step miso s
  obtain ⟨s2, e2⟩ : ∃ x : Palfi, (palfi_action_spitrim_2 miso s).2 = x := ⟨_, rfl⟩
  rw [e2] at a2 c2
  obtain ⟨d3, a3, c3⟩ := palfi_action_spitrim_3_step cfg miso s2
  obtain ⟨s3, e3⟩ : ∃ x : Palfi, (palfi_action_spitrim_3 cfg miso s2).2 = x := ⟨_, rfl⟩
  rw [e3] at a3 c3
  obtain ⟨d4, a4, c4⟩ := palfi_action_spitrim_4_step miso s3
  obtain ⟨s4, e4⟩ : ∃ x : Palfi, (palfi_action_spitrim_4 miso s3).2 = x := ⟨_, rfl⟩
  rw [e4] at a4 c4
  have hc4 : s4.channel = c := by rw [c4, c3, c2, hc]
  obtain ⟨d5, a5, c5⟩ := (palfi_action_spitrim_5_step cfg miso s4).2 (by rw [hc4]; exact h3)
  obtain ⟨s5, e5⟩ : ∃ x : Palfi, (palfi_action_spitrim_5 cfg miso s4).2 = x := ⟨_, rfl⟩
  rw [e5] at a5 c5
  obtain ⟨d1, a1, c1⟩ := palfi_action_spitrim_1_step miso s5
  obtain ⟨s1, e1⟩ : ∃ x : Palfi, (palfi_action_spitrim_1 miso s5).2 = x := ⟨_, rfl⟩
  rw [e1] at a1 c1
  refine ⟨s1, ?_, a1, by rw [c1, c5, hc4]⟩
  rw [run_chain_step cfg miso _ s s2 _ 1024 c ha e2 d2 (by rw [c2, hc]) (by decide),
    run_chain_step cfg miso _ s2 s3 _ 5 c a2 e3 d3 (by rw [c3, c2, hc]) (by decide),
    run_chain_step cfg miso _ s3 s4 _ 1024 c a3 e4 d4 hc4 (by decide),
    run_chain_step cfg miso _ s4 s5 _ (-1) ((c + 1) % 256) a4 e5 d5 (by rw [c5, hc4])
      (by decide),
    run_chain_step cfg miso _ s5 s1 _ 5 ((c + 1) % 256) a5 e1 d1 (by rw [c1, c5, hc4])
      (by decide)]

/-- Steps 2 to 5 on channel 3: the last of them reports Done. -/
theorem run_chain_last (cfg : PalfiCfg) (miso : List Nat → Nat) (n : Nat) (s : Palfi)
    (ha : s.action = Action.palfi_action_spitrim_2) (hc : s.channel = 3) :
    run_chain cfg miso (n + 1 + 1 + 1 + 1) s =
      [(Action.palfi_action_spitrim_2, 3, 1024), (Action.palfi_action_spitrim_3, 3, 5),
       (Action.palfi_action_spitrim_4, 3, 1024), (Action.palfi_action_spitrim_5, 3, 0)] := by
  obtain ⟨d2, a2, c2⟩ := palfi_action_spitrim_2_step miso s
  obtain ⟨s2, e2⟩ : ∃ x : Palfi, (palfi_action_spitrim_2 miso s).2 = x := ⟨_, rfl⟩
  rw [e2] at a2 c2
  obtain ⟨d3, a3, c3⟩ := palfi_action_spitrim_3_step cfg miso s2
  obtain ⟨s3, e3⟩ : ∃ x : Palfi, (palfi_action_spitrim_3 cfg miso s2).2 = x := ⟨_, rfl⟩
  rw [e3] at a3 c3
  obtain ⟨d4, a4, c4⟩ := palfi_action_spitrim_4_step miso s3
  obtain ⟨s4, e4⟩ : ∃ x : Palfi, (palfi_action_spitrim_4 miso s3).2 = x := ⟨_, rfl⟩
  rw [e4] at a4 c4
  have hc4 : s4.channel = 3 := by rw [c4, c3, c2, hc]
  obtain ⟨d5, _, c5⟩ := (palfi_action_spitrim_5_step cfg miso s4).1 hc4
  rw [run_chain_step cfg miso _ s s2 _ 1024 3 ha e2 d2 (by rw [c2, hc]) (by decide),
    run_chain_step cfg miso _ s2 s3 _ 5 3 a2 e3 d3 (by rw [c3, c2, hc]) (by decide),
    run_chain_step cfg miso _ s3 s4 _ 1024 3 a3 e4 d4 hc4 (by decide),
    run_chain_done cfg miso _ s4 _ 3 a4 d5 c5]

/-- The directive of every step of the file: only step 5 of the SPI chain can
return 0, and it does so exactly on channel 3. -/
theorem palfi_call_done_iff (cfg : PalfiCfg) (miso : List Nat → Nat) (a : Action) (s : Palfi) :
    (palfi_call cfg miso a s).1 = 0 ↔ (a = Action.palfi_action_spitrim_5 ∧ s.channel = 3) := by
  cases a
  · exact ⟨fun h => absurd ((palfi_action_spitrim_0_step miso s).1.symm.trans h) (by decide),
      fun h => Action.noConfusion h.1⟩
  · exact ⟨fun h => absurd ((palfi_action_spitrim_1_step miso s).1.symm.trans h) (by decide),
      fun h => Action.noConfusion h.1⟩
  · exact ⟨fun h => absurd ((palfi_action_spitrim_2_step miso s).1.symm.trans h) (by decide),
      fun h => Action.noConfusion h.1⟩
  · exact ⟨fun h => absurd ((palfi_action_spitrim_3_step cfg miso s).1.symm.trans h) (by decide),
      fun h => Action.noConfusion h.1⟩
  · exact ⟨fun h => absurd ((palfi_action_spitrim_4_step miso s).1.symm.trans h) (by decide),
      fun h => Action.noConfusion h.1⟩
  · by_cases h3 : s.channel = 3
    · exact ⟨fun _ => ⟨rfl, h3⟩, fun _ => ((palfi_action_spitrim_5_step cfg miso s).1 h3).1⟩
    · exact ⟨fun h => absurd
          (((palfi_action_spitrim_5_step cfg miso s).2 h3).1.symm.trans h) (by decide),
        fun h => absurd h.2 h3⟩
  · exact ⟨fun h => absurd (show (52 : Int) = 0 from h) (by decide),
      fun h => Action.noConfusion h.1⟩
  · exact ⟨fun h => absurd (show (-1 : Int) = 0 from h) (by decide),
      fun h => Action.noConfusion h.1⟩

/-- C20.  Started with `palfi_action_spitrim_0` and driven by calling the step
stored in `palfi.action`, the SPI trimming chain makes exactly 15 calls from
any state: the first step (which runs step 1 itself) and steps 2 to 5 on
channel 1, steps 1 to 5 on channel 2, steps 1 to 5 on channel 3; the channel
after each call is 1, 2 or 3; the first 14 calls return the nonzero directives
5, 1024 and -1 and the 15th, step 5 on channel 3, returns 0.  Each of the steps
1 to 4 stores the next step and returns a nonzero directive, leaving the
channel as it is; step 5 on a channel below 3 stores step 1, adds one to the
channel and returns -1; and a step of the file returns 0 exactly when it is
step 5 called on channel 3. -/
theorem C20_spi_trimming_chain (cfg : PalfiCfg) (miso : List Nat → Nat) (n : Nat) (s : Palfi) :
    run_chain cfg miso (n + 15) { s with action := Action.palfi_action_spitrim_0 } =
      [(Action.palfi_action_spitrim_0, 1, 5), (Action.palfi_action_spitrim_2, 1, 1024),
       (Action.palfi_action_spitrim_3, 1, 5), (Action.palfi_action_spitrim_4, 1, 1024),
       (Action.palfi_action_spitrim_5, 2, -1),
       (Action.palfi_action_spitrim_1, 2, 5), (Action.palfi_action_spitrim_2, 2, 1024),
       (Action.palfi_action_spitrim_3, 2, 5), (Action.palfi_action_spitrim_4, 2, 1024),
       (Action.palfi_action_spitrim_5, 3, -1),
       (Action.palfi_action_spitrim_1, 3, 5), (Action.palfi_action_spitrim_2, 3, 1024),
       (Action.palfi_action_spitrim_3, 3, 5), (Action.palfi_action_spitrim_4, 3, 1024),
       (Action.palfi_action_spitrim_5, 3, 0)] ∧
    (∀ x : Palfi,
      ((palfi_action_spitrim_1 miso x).1 ≠ 0 ∧
        (palfi_action_spitrim_1 miso x).2.action = Action.palfi_action_spitrim_2 ∧
        (palfi_action_spitrim_1 miso x).2.channel = x.channel) ∧
      ((palfi_action_spitrim_2 miso x).1 ≠ 0 ∧
        (palfi_action_spitrim_2 miso x).2.action = Action.palfi_action_spitrim_3 ∧
        (palfi_action_spitrim_2 miso x).2.channel = x.channel) ∧
      ((palfi_action_spitrim_3 cfg miso x).1 ≠ 0 ∧
        (palfi_action_spitrim_3 cfg miso x).2.action = Action.palfi_action_spitrim_4 ∧
        (palfi_action_spitrim_3 cfg miso x).2.channel = x.channel) ∧
      ((palfi_action_spitrim_4 miso x).1 ≠ 0 ∧
        (palfi_action_spitrim_4 miso x).2.action = Action.palfi_action_spitrim_5 ∧
        (palfi_action_spitrim_4 miso x).2.channel = x.channel) ∧
      (x.channel < 3 →
        (palfi_action_spitrim_5 cfg miso x).1 = -1 ∧
        (palfi_action_spitrim_5 cfg miso x).2.action = Action.palfi_action_spitrim_1 ∧
        (palfi_action_spitrim_5 cfg miso x).2.channel = x.channel + 1) ∧
      (∀ a, (palfi_call cfg miso a x).1 = 0 ↔
        (a = Action.palfi_action_spitrim_5 ∧ x.channel = 3))) := by
  constructor
  · obtain ⟨d0, a0, c0⟩ := palfi_action_spitrim_0_step miso
      { s with action := Action.palfi_action_spitrim_0 }
    obtain ⟨s0, e0⟩ : ∃ x : Palfi, (palfi_action_spitrim_0 miso
      { s with action := Action.palfi_action_spitrim_0 }).2 = x := ⟨_, rfl⟩
    rw [e0] at a0 c0
    obtain ⟨s1, r1, a1, c1⟩ := run_chain_round cfg miso (n + 1 + 1 + 1 + 1 + 1 + 1 + 1 + 1 + 1)
      s0 1 a0 c0 (by decide)
    obtain ⟨s2, r2, a2, c2⟩ := run_chain_round cfg miso (n + 1 + 1 + 1 + 1) s1 2 a1 c1
      (by decide)
    have r3 := run_chain_last cfg miso n s2 a2 c2
    rw [show n + 15 = (n + 1 + 1 + 1 + 1 + 1 + 1 + 1 + 1 + 1 + 1 + 1 + 1 + 1 + 1) + 1 from rfl,
      run_chain_step cfg miso _ { s with action := Action.palfi_action_spitrim_0 } s0 _ 5 1
        rfl e0 d0 c0 (by decide), r1, r2, r3]
  · intro x
    obtain ⟨d1, a1, c1⟩ := palfi_action_spitrim_1_step miso x
    obtain ⟨d2, a2, c2⟩ := palfi_action_spitrim_2_step miso x
    obtain ⟨d3, a3, c3⟩ := palfi_action_spitrim_3_step cfg miso x
    obtain ⟨d4, a4, c4⟩ := palfi_action_spitrim_4_step miso x
    refine ⟨⟨by rw [d1]; decide, a1, c1⟩, ⟨by rw [d2]; decide, a2, c2⟩,
      ⟨by rw [d3]; decide, a3, c3⟩, ⟨by rw [d4]; decide, a4, c4⟩, fun hlt => ?_,
      fun a => palfi_call_done_iff cfg miso a x⟩
    obtain ⟨d5, a5, c5⟩ := (palfi_action_spitrim_5_step cfg miso x).2 (by omega)
    exact ⟨d5, a5, by rw [c5]; omega⟩

/-! ### The exits of the callback -/

theorem palfi_readback_spi_tx (miso : List Nat → Nat) :
    ∀ (n : Nat) (s : Palfi),
      (palfi_readback miso n s).2.spi_tx = s.spi_tx ++ List.replicate n 0 := by
  intro n
  induction n with
  | zero => intro s; simp [palfi_readback]
  | succ n ih =>
    intro s
    rw [palfi_readback]
    show (palfi_readback miso n (sub_spi_trx miso 0x00 s).2).2.spi_tx = _
    rw [ih]
    show (s.spi_tx ++ [0 % 256]) ++ _ = _
    rw [List.append_assoc]
    rfl

theorem palfi_cmdrssi_spi_tx (miso : List Nat → Nat) (s : Palfi) :
    (palfi_cmdrssi miso s).spi_tx = s.spi_tx ++ [0x03, 0xF3, 0x44, 0x00, 0, 0, 0, 0, 0, 0] := by
  show (palfi_readback miso 6 (palfi_writeout miso [0x03, 0xF3, 0x44, 0x00] s)).2.spi_tx = _
  rw [palfi_readback_spi_tx]
  unfold palfi_writeout
  rw [palfi_writeout_loop_spi_tx, List.append_assoc]
  rfl

/-- What the LF branch of `case 2:` leaves as it is: every view of the state
that looks neither at the SPI record, nor at the RSSI block, nor at the event
and `palfi.wake_event`. -/
theorem ext_systask_case2_lf_via {α : Type} (f : Palfi → α)
    (hf : ∀ x, f (clear_spi x) = f x) (miso : List Nat → Nat) (s : Palfi) :
    f (ext_systask_case2_lf miso s) =
      f { clear_spi { { s with wake_event := (s.wake_event + (65 - 1)) % 256 } with
                      event := (s.event + 2) % 256 } with
          rssi_info := (ext_systask_case2_lf miso s).rssi_info,
          rssi1 := (ext_systask_case2_lf miso s).rssi1,
          rssi2 := (ext_systask_case2_lf miso s).rssi2,
          rssi3 := (ext_systask_case2_lf miso s).rssi3,
          read_addr := (ext_systask_case2_lf miso s).read_addr,
          read_ext := (ext_systask_case2_lf miso s).read_ext } := by
  have h := via_clear f hf (palfi_cmdrssi_frame miso
    { { s with wake_event := (s.wake_event + (65 - 1)) % 256 } with event := (s.event + 2) % 256 })
  exact h

theorem ext_systask_EXIT1_bypass (s : Palfi) :
    (ext_systask_EXIT1 s).bypass =
      if s.status3 = 1 then false else if s.status3 = 2 then true else s.bypass := by
  unfold ext_systask_EXIT1
  split
  · rfl
  · split <;> rfl

theorem ext_systask_EXIT1_m2task (s : Palfi) : (ext_systask_EXIT1 s).m2task = s.m2task := by
  unfold ext_systask_EXIT1
  split
  · rfl
  · split <;> rfl

theorem ext_systask_EXIT2_bypass (cfg : PalfiCfg) (miso : List Nat → Nat) (s : Palfi) :
    (ext_systask_EXIT2 cfg miso s).bypass = s.bypass := by
  have h := via_clear Palfi.bypass (fun _ => rfl) (palfi_powerdown_frame miso s)
  exact h

/-- The resources of the PaLFi core as `palfi_powerdown` leaves them. -/
theorem palfi_powerdown_released (miso : List Nat → Nat) (s : Palfi) :
    (palfi_powerdown miso s).spi_swrst = true ∧ (palfi_powerdown miso s).wake_ifg = false ∧
    (palfi_powerdown miso s).wake_ie = true ∧ (palfi_powerdown miso s).wake_event = 0 := by
  have hf := palfi_powerdown_frame miso s
  have e1 := via_clear Palfi.spi_swrst (fun _ => rfl) hf
  have e2 := via_clear Palfi.wake_ifg (fun _ => rfl) hf
  have e3 := via_clear Palfi.wake_ie (fun _ => rfl) hf
  have e4 := via_clear Palfi.wake_event (fun _ => rfl) hf
  exact ⟨e1, e2, e3, e4⟩

theorem ext_systask_EXIT2_released (cfg : PalfiCfg) (miso : List Nat → Nat) (s : Palfi) :
    (∃ tmpl, ext_systask_EXIT2 cfg miso s = m2task_immediate tmpl (palfi_powerdown miso s)) ∧
    (ext_systask_EXIT2 cfg miso s).spi_swrst = true ∧
    (ext_systask_EXIT2 cfg miso s).wake_ifg = false ∧
    (ext_systask_EXIT2 cfg miso s).wake_ie = true ∧
    (ext_systask_EXIT2 cfg miso s).wake_event = 0 := by
  obtain ⟨e1, e2, e3, e4⟩ := palfi_powerdown_released miso s
  exact ⟨⟨_, rfl⟩, e1, e2, e3, e4⟩

/-- With the steps of the file behind `palfi.action`, the action manager entered
from `case 6:` or `case 8:` returns with the event code it was entered with. -/
theorem ext_systask_action_first_step_event (cfg : PalfiCfg) (miso : List Nat → Nat)
    (s : Palfi) (a0 : Action)
    (ha : a0 = Action.palfi_action_spitrim_0 ∨ a0 = Action.palfi_action_swtrim_0) :
    (ext_systask_action cfg miso (palfi_call cfg miso) { s with action := a0 }).1.event
      = s.event := by
  rcases ha with rfl | rfl
  · have e := ext_systask_action_eq cfg miso (palfi_call cfg miso)
      { s with action := Action.palfi_action_spitrim_0 } _ rfl
    have d : (palfi_call cfg miso
        ({ s with action := Action.palfi_action_spitrim_0 } : Palfi).action
        { s with action := Action.palfi_action_spitrim_0 }).1 = 5 :=
      (palfi_action_spitrim_0_step miso { s with action := Action.palfi_action_spitrim_0 }).1
    rw [e, d, if_neg (by decide), if_pos (by decide)]
    exact palfi_action_spitrim_0_event miso { s with action := Action.palfi_action_spitrim_0 }
  · have e := ext_systask_action_eq cfg miso (palfi_call cfg miso)
      { s with action := Action.palfi_action_swtrim_0 } _ rfl
    have d : (palfi_call cfg miso
        ({ s with action := Action.palfi_action_swtrim_0 } : Palfi).action
        { s with action := Action.palfi_action_swtrim_0 }).1 = 52 := rfl
    rw [e, d, if_neg (by decide), if_pos (by decide)]
    exact palfi_action_swtrim_0_event miso { s with action := Action.palfi_action_swtrim_0 }

/-- The labels of the `switch` other than `case 6:` and `case 8:` end in
`sys_sig_extprocess_EXIT2` or, for `default:`, in `palfi_powerdown` alone. -/
theorem ext_systask_cases_exit (cfg : PalfiCfg) (miso : List Nat → Nat)
    (call : Action → Palfi → Int × Palfi) (s : Palfi) (h6 : ¬ s.event = 6)
    (h8 : ¬ s.event = 8) :
    (∃ x, ext_systask_cases cfg miso call s = (ext_systask_EXIT2 cfg miso x, none)) ∨
      ext_systask_cases cfg miso call s = (palfi_powerdown miso s, none) := by
  unfold ext_systask_cases
  by_cases h3 : s.event = 3
  · rw [if_pos h3]; exact Or.inl ⟨_, rfl⟩
  rw [if_neg h3]
  by_cases h4 : s.event = 4
  · rw [if_pos h4]; exact Or.inl ⟨_, rfl⟩
  rw [if_neg h4]
  by_cases h5 : s.event = 5
  · rw [if_pos h5]; exact Or.inl ⟨_, rfl⟩
  rw [if_neg h5, if_neg h6]
  by_cases h7 : s.event = 7
  · rw [if_pos h7]; exact Or.inl ⟨_, rfl⟩
  rw [if_neg h7, if_neg h8]
  exact Or.inr rfl

/-- Every way out of the `switch` that leaves the event code 0 ends with
`palfi_powerdown`, followed at most by the emission of the message. -/
theorem ext_systask_cases_released (cfg : PalfiCfg) (miso : List Nat → Nat) (s : Palfi)
    (r : Palfi × Option (Action × Int))
    (hr : ext_systask_cases cfg miso (palfi_call cfg miso) s = r) (h0 : r.1.event = 0) :
    (∃ x, r.1 = palfi_powerdown miso x ∨
      ∃ tmpl, r.1 = m2task_immediate tmpl (palfi_powerdown miso x)) ∧
    r.1.spi_swrst = true ∧ r.1.wake_ifg = false ∧ r.1.wake_ie = true ∧ r.1.wake_event = 0 := by
  by_cases h6 : s.event = 6
  · exfalso
    rw [← hr, ext_systask_cases_action cfg miso _ s Action.palfi_action_spitrim_0
      (Or.inl ⟨h6, rfl⟩),
      ext_systask_action_first_step_event cfg miso s _ (Or.inl rfl)] at h0
    omega
  by_cases h8 : s.event = 8
  · exfalso
    rw [← hr, ext_systask_cases_action cfg miso _ s Action.palfi_action_swtrim_0
      (Or.inr ⟨h8, rfl⟩),
      ext_systask_action_first_step_event cfg miso s _ (Or.inr rfl)] at h0
    omega
  rcases ext_systask_cases_exit cfg miso (palfi_call cfg miso) s h6 h8 with ⟨x, e⟩ | e
  · rw [e] at hr
    subst hr
    obtain ⟨⟨t, et⟩, rest⟩ := ext_systask_EXIT2_released cfg miso x
    exact ⟨⟨x, Or.inr ⟨t, et⟩⟩, rest⟩
  · rw [e] at hr
    subst hr
    exact ⟨⟨s, Or.inl rfl⟩, palfi_powerdown_released miso s⟩

/-! ### Claims C18 and C19: the exits of the callback -/

/-- C18.  For every state and every event code, `ext_systask` returns (fuel for
one `goto` is enough), and when the event code is 0 on return the invocation
ended with `palfi_powerdown`, followed at most by `m2task_immediate`, which
touches no resource: the state on return is the one `palfi_powerdown` left, the
SPI of the PaLFi core is in reset, the wake interrupt flag is cleared, the wake
interrupt is enabled and `palfi.wake_event` is 0. -/
theorem C18_idle_implies_released (cfg : PalfiCfg) (miso : List Nat → Nat) (fuel : Nat)
    (s : Palfi) :
    ∃ r, ext_systask cfg miso (fuel + 2) s = some r ∧
      (r.1.event = 0 →
        (∃ x, r.1 = palfi_powerdown miso x ∨
          ∃ tmpl, r.1 = m2task_immediate tmpl (palfi_powerdown miso x)) ∧
        r.1.spi_swrst = true ∧ r.1.wake_ifg = false ∧ r.1.wake_ie = true ∧
        r.1.wake_event = 0) := by
  unfold ext_systask
  by_cases he : s.event = 1 ∨ s.event = 2
  · exact ⟨_, ext_systask_loop_goto cfg miso _ fuel s he,
      ext_systask_cases_released cfg miso (ext_systask_case2 miso s) _ rfl⟩
  · exact ⟨_, ext_systask_loop_direct cfg miso _ (fuel + 1) s he,
      ext_systask_cases_released cfg miso s _ rfl⟩

/-- C19.  When `ext_systask` is invoked with event `e` in {1, 2} and the status
read shows an LF wake-up (`w = status[0] & 3` nonzero), the block of `case 2:`
sets `palfi.wake_event` to `w + 'A' - 1`, sets the event to `e + 2` and reads
the RSSI block (the command `3, 0xF3, 0x44, 0` and six read transfers); the
invocation goes on in the same call with the exit of the new event code (from
`sys_sig_extprocess_EXIT1` for 3, from `sys_sig_extprocess_EXIT2` for 4), calls
no step through `palfi.action`, and returns with event 0 and exactly one more
message enqueued.  For `e = 1` the bypass pin follows `status[3]`: cleared for
1, set for 2, left as it was otherwise; for `e = 2` it is left as it was. -/
theorem C19_lf_wakeup_branch (cfg : PalfiCfg) (miso : List Nat → Nat) (fuel : Nat)
    (s : Palfi) (he : s.event = 1 ∨ s.event = 2)
    (hw : (ext_systask_case2_status miso s).status0 &&& 3 ≠ 0) :
    ∃ st lf r : Palfi,
      st = ext_systask_case2_status miso s ∧ lf = ext_systask_case2 miso s ∧
      lf.wake_event = (st.status0 &&& 3) + 65 - 1 ∧
      lf.event = s.event + 2 ∧
      lf.spi_tx = st.spi_tx ++ [0x03, 0xF3, 0x44, 0x00, 0, 0, 0, 0, 0, 0] ∧
      ext_systask cfg miso (fuel + 2) s = some (r, none) ∧
      (s.event = 1 → r = ext_systask_EXIT2 cfg miso (ext_systask_EXIT1 lf)) ∧
      (s.event = 2 → r = ext_systask_EXIT2 cfg miso lf) ∧
      r.event = 0 ∧
      (∃ tmpl, r.m2task = s.m2task ++ [tmpl]) ∧
      (s.event = 1 → r.bypass =
        if st.status3 = 1 then false else if st.status3 = 2 then true else s.bypass) ∧
      (s.event = 2 → r.bypass = s.bypass) := by
  obtain ⟨st, hst⟩ : ∃ x : Palfi, x = ext_systask_case2_status miso s := ⟨_, rfl⟩
  have hwe : st.wake_event = st.status0 &&& 3 := by
    rw [hst, ext_systask_case2_status_wake_event, ext_systask_case2_status_status0]
  have hne : st.wake_event ≠ 0 := by rw [hwe, hst]; exact hw
  have hle : st.wake_event ≤ 3 := by rw [hwe]; exact Nat.and_le_right
  have hc2 : ext_systask_case2 miso s = ext_systask_case2_lf miso st := by
    unfold ext_systask_case2
    dsimp only
    rw [← hst, if_pos hne]
  have hev : (ext_systask_case2_lf miso st).event = s.event + 2 := by
    rw [ext_systask_case2_lf_event, hst, ext_systask_case2_status_event]
    rcases he with h | h <;> rw [h]
  have hwk : (ext_systask_case2_lf miso st).wake_event = (st.status0 &&& 3) + 65 - 1 := by
    have h := ext_systask_case2_lf_via Palfi.wake_event (fun _ => rfl) miso st
    rw [← hwe]
    refine h.trans ?_
    show (st.wake_event + (65 - 1)) % 256 = _
    omega
  have hs3 : (ext_systask_case2_lf miso st).status3 = st.status3 :=
    ext_systask_case2_lf_via Palfi.status3 (fun _ => rfl) miso st
  have hby : (ext_systask_case2_lf miso st).bypass = s.bypass := by
    have h := ext_systask_case2_lf_via Palfi.bypass (fun _ => rfl) miso st
    have h2 := via_clear Palfi.bypass (fun _ => rfl) (ext_systask_case2_status_frame miso s)
    rw [← hst] at h2
    exact h.trans h2
  have hm : (ext_systask_case2_lf miso st).m2task = s.m2task := by
    rw [ext_systask_case2_lf_m2task, hst, ext_systask_case2_status_m2task]
  have hloop := ext_systask_loop_goto cfg miso (palfi_call cfg miso) fuel s he
  rw [hc2] at hloop
  rcases he with h1 | h2
  · have hcase : ext_systask_cases cfg miso (palfi_call cfg miso) (ext_systask_case2_lf miso st)
        = (ext_systask_EXIT2 cfg miso (ext_systask_EXIT1 (ext_systask_case2_lf miso st)),
            none) := by
      unfold ext_systask_cases
      rw [if_pos (by rw [hev, h1])]
    refine ⟨st, _, _, hst, hc2.symm, hwk, hev, palfi_cmdrssi_spi_tx miso _, ?_,
      fun _ => rfl, fun h => ?_, ext_systask_EXIT2_event cfg miso _,
      ⟨{ channel := cfg.ALERT_CHAN2, subnetmask := 0, flagmask := 0 }, ?_⟩,
      fun _ => ?_, fun h => ?_⟩
    · unfold ext_systask
      rw [hloop, hcase]
    · omega
    · rw [ext_systask_EXIT2_m2task, ext_systask_EXIT1_m2task, hm]
    · rw [ext_systask_EXIT2_bypass, ext_systask_EXIT1_bypass, hs3, hby]
    · omega
  · have hcase : ext_systask_cases cfg miso (palfi_call cfg miso) (ext_systask_case2_lf miso st)
        = (ext_systask_EXIT2 cfg miso (ext_systask_case2_lf miso st), none) := by
      unfold ext_systask_cases
      rw [if_neg (by rw [hev, h2]; decide), if_pos (by rw [hev, h2])]
    refine ⟨st, _, _, hst, hc2.symm, hwk, hev, palfi_cmdrssi_spi_tx miso _, ?_,
      fun h => ?_, fun _ => rfl, ext_systask_EXIT2_event cfg miso _,
      ⟨{ channel := cfg.ALERT_CHAN2, subnetmask := 0, flagmask := 0 }, ?_⟩,
      fun h => ?_, fun _ => ?_⟩
    · unfold ext_systask
      rw [hloop, hcase]
    · omega
    · rw [ext_systask_EXIT2_m2task, hm]
    · omega
    · rw [ext_systask_EXIT2_bypass, hby]

/-- C19 at a concrete run: invoked with event 1 while the status reports wake
A, the callback sets `wake_event = 'A'`, passes through event 3 and returns
with event 0, one message enqueued and the bypass pin as it was
(`status[3] = 0`). -/
theorem C19_lf_wakeup_branch_witness :
    ((palfi_woken 1).event = 1 ∨ (palfi_woken 1).event = 2) ∧
    (ext_systask_case2_status miso_wake_a (palfi_woken 1)).status0 &&& 3 ≠ 0 ∧
    ∃ st lf r : Palfi,
      st = ext_systask_case2_status miso_wake_a (palfi_woken 1) ∧
      lf = ext_systask_case2 miso_wake_a (palfi_woken 1) ∧
      lf.wake_event = (st.status0 &&& 3) + 65 - 1 ∧
      lf.event = (palfi_woken 1).event + 2 ∧
      lf.spi_tx = st.spi_tx ++ [0x03, 0xF3, 0x44, 0x00, 0, 0, 0, 0, 0, 0] ∧
      ext_systask cfg_two_channels miso_wake_a 2 (palfi_woken 1) = some (r, none) ∧
      ((palfi_woken 1).event = 1 →
        r = ext_systask_EXIT2 cfg_two_channels miso_wake_a (ext_systask_EXIT1 lf)) ∧
      ((palfi_woken 1).event = 2 → r = ext_systask_EXIT2 cfg_two_channels miso_wake_a lf) ∧
      r.event = 0 ∧
      (∃ tmpl, r.m2task = (palfi_woken 1).m2task ++ [tmpl]) ∧
      ((palfi_woken 1).event = 1 → r.bypass =
        if st.status3 = 1 then false else if st.status3 = 2 then true
        else (palfi_woken 1).bypass) ∧
      ((palfi_woken 1).event = 2 → r.bypass = (palfi_woken 1).bypass) :=
  ⟨Or.inl rfl, by decide,
    C19_lf_wakeup_branch cfg_two_channels miso_wake_a 0 (palfi_woken 1) (Or.inl rfl) (by decide)⟩

/-! ### Claims C11, C15 and C16 -/

theorem sub_build_uhfmsg_length (txq_hdr : List Nat) (fp_open : Bool) (buffer : List Int)
    (s : Palfi) :
    (sub_build_uhfmsg txq_hdr fp_open buffer s).data_start = txq_hdr.length + 2 ∧
    (sub_build_uhfmsg txq_hdr fp_open buffer s).txq.length =
      txq_hdr.length + 2 + (if s.wake_event = 0 then 12 else 21) := by
  unfold sub_build_uhfmsg
  by_cases h : s.wake_event = 0
  · simp [h, q_writebyte, q_writeshort, q_writestring]
  · simp [h, q_writebyte, q_writeshort, q_writestring]

/-- C11, where the code departs from it.  For every queue header, every pair of
ADC values and every PaLFi state, the bytes `sub_build_uhfmsg` writes from
`data_start` onward number 12 when `palfi.wake_event` is 0 and 21 when it is
not: never 23, the length the function hands to `vl_store` with the comment
that the length of this information is always 23 bytes. -/
theorem C11_message_is_12_or_21_bytes (txq_hdr : List Nat) (fp_open : Bool)
    (buffer : List Int) (s : Palfi) :
    (sub_build_uhfmsg txq_hdr fp_open buffer s).txq.length
        - (sub_build_uhfmsg txq_hdr fp_open buffer s).data_start
      = (if s.wake_event = 0 then 12 else 21) ∧
    (sub_build_uhfmsg txq_hdr fp_open buffer s).txq.length
        - (sub_build_uhfmsg txq_hdr fp_open buffer s).data_start ≠ 23 ∧
    (sub_build_uhfmsg txq_hdr true buffer s).stored = some 23 := by
  obtain ⟨h1, h2⟩ := sub_build_uhfmsg_length txq_hdr fp_open buffer s
  rw [h1, h2]
  refine ⟨by omega, ?_, rfl⟩
  split <;> omega

/-- The pulse width `sub_measurefreq_finish` stores through `t_pulse` when the
watchdog has not expired. -/
theorem sub_measurefreq_finish_tlow (cfg : PalfiCfg) (miso : List Nat → Nat) (s : Palfi)
    (hn : ¬ s.nextevent ≤ 0) :
    (sub_measurefreq_finish cfg miso false s).trim_tlow =
      s.trim_tlow.set s.channel (t_pulse_value cfg s) := by
  have key := via_clear (fun x : Palfi => x.trim_tlow.set x.channel (t_pulse_value cfg x))
    (fun _ => rfl) (palfi_readback_frame miso 8 { s with tim_ctl := TACLR })
  unfold sub_measurefreq_finish
  dsimp only
  rw [if_neg hn]
  exact key

/-- When nothing wraps (the edge counts and the capture values are in order
and the product of the edge count difference and the tick rate fits in 16
bits) the value computed is the documented ratio. -/
theorem t_pulse_value_no_wrap (cfg : PalfiCfg) (s : Palfi)
    (h1 : s.trim_startcount ≤ s.trim_endcount) (h2 : s.trim_endcount < 65536)
    (h3 : s.trim_startval ≤ s.trim_endval) (h4 : s.trim_endval < 65536)
    (h5 : (s.trim_endcount - s.trim_startcount)
      * (cfg.PLATFORM_HSCLOCK_HZ / cfg.PLATFORM_SMCLK_DIV) < 65536) :
    t_pulse_value cfg s =
      ((s.trim_endval - s.trim_startval : Nat) : Rat)
        / (((s.trim_endcount - s.trim_startcount)
            * (cfg.PLATFORM_HSCLOCK_HZ / cfg.PLATFORM_SMCLK_DIV) : Nat) : Rat) * 1000 := by
  have e1 : (s.trim_endcount + 65536 - s.trim_startcount % 65536) % 65536
      = s.trim_endcount - s.trim_startcount := by omega
  have e2 : (s.trim_endval + 65536 - s.trim_startval % 65536) % 65536
      = s.trim_endval - s.trim_startval := by omega
  unfold t_pulse_value
  simp only [e1, e2, Nat.mod_eq_of_lt h5]

/-- C15, where the code departs from it.  With the watchdog not expired and the
four integers of the scenario (`startval = 100`, `endval = 1100`,
`startcount = 20`, `endcount = 160`) at the tick rate the source names as
typical, 2.5 MHz, the product `num_periods = 140 * 2500000 = 350000000` does
not fit the 16-bit `ot_uint` it is computed in: it wraps to 37760, and the
pulse width stored is `1000 / 37760 * 1000`, not `1000 * 1000 / (140 * f)`. -/
theorem C15_num_periods_wraps :
    0 < palfi_measured.nextevent ∧
    palfi_measured.trim_startval = 100 ∧ palfi_measured.trim_endval = 1100 ∧
    palfi_measured.trim_startcount = 20 ∧ palfi_measured.trim_endcount = 160 ∧
    cfg_two_channels.PLATFORM_HSCLOCK_HZ / cfg_two_channels.PLATFORM_SMCLK_DIV = 2500000 ∧
    (160 - 20) * 2500000 = 350000000 ∧ 350000000 % 65536 = 37760 ∧
    (sub_measurefreq_finish cfg_two_channels miso_zero false palfi_measured).trim_tlow
      = [0, (1000 : Rat) / 37760 * 1000, 0, 0] ∧
    (1000 : Rat) / 37760 * 1000 ≠ 1000 * 1000 / (140 * 2500000) := by
  refine ⟨by decide, rfl, rfl, rfl, rfl, by decide, by decide, by decide, ?_, by norm_num⟩
  rw [sub_measurefreq_finish_tlow cfg_two_channels miso_zero palfi_measured (by decide)]
  have hn : (palfi_measured.trim_endcount + 65536 - palfi_measured.trim_startcount % 65536)
      % 65536 * (cfg_two_channels.PLATFORM_HSCLOCK_HZ / cfg_two_channels.PLATFORM_SMCLK_DIV)
      % 65536 = 37760 := by decide
  have hv : (palfi_measured.trim_endval + 65536 - palfi_measured.trim_startval % 65536)
      % 65536 = 1000 := by decide
  have ht : t_pulse_value cfg_two_channels palfi_measured = (1000 : Rat) / 37760 * 1000 := by
    unfold t_pulse_value
    simp only [hn, hv]
    norm_num
  rw [ht]
  rfl

/-- When no setup packet is pending and the vector is not
`USBVECINT_SETUP_PACKET_RECEIVED`, the routine returns FALSE. -/
theorem platform_isr_usb_no_setup (c : UsbCfg) (h : UsbHost) (fuel : Nat) (USBVECINT : Nat)
    (u : Usb) (h1 : u.USBIFG &&& c.SETUPIFG = 0)
    (h2 : USBVECINT &&& 0x3f ≠ c.USBVECINT_SETUP_PACKET_RECEIVED) :
    platform_isr_usb c h fuel USBVECINT u
      = some (0, h.void_handler (USBVECINT &&& 0x3f) u) := by
  unfold platform_isr_usb
  rw [if_neg (not_not.mpr h1)]
  simp only [Option.bind]
  rw [if_neg h2]

/-- C16, where the code departs from it.  With `SETUPIFG` set in `USBIFG` and
the vector `USBVECINT_NONE`, and also with no flag set and the vector
`USBVECINT_SETUP_PACKET_RECEIVED`, `platform_isr_usb` returns what
`SetupPacketInterruptHandler` returned, which is what
`usbDecodeAndProcessUsbRequest` returned for the packet: TRUE (1) when that
function asks for a wake-up.  With no flag set and another vector it returns
FALSE. -/
theorem C16_setup_packet_returns_wakeup :
    (platform_isr_usb usb_cfg usb_host_wake 1 0 { usb_idle with USBIFG := 0x04 }).map Prod.fst
      = some 1 ∧
    (platform_isr_usb usb_cfg usb_host_wake 1 0x20 usb_idle).map Prod.fst = some 1 ∧
    (platform_isr_usb usb_cfg usb_host_wake 1 0x12 usb_idle).map Prod.fst = some 0 := by
  refine ⟨by decide, by decide, by decide⟩

/-! ### A speed switch called again -/

theorem sub_voltage_config_RCC_CR (hw : Hardware) (fuel x : Nat) (s a : Clk)
    (h : sub_voltage_config hw fuel x s = some a) : a.RCC_CR = s.RCC_CR := by
  unfold sub_voltage_config at h
  cases hb : busy_wait (fun t => !hw.vosf t) fuel s.polls with
  | none => simp [hb, bind] at h
  | some t =>
    simp only [hb, bind, Option.bind, pure, Option.some.injEq] at h
    rw [← h]

theorem opt_voltage_config_RCC_CR (hw : Hardware) (fuel x : Nat) (c : Bool) (s a : Clk)
    (h : (if c = true then sub_voltage_config hw fuel x s else pure s) = some a) :
    a.RCC_CR = s.RCC_CR := by
  cases c with
  | true => exact sub_voltage_config_RCC_CR hw fuel x s a (by simpa using h)
  | false =>
    simp only [Bool.false_eq_true, if_false, pure, Option.some.injEq] at h
    rw [← h]

theorem sub_osc_setclock_loop_RCC_CR (hw : Hardware) (target : Nat) :
    ∀ (fuel : Nat) (s a : Clk), sub_osc_setclock_loop hw target fuel s = some a →
      a.RCC_CR = s.RCC_CR := by
  intro fuel
  induction fuel with
  | zero => intro s a h; exact Option.noConfusion h
  | succ n ih =>
    intro s a h
    unfold sub_osc_setclock_loop at h
    simp only [] at h
    split at h
    · have k := ih _ a h
      exact k
    · simp only [Option.some.injEq] at h
      rw [← h]

theorem sub_osc_setclock_RCC_CR (hw : Hardware) (fuel m : Nat) (s a : Clk)
    (h : sub_osc_setclock hw fuel m s = some a) : a.RCC_CR = s.RCC_CR := by
  unfold sub_osc_setclock at h
  have k := sub_osc_setclock_loop_RCC_CR hw _ fuel _ a h
  exact k

/-- The flash settings are written before or after the clock is selected; either
way `RCC->CR` is as before. -/
theorem flash_setclock_RCC_CR (hw : Hardware) (fuel m v w : Nat) (c : Bool) (s a : Clk)
    (h : (if c = true then sub_osc_setclock hw fuel m { s with FLASH_ACR := v }
          else (sub_osc_setclock hw fuel m s).map (fun s => { s with FLASH_ACR := w }))
        = some a) :
    a.RCC_CR = s.RCC_CR := by
  cases c with
  | true =>
    simp only [if_true] at h
    exact sub_osc_setclock_RCC_CR hw fuel m { s with FLASH_ACR := v } a h
  | false =>
    simp only [Bool.false_eq_true, if_false] at h
    cases hx : sub_osc_setclock hw fuel m s with
    | none => rw [hx] at h; exact Option.noConfusion h
    | some y =>
      rw [hx] at h
      simp only [Option.map, Option.some.injEq] at h
      rw [← h]
      exact sub_osc_setclock_RCC_CR hw fuel m s y hx

theorem platform_full_speed_noop (b : Board) (hw : Hardware) (fuel : Nat) (s : Clk)
    (h : s.RCC_CR &&& (RCC_CR_PLLON ||| RCC_CR_MSION) = 0) :
    platform_full_speed b hw fuel s = some s := by
  unfold platform_full_speed
  by_cases hb : b.FULLSPEED = true
  · rw [if_pos hb, if_neg (by simp [_FULLSPEED_OFF, hb, h])]
    rfl
  · rw [if_neg hb]
    rfl

theorem platform_standard_speed_noop (b : Board) (hw : Hardware) (fuel : Nat) (s : Clk)
    (h : s.RCC_CR &&& RCC_CR_MSION ≠ 0) :
    platform_standard_speed b hw fuel s = some s := by
  unfold platform_standard_speed
  by_cases hb : b.STDSPEED = true
  · rw [if_pos hb, if_neg (by simp [_STDSPEED_OFF, hb, h])]
    rfl
  · rw [if_neg hb]
    rfl

theorem platform_flank_speed_noop (b : Board) (hw : Hardware) (fuel : Nat) (s : Clk)
    (hb : b.FLANKSPEED = true) (h : s.RCC_CR &&& RCC_CR_PLLON ≠ 0) :
    platform_flank_speed b hw fuel s = some s := by
  unfold platform_flank_speed
  rw [if_pos hb, if_neg (by simp [_FLANKSPEED_OFF, hb, h])]
  rfl

/-- Whenever `platform_full_speed` returns, neither the PLL nor the MSI is on,
or the board has no full speed and nothing was done. -/
theorem platform_full_speed_twice (b : Board) (hw : Hardware) (fuel : Nat) (s a : Clk)
    (h : platform_full_speed b hw fuel s = some a) :
    platform_full_speed b hw fuel a = some a := by
  by_cases hb : b.FULLSPEED = true
  · by_cases hoff : _FULLSPEED_OFF b s = true
    · unfold platform_full_speed at h
      rw [if_pos hb, if_pos hoff] at h
      obtain ⟨s1, _, h⟩ := Option.bind_eq_some.mp h
      obtain ⟨s2, _, h⟩ := Option.bind_eq_some.mp h
      obtain ⟨s3, _, h⟩ := Option.bind_eq_some.mp h
      simp only [pure, Option.some.injEq] at h
      apply platform_full_speed_noop
      rw [← h, Nat.or_comm]
      exact and_not32_clear _ _ _ (by decide)
    · unfold platform_full_speed at h
      rw [if_pos hb, if_neg hoff] at h
      simp only [pure, Option.some.injEq] at h
      rw [← h]
      unfold platform_full_speed
      rw [if_pos hb, if_neg hoff]
      rfl
  · unfold platform_full_speed
    rw [if_neg hb]
    rfl

theorem platform_standard_speed_twice (b : Board) (hw : Hardware) (fuel : Nat) (s a : Clk)
    (h : platform_standard_speed b hw fuel s = some a) :
    platform_standard_speed b hw fuel a = some a := by
  by_cases hb : b.STDSPEED = true
  · by_cases hoff : _STDSPEED_OFF b s = true
    · unfold platform_standard_speed at h
      rw [if_pos hb, if_pos hoff] at h
      obtain ⟨s1, h1, h⟩ := Option.bind_eq_some.mp h
      obtain ⟨s2, h2, h⟩ := Option.bind_eq_some.mp h
      simp only [pure, Option.some.injEq] at h
      have c1 : s1.RCC_CR = s.RCC_CR ||| RCC_CR_MSION :=
        sub_osc_setclock_RCC_CR hw fuel 0 _ s1 h1
      have c2 : s2.RCC_CR = s1.RCC_CR := by
        have k := opt_voltage_config_RCC_CR hw fuel _ _ { s1 with FLASH_ACR := 0 } s2 h2
        exact k
      apply platform_standard_speed_noop
      rw [← h]
      have e : ∀ x : Nat, (x &&& not32 (RCC_CR_PLLON ||| RCC_CR_HSEON ||| _RCC_CR_HSI))
          &&& RCC_CR_MSION = x &&& RCC_CR_MSION :=
        fun x => and_not32_keep _ _ _ (by decide)
      refine ne_of_eq_of_ne (e _) ?_
      have k : s2.RCC_CR &&& RCC_CR_MSION ≠ 0 := by
        rw [c2, c1]; exact or_and_ne_zero _ _ (by decide)
      split <;> exact k
    · unfold platform_standard_speed at h
      rw [if_pos hb, if_neg hoff] at h
      simp only [pure, Option.some.injEq] at h
      rw [← h]
      unfold platform_standard_speed
      rw [if_pos hb, if_neg hoff]
      rfl
  · unfold platform_standard_speed
    rw [if_neg hb]
    rfl

theorem platform_ext_pllon_RCC_CR (b : Board) (hw : Hardware) (fuel : Nat) (s a : Clk)
    (hb : b.PLL = true) (h : platform_ext_pllon b hw fuel s = some a) :
    a.RCC_CR &&& RCC_CR_PLLON ≠ 0 := by
  unfold platform_ext_pllon at h
  rw [if_pos hb] at h
  obtain ⟨s1, _, h⟩ := Option.bind_eq_some.mp h
  obtain ⟨t, _, h⟩ := Option.bind_eq_some.mp h
  simp only [pure, Option.some.injEq] at h
  rw [← h]
  exact or_and_ne_zero _ _ (by decide)

theorem platform_flank_speed_twice (b : Board) (hw : Hardware) (fuel : Nat) (s a : Clk)
    (hK : b.FLANKSPEED = true → b.PLL = true)
    (h : platform_flank_speed b hw fuel s = some a) :
    platform_flank_speed b hw fuel a = some a := by
  by_cases hb : b.FLANKSPEED = true
  · by_cases hoff : _FLANKSPEED_OFF b s = true
    · unfold platform_flank_speed at h
      rw [if_pos hb, if_pos hoff] at h
      obtain ⟨s1, h1, h⟩ := Option.bind_eq_some.mp h
      obtain ⟨s2, h2, h⟩ := Option.bind_eq_some.mp h
      simp only [pure, Option.some.injEq] at h
      have c1 : s1.RCC_CR &&& RCC_CR_PLLON ≠ 0 :=
        platform_ext_pllon_RCC_CR b hw fuel _ s1 (hK hb) h1
      have c2 : s2.RCC_CR = s1.RCC_CR := by
        have k := flash_setclock_RCC_CR hw fuel _ _ _ _ _ s2 h2
        rw [k]
        split <;> rfl
      apply platform_flank_speed_noop b hw fuel a hb
      rw [← h]
      have e : ∀ x : Nat, (x &&& not32 RCC_CR_MSION) &&& RCC_CR_PLLON = x &&& RCC_CR_PLLON :=
        fun x => and_not32_keep _ _ _ (by decide)
      refine ne_of_eq_of_ne (e _) ?_
      have k : s2.RCC_CR &&& RCC_CR_PLLON ≠ 0 := by rw [c2]; exact c1
      split <;> exact k
    · unfold platform_flank_speed at h
      rw [if_pos hb, if_neg hoff] at h
      simp only [pure, Option.some.injEq] at h
      rw [← h]
      unfold platform_flank_speed
      rw [if_pos hb, if_neg hoff]
      rfl
  · unfold platform_flank_speed at h ⊢
    rw [if_neg hb] at h ⊢
    exact platform_full_speed_twice b hw fuel s a h

theorem bind_self_of_twice {α : Type} (m : Option α) (f : α → Option α)
    (h : ∀ a, m = some a → f a = some a) : m.bind f = m := by
  cases m with
  | none => rfl
  | some a => exact h a rfl

/-! ### Claims C21 to C25 -/

/-- The state `PALFI_TIM_ISR` leaves, field by field. -/
theorem PALFI_TIM_ISR_eq (count_mod CCR0_first CCR0_second : Nat) (s : Palfi) :
    PALFI_TIM_ISR count_mod CCR0_first CCR0_second s =
      { s with
        trim_count := (s.trim_count + 1) % count_mod,
        trim_startval := if s.trim_count = s.trim_startcount then CCR0_first
                         else s.trim_startval,
        trim_endval := if (s.trim_count + 1) % count_mod = s.trim_endcount then CCR0_second
                       else s.trim_endval,
        tim_ccie := if (s.trim_count + 1) % count_mod = s.trim_endcount then false
                    else s.tim_ccie } := by
  unfold PALFI_TIM_ISR
  by_cases h1 : s.trim_count = s.trim_startcount
  · by_cases h2 : (s.trim_count + 1) % count_mod = s.trim_endcount
    · rw [if_pos h1, if_pos h2, if_pos h1, if_pos h2, if_pos h2]
    · rw [if_pos h1, if_neg h2, if_pos h1, if_neg h2, if_neg h2]
  · by_cases h2 : (s.trim_count + 1) % count_mod = s.trim_endcount
    · rw [if_neg h1, if_pos h2, if_neg h1, if_pos h2, if_pos h2]
    · rw [if_neg h1, if_neg h2, if_neg h1, if_neg h2, if_neg h2]

/-- C21.  Every invocation of `PALFI_TIM_ISR` adds one to `palfi.trim.count`
(in the arithmetic of its type, so exactly one whenever the count is below the
maximum); `startval` takes the value of the capture register exactly when the
invocation begins with `count == startcount` and is left as it is otherwise;
`endval` takes the value of the capture register and the capture interrupt
enable is cleared exactly when `count == endcount` after the increment, and
both are left as they are otherwise; the counts to wait for are not changed. -/
theorem C21_edge_capture_bookkeeping (count_mod CCR0_first CCR0_second : Nat) (s : Palfi) :
    (PALFI_TIM_ISR count_mod CCR0_first CCR0_second s).trim_count
      = (s.trim_count + 1) % count_mod ∧
    (s.trim_count + 1 < count_mod →
      (PALFI_TIM_ISR count_mod CCR0_first CCR0_second s).trim_count = s.trim_count + 1) ∧
    (PALFI_TIM_ISR count_mod CCR0_first CCR0_second s).trim_startval
      = (if s.trim_count = s.trim_startcount then CCR0_first else s.trim_startval) ∧
    (PALFI_TIM_ISR count_mod CCR0_first CCR0_second s).trim_endval
      = (if (s.trim_count + 1) % count_mod = s.trim_endcount then CCR0_second
         else s.trim_endval) ∧
    (PALFI_TIM_ISR count_mod CCR0_first CCR0_second s).tim_ccie
      = (if (s.trim_count + 1) % count_mod = s.trim_endcount then false else s.tim_ccie) ∧
    (PALFI_TIM_ISR count_mod CCR0_first CCR0_second s).trim_startcount = s.trim_startcount ∧
    (PALFI_TIM_ISR count_mod CCR0_first CCR0_second s).trim_endcount = s.trim_endcount := by
  rw [PALFI_TIM_ISR_eq]
  exact ⟨rfl, fun hlt => Nat.mod_eq_of_lt hlt, rfl, rfl, rfl, rfl, rfl⟩

/-- C22.  On every board (flank speed needs the PLL, as the source demands) and
from every state: `platform_full_speed` called with neither the PLL nor the MSI
on, `platform_standard_speed` called with the MSI on, and `platform_flank_speed`
called on a board with flank speed with the PLL on, return at once with the
whole state as it was: registers, interrupt enable, `clock_hz` and all.  On a
board without flank speed `platform_flank_speed` is `platform_full_speed`.
Each of the three, called a second time right after it returned, returns the
state of the first call; and when the first call does not return, there is no
second call. -/
theorem C22_speed_switches_idempotent (b : Board) (hw : Hardware) (fuel : Nat) (s : Clk)
    (hK : b.FLANKSPEED = true → b.PLL = true) :
    (s.RCC_CR &&& RCC_CR_PLLON = 0 → s.RCC_CR &&& RCC_CR_MSION = 0 →
      platform_full_speed b hw fuel s = some s) ∧
    (s.RCC_CR &&& RCC_CR_MSION ≠ 0 → platform_standard_speed b hw fuel s = some s) ∧
    (b.FLANKSPEED = true → s.RCC_CR &&& RCC_CR_PLLON ≠ 0 →
      platform_flank_speed b hw fuel s = some s) ∧
    (b.FLANKSPEED = false → platform_flank_speed b hw fuel s = platform_full_speed b hw fuel s) ∧
    (platform_full_speed b hw fuel s).bind (platform_full_speed b hw fuel)
      = platform_full_speed b hw fuel s ∧
    (platform_standard_speed b hw fuel s).bind (platform_standard_speed b hw fuel)
      = platform_standard_speed b hw fuel s ∧
    (platform_flank_speed b hw fuel s).bind (platform_flank_speed b hw fuel)
      = platform_flank_speed b hw fuel s := by
  refine ⟨fun h1 h2 => ?_, platform_standard_speed_noop b hw fuel s,
    platform_flank_speed_noop b hw fuel s, fun hb => ?_,
    bind_self_of_twice _ _ (platform_full_speed_twice b hw fuel s),
    bind_self_of_twice _ _ (platform_standard_speed_twice b hw fuel s),
    bind_self_of_twice _ _ (fun a => platform_flank_speed_twice b hw fuel s a hK)⟩
  · apply platform_full_speed_noop
    rw [Nat.and_or_distrib_left, h1, h2]
    rfl
  · unfold platform_flank_speed
    rw [if_neg (by rw [hb]; decide)]

/-- C22 at a concrete run: from the boot state (MSI on) with hardware that
answers at once, the switch to standard speed changes nothing, and each switch
called twice gives the state of one call. -/
theorem C22_speed_switches_idempotent_witness :
    (board_all.FLANKSPEED = true → board_all.PLL = true) ∧
    platform_standard_speed board_all hw_ideal 1 clk_boot = some clk_boot ∧
    (platform_full_speed board_all hw_ideal 1 clk_boot).bind (platform_full_speed board_all hw_ideal 1)
      = platform_full_speed board_all hw_ideal 1 clk_boot ∧
    (platform_full_speed board_all hw_ideal 1 clk_boot).isSome = true ∧
    (platform_flank_speed board_all hw_ideal 1 clk_boot).bind
        (platform_flank_speed board_all hw_ideal 1)
      = platform_flank_speed board_all hw_ideal 1 clk_boot ∧
    (platform_flank_speed board_all hw_ideal 1 clk_boot).isSome = true :=
  have h := C22_speed_switches_idempotent board_all hw_ideal 1 clk_boot (fun _ => rfl)
  ⟨fun _ => rfl, h.2.1 (by decide), h.2.2.2.2.1, by decide, h.2.2.2.2.2.2, by decide⟩

/-- C23.  For every queue header, pair of ADC values and PaLFi state, the
transmit queue after `sub_build_uhfmsg` is the header, the two UDP port bytes
255, 255 and then, from `data_start`: `'T'` and the two bytes of `buffer[0]`,
`'V'` and the two bytes of `buffer[1]`, `'R'` and `rssi1`, `rssi2`, `rssi3`,
`'E'` and `palfi.wake_event`, and after these `'D'` and the 8 bytes of
`palfi.rxdata` exactly when `palfi.wake_event` is nonzero. -/
theorem C23_message_layout (txq_hdr : List Nat) (fp_open : Bool) (buffer : List Int)
    (s : Palfi) :
    (sub_build_uhfmsg txq_hdr fp_open buffer s).data_start = (txq_hdr ++ [255, 255]).length ∧
    (sub_build_uhfmsg txq_hdr fp_open buffer s).txq =
      (txq_hdr ++ [255, 255]) ++
      [84, (buffer.getD 0 0 % 65536).toNat / 256, (buffer.getD 0 0 % 65536).toNat % 256,
       86, (buffer.getD 1 0 % 65536).toNat / 256, (buffer.getD 1 0 % 65536).toNat % 256,
       82, s.rssi1 % 256, s.rssi2 % 256, s.rssi3 % 256,
       69, s.wake_event % 256] ++
      (if s.wake_event ≠ 0 then
        68 :: (List.range 8).map (fun i => s.rxdata.getD i 0 % 256)
       else []) ∧
    ('T'.toNat = 84 ∧ 'V'.toNat = 86 ∧ 'R'.toNat = 82 ∧ 'E'.toNat = 69 ∧ 'D'.toNat = 68) := by
  refine ⟨by simp [sub_build_uhfmsg, q_writebyte], ?_, by decide⟩
  unfold sub_build_uhfmsg
  by_cases h : s.wake_event = 0
  · simp [h, q_writebyte, q_writeshort, q_writestring, List.range_succ]
  · simp [h, q_writebyte, q_writeshort, q_writestring, List.range_succ]

/-- C24.  For a channel `c` in {1, 2, 3}, every `trim_val` and every
`base_val`, `sub_program_channels` sends exactly the seven bytes
`6, 0xF3, 0x02, a, t1, t2, t3` with `a = base_val + c + (1 if c = 3)` modulo
256, the slot of channel `c` holding `trim_val & 0x7F` (of the `ot_u8` value)
and the two other slots 0. -/
theorem C24_trim_command_layout (miso : List Nat → Nat) (c trim_val base_val : Nat)
    (s : Palfi) (hc : c = 1 ∨ c = 2 ∨ c = 3) :
    (sub_program_channels miso c trim_val base_val s).spi_tx =
      s.spi_tx ++ [6, 0xF3, 0x02, (base_val + c + (if c = 3 then 1 else 0)) % 256,
        if c = 1 then (trim_val % 256) &&& 0x7F else 0,
        if c = 2 then (trim_val % 256) &&& 0x7F else 0,
        if c = 3 then (trim_val % 256) &&& 0x7F else 0] := by
  have ht : ((trim_val % 256) &&& 0x7F) % 256 = (trim_val % 256) &&& 0x7F :=
    Nat.mod_eq_of_lt (Nat.lt_of_le_of_lt Nat.and_le_right (by decide))
  unfold sub_program_channels palfi_writeout
  rw [palfi_writeout_loop_spi_tx]
  congr 1
  rcases hc with rfl | rfl | rfl
  · simp [CH3, List.range_succ, ht]
  · simp [CH3, List.range_succ, ht]
  · simp [CH3, List.range_succ, ht]

/-- C24 at a concrete call: channel 3, `trim_val = 0xFF`, `base_val = 0x38`. -/
theorem C24_trim_command_layout_witness :
    ((3 : Nat) = 1 ∨ (3 : Nat) = 2 ∨ (3 : Nat) = 3) ∧
    (sub_program_channels miso_zero 3 0xFF 0x38 palfi_idle).spi_tx
      = [6, 0xF3, 0x02, 0x3C, 0, 0, 0x7F] :=
  ⟨Or.inr (Or.inr rfl),
    C24_trim_command_layout miso_zero 3 0xFF 0x38 palfi_idle (Or.inr (Or.inr rfl))⟩

theorem palfi_writeout_while_loop_spec (miso : List Nat → Nat) :
    ∀ (k fuel : Nat) (src : List Nat) (s : Palfi), k ≤ 256 → k + 1 ≤ fuel →
      palfi_writeout_while_loop miso fuel ((k : Int) - 1) src s
        = some (palfi_writeout_loop miso k src s) := by
  intro k
  induction k with
  | zero =>
    intro fuel src s _ hf
    obtain ⟨f, rfl⟩ : ∃ f, fuel = f + 1 := ⟨fuel - 1, by omega⟩
    unfold palfi_writeout_while_loop
    rw [if_neg (by decide)]
    rfl
  | succ k ih =>
    intro fuel src s hk hf
    obtain ⟨f, rfl⟩ : ∃ f, fuel = f + 1 := ⟨fuel - 1, by omega⟩
    unfold palfi_writeout_while_loop
    rw [if_pos (by omega)]
    have e : (((k + 1 : Nat) : Int) - 1 - 1 + 32768) % 65536 - 32768 = (k : Int) - 1 := by
      omega
    simp only [e]
    rw [ih f _ _ (by omega) (by omega)]
    rfl

/-- C25.  For every command buffer `n, p1, ..., pn` with `n` from 0 to 255,
the loop of `palfi_writeout` as written (signed 16-bit counter) ends after
`n + 2` tests of its condition, having made exactly `n + 1` transfers that
sent the bytes of the buffer in order, the length byte first; every transfer
is taken to complete. -/
theorem C25_writeout_transfers (miso : List Nat → Nat) (n : Nat) (payload : List Nat)
    (s : Palfi) (fuel : Nat) (hn : n ≤ 255) (hp : payload.length = n) (hf : n + 2 ≤ fuel) :
    palfi_writeout_while miso fuel (n :: payload) s
      = some (palfi_writeout miso (n :: payload) s) ∧
    (palfi_writeout miso (n :: payload) s).spi_tx
      = s.spi_tx ++ (n :: payload).map (fun x => x % 256) ∧
    (palfi_writeout miso (n :: payload) s).spi_tx.length = s.spi_tx.length + (n + 1) := by
  have hh : (n :: payload).headD 0 % 256 = n := Nat.mod_eq_of_lt (by simp; omega)
  have h1 : palfi_writeout_while miso fuel (n :: payload) s
      = some (palfi_writeout miso (n :: payload) s) := by
    unfold palfi_writeout_while palfi_writeout
    simp only [hh]
    have := palfi_writeout_while_loop_spec miso (n + 1) fuel (n :: payload) s (by omega)
      (by omega)
    simpa using this
  have h2 : (palfi_writeout miso (n :: payload) s).spi_tx
      = s.spi_tx ++ (n :: payload).map (fun x => x % 256) := by
    unfold palfi_writeout
    simp only [hh]
    rw [palfi_writeout_loop_spi_tx]
    congr 1
    apply List.ext_getElem
    · simp [hp]
    · intro i hi1 hi2
      simp only [List.getElem_map, List.getElem_range]
      rw [List.getD_eq_getElem _ _ (by simpa using hi2)]
  refine ⟨h1, h2, ?_⟩
  rw [h2]
  simp [hp]

/-- C25 at a concrete call: the power-down command of `palfi_powerdown`. -/
theorem C25_writeout_transfers_witness :
    (3 : Nat) ≤ 255 ∧ [0xF3, 0x41, 0x0F].length = 3 ∧ 3 + 2 ≤ 5 ∧
    palfi_writeout_while miso_zero 5 [3, 0xF3, 0x41, 0x0F] palfi_idle
      = some (palfi_writeout miso_zero [3, 0xF3, 0x41, 0x0F] palfi_idle) ∧
    (palfi_writeout miso_zero [3, 0xF3, 0x41, 0x0F] palfi_idle).spi_tx
      = [3, 0xF3, 0x41, 0x0F] :=
  have h := C25_writeout_transfers miso_zero 3 [0xF3, 0x41, 0x0F] palfi_idle 5 (by decide) rfl
    (by decide)
  ⟨by decide, rfl, by decide, h.1, h.2.1⟩

/-! ### Claims C4 and C8: the directives that reach the action manager -/

end OpenTag
